import Mathlib

/-!
Verification of the O24by5mb benchmark-database module (psi4 share databases).

The module is a static data table builder: it enumerates 120 reaction keys
(24 reactions crossed with 5 distance labels), partitions them into three
interaction-category subsets, builds the stoichiometric reaction matrix and the
active-reagent lists, stores 120 literal reference energies in reciprocal
centimeters and rescales them in place by the constant 349.7551, stores tag
strings, stores 120 literal dimer geometries, and derives per reaction the two
counterpoise monomer geometries by fragment extraction.

The embedding below mirrors the source tables as association lists in source
order. Python dictionaries keyed by distinct strings are embedded as
association lists queried through List.lookup. The geometry text blocks are
embedded structurally: per fragment a charge and spin multiplicity (absent for
the trailing ghost-anchor fragment, which carries no charge line in the
source), and a list of atomic records with exact decimal coordinates as
rational numbers.
-/

set_option maxRecDepth 8000
set_option maxHeartbeats 1600000

/-- One atomic record of a geometry block: element symbol, ghost marker
(true for a basis-only center written Gh(X) in the source), and exact
Cartesian coordinates. -/
structure Atom where
  el : String
  ghost : Bool
  x : ℚ
  y : ℚ
  z : ℚ
deriving DecidableEq

/-- One fragment of a geometry block: the charge and spin multiplicity of its
leading line (none when the source block gives the fragment no such line, as
for the trailing ghost anchor), and its atomic records in source order. -/
structure Fragment where
  charge : Option Int
  mult : Option Nat
  atoms : List Atom
deriving DecidableEq

/-- A structured molecule: the fragments of the block in order, plus the
interpretation directives the block declares (units, orientation and
center-of-mass fixing, symmetry). -/
structure Molecule where
  fragments : List Fragment
  units : String
  no_reorient : Bool
  no_com : Bool
  symmetry : String
deriving DecidableEq

/-- Database namespace prefix of every key. -/
def dbse : String := "O24by5mb"

/-- The five distance-scaling suffixes. -/
def DIST : List String := ["-0.9", "-1.0", "-1.2", "-1.5", "-2.0"]

/-- The 120 reaction identifiers: indices 1..24 crossed with the five
distance labels, index outermost, exactly as the source comprehension. -/
def HRXN : List String :=
  (List.range' 1 24).flatMap (fun rxn => DIST.map (fun d => toString rxn ++ d))

/-- Dispersion-dominated subset: reactions 1..9 crossed with the distances. -/
def HRXN_DD : List String :=
  ([1, 2, 3, 4, 5, 6, 7, 8, 9] : List Nat).flatMap
    (fun rxn => DIST.map (fun d => toString rxn ++ d))

/-- Electrostatically-dominated subset: reactions 10..15. -/
def HRXN_ED : List String :=
  ([10, 11, 12, 13, 14, 15] : List Nat).flatMap
    (fun rxn => DIST.map (fun d => toString rxn ++ d))

/-- Mixed-interaction subset: reactions 16..24. -/
def HRXN_MX : List String :=
  ([16, 17, 18, 19, 20, 21, 22, 23, 24] : List Nat).flatMap
    (fun rxn => DIST.map (fun d => toString rxn ++ d))

/-- Reaction matrix of reagent contributions per reaction: dimer +1 and the
two counterpoise monomers -1 each, built over HRXN in order. -/
def RXNM : List (String × List (String × Int)) :=
  HRXN.map (fun rxn =>
    (dbse ++ "-" ++ rxn,
      [(dbse ++ "-" ++ rxn ++ "-dimer", 1),
       (dbse ++ "-" ++ rxn ++ "-monoA-CP", -1),
       (dbse ++ "-" ++ rxn ++ "-monoB-CP", -1)]))

/-- Order of active reagents per counterpoise-corrected reaction. -/
def ACTV : List (String × List String) :=
  HRXN.map (fun rxn =>
    (dbse ++ "-" ++ rxn,
      [dbse ++ "-" ++ rxn ++ "-dimer",
       dbse ++ "-" ++ rxn ++ "-monoA-CP",
       dbse ++ "-" ++ rxn ++ "-monoB-CP"]))

/-- Order of active reagents for non-supermolecular calculations: the dimer
alone. -/
def ACTV_SA : List (String × List String) :=
  HRXN.map (fun rxn => (dbse ++ "-" ++ rxn, [dbse ++ "-" ++ rxn ++ "-dimer"]))

/-- Order of active reagents per counterpoise-corrected reaction (second
copy kept by the source). -/
def ACTV_CP : List (String × List String) :=
  HRXN.map (fun rxn =>
    (dbse ++ "-" ++ rxn,
      [dbse ++ "-" ++ rxn ++ "-dimer",
       dbse ++ "-" ++ rxn ++ "-monoA-CP",
       dbse ++ "-" ++ rxn ++ "-monoB-CP"]))

/-- Conversion constant between energy units used by the rescaling pass. -/
def KCALMOL2WAVENUMBERS : ℚ := 349.7551

/-- The literal reference-energy table of the source (original publication
values in reciprocal centimeters), entry order as written in the source. -/
def BIND_cm : List (String × ℚ) := [
  ("O24by5mb-1-0.9", 4.26),
  ("O24by5mb-1-1.0", -19.58),
  ("O24by5mb-1-1.2", -11.24),
  ("O24by5mb-1-1.5", -2.91),
  ("O24by5mb-1-2.0", -0.48),
  ("O24by5mb-2-0.9", -7.28),
  ("O24by5mb-2-1.0", -19.69),
  ("O24by5mb-2-1.2", -10.38),
  ("O24by5mb-2-1.5", -2.73),
  ("O24by5mb-2-2.0", -0.41),
  ("O24by5mb-3-0.9", 1.78),
  ("O24by5mb-3-1.0", -34.94),
  ("O24by5mb-3-1.2", -10.96),
  ("O24by5mb-3-1.5", 2.75),
  ("O24by5mb-3-2.0", 2.27),
  ("O24by5mb-4-0.9", -16.64),
  ("O24by5mb-4-1.0", -54.60),
  ("O24by5mb-4-1.2", -31.11),
  ("O24by5mb-4-1.5", -8.46),
  ("O24by5mb-4-2.0", -1.40),
  ("O24by5mb-5-0.9", -88.71),
  ("O24by5mb-5-1.0", -98.44),
  ("O24by5mb-5-1.2", -42.26),
  ("O24by5mb-5-1.5", -10.30),
  ("O24by5mb-5-2.0", -1.59),
  ("O24by5mb-6-0.9", 52.69),
  ("O24by5mb-6-1.0", -110.43),
  ("O24by5mb-6-1.2", -66.45),
  ("O24by5mb-6-1.5", -16.57),
  ("O24by5mb-6-2.0", -2.59),
  ("O24by5mb-7-0.9", -31.62),
  ("O24by5mb-7-1.0", -113.64),
  ("O24by5mb-7-1.2", -62.69),
  ("O24by5mb-7-1.5", -16.71),
  ("O24by5mb-7-2.0", -2.75),
  ("O24by5mb-8-0.9", -13.09),
  ("O24by5mb-8-1.0", -125.01),
  ("O24by5mb-8-1.2", -59.42),
  ("O24by5mb-8-1.5", -8.94),
  ("O24by5mb-8-2.0", 0.95),
  ("O24by5mb-9-0.9", -66.46),
  ("O24by5mb-9-1.0", -134.40),
  ("O24by5mb-9-1.2", -71.34),
  ("O24by5mb-9-1.5", -19.24),
  ("O24by5mb-9-2.0", -3.15),
  ("O24by5mb-10-0.9", -465.81),
  ("O24by5mb-10-1.0", -697.47),
  ("O24by5mb-10-1.2", -459.91),
  ("O24by5mb-10-1.5", -205.70),
  ("O24by5mb-10-2.0", -76.67),
  ("O24by5mb-11-0.9", -762.53),
  ("O24by5mb-11-1.0", -1027.31),
  ("O24by5mb-11-1.2", -731.41),
  ("O24by5mb-11-1.5", -339.71),
  ("O24by5mb-11-2.0", -125.01),
  ("O24by5mb-12-0.9", -645.24),
  ("O24by5mb-12-1.0", -1791.08),
  ("O24by5mb-12-1.2", -1283.10),
  ("O24by5mb-12-1.5", -521.59),
  ("O24by5mb-12-2.0", -137.13),
  ("O24by5mb-13-0.9", -1431.56),
  ("O24by5mb-13-1.0", -1983.78),
  ("O24by5mb-13-1.2", -1352.50),
  ("O24by5mb-13-1.5", -598.20),
  ("O24by5mb-13-2.0", -206.86),
  ("O24by5mb-14-0.9", -2408.67),
  ("O24by5mb-14-1.0", -2647.19),
  ("O24by5mb-14-1.2", -1597.02),
  ("O24by5mb-14-1.5", -678.35),
  ("O24by5mb-14-2.0", -234.81),
  ("O24by5mb-15-0.9", -3965.73),
  ("O24by5mb-15-1.0", -5014.58),
  ("O24by5mb-15-1.2", -3810.80),
  ("O24by5mb-15-1.5", -1673.44),
  ("O24by5mb-15-2.0", -422.38),
  ("O24by5mb-16-0.9", -14.70),
  ("O24by5mb-16-1.0", -36.31),
  ("O24by5mb-16-1.2", -24.41),
  ("O24by5mb-16-1.5", -7.19),
  ("O24by5mb-16-2.0", -1.13),
  ("O24by5mb-17-0.9", -16.05),
  ("O24by5mb-17-1.0", -50.41),
  ("O24by5mb-17-1.2", -28.51),
  ("O24by5mb-17-1.5", -7.71),
  ("O24by5mb-17-2.0", -1.26),
  ("O24by5mb-18-0.9", -87.23),
  ("O24by5mb-18-1.0", -103.77),
  ("O24by5mb-18-1.2", -73.10),
  ("O24by5mb-18-1.5", -25.73),
  ("O24by5mb-18-2.0", -4.32),
  ("O24by5mb-19-0.9", -73.37),
  ("O24by5mb-19-1.0", -223.22),
  ("O24by5mb-19-1.2", -126.50),
  ("O24by5mb-19-1.5", -35.99),
  ("O24by5mb-19-2.0", -6.77),
  ("O24by5mb-20-0.9", -210.40),
  ("O24by5mb-20-1.0", -259.27),
  ("O24by5mb-20-1.2", -188.18),
  ("O24by5mb-20-1.5", -75.17),
  ("O24by5mb-20-2.0", -14.25),
  ("O24by5mb-21-0.9", -187.20),
  ("O24by5mb-21-1.0", -266.29),
  ("O24by5mb-21-1.2", -132.52),
  ("O24by5mb-21-1.5", -36.14),
  ("O24by5mb-21-2.0", -6.37),
  ("O24by5mb-22-0.9", -366.42),
  ("O24by5mb-22-1.0", -658.94),
  ("O24by5mb-22-1.2", -415.05),
  ("O24by5mb-22-1.5", -140.79),
  ("O24by5mb-22-2.0", -31.54),
  ("O24by5mb-23-0.9", -826.91),
  ("O24by5mb-23-1.0", -1018.90),
  ("O24by5mb-23-1.2", -790.24),
  ("O24by5mb-23-1.5", -341.29),
  ("O24by5mb-23-2.0", -74.18),
  ("O24by5mb-24-0.9", -8922.76),
  ("O24by5mb-24-1.0", -10324.99),
  ("O24by5mb-24-1.2", -7656.09),
  ("O24by5mb-24-1.5", -3703.01),
  ("O24by5mb-24-2.0", -1641.58)]

/-- The literal comment-line table of the source, entry order as written. -/
def TAGL : List (String × String) := [
  ("O24by5mb-1-0.9", " CN He R=0.9"),
  ("O24by5mb-1-0.9-dimer", "Dimer from CN - He"),
  ("O24by5mb-1-0.9-monoA-CP", "Monomer A CN - He"),
  ("O24by5mb-1-0.9-monoB-CP", "Monomer B CN - He"),
  ("O24by5mb-1-1.0", " CN He R=1.0"),
  ("O24by5mb-1-1.0-dimer", "Dimer from CN He"),
  ("O24by5mb-1-1.0-monoA-CP", "Monomer A CN - He"),
  ("O24by5mb-1-1.0-monoB-CP", "Monomer B CN - He"),
  ("O24by5mb-1-1.2", " CN He R=1.2"),
  ("O24by5mb-1-1.2-dimer", "Dimer from CN He"),
  ("O24by5mb-1-1.2-monoA-CP", "Monomer A CN - He"),
  ("O24by5mb-1-1.2-monoB-CP", "Monomer B CN - He"),
  ("O24by5mb-1-1.5", " CN He R=1.5"),
  ("O24by5mb-1-1.5-dimer", "Dimer from CN - He"),
  ("O24by5mb-1-1.5-monoA-CP", "Monomer A CN - He"),
  ("O24by5mb-1-1.5-monoB-CP", "Monomer B CN - He"),
  ("O24by5mb-1-2.0", " CN He R=2.0"),
  ("O24by5mb-1-2.0-dimer", "Dimer from CN - He"),
  ("O24by5mb-1-2.0-monoA-CP", "Monomer A CN - He"),
  ("O24by5mb-1-2.0-monoB-CP", "Monomer B CN - He"),
  ("O24by5mb-2-0.9", " NH He R=0.9"),
  ("O24by5mb-2-0.9-dimer", "Dimer from NH - He"),
  ("O24by5mb-2-0.9-monoA-CP", "Monomer A NH - He"),
  ("O24by5mb-2-0.9-monoB-CP", "Monomer B NH - He"),
  ("O24by5mb-2-1.0", " NH He "),
  ("O24by5mb-2-1.0-dimer", "Dimer from NH - He"),
  ("O24by5mb-2-1.0-monoA-CP", "Monomer A NH - He"),
  ("O24by5mb-2-1.0-monoB-CP", "Monomer B NH - He"),
  ("O24by5mb-2-1.2", " NH He R=1.2"),
  ("O24by5mb-2-1.2-dimer", "Dimer from NH - He"),
  ("O24by5mb-2-1.2-monoA-CP", "Monomer A NH - He"),
  ("O24by5mb-2-1.2-monoB-CP", "Monomer B NH - He"),
  ("O24by5mb-2-1.5", " NH He R=1.5"),
  ("O24by5mb-2-1.5-dimer", "Dimer from NH - He"),
  ("O24by5mb-2-1.5-monoA-CP", "Monomer A NH - He"),
  ("O24by5mb-2-1.5-monoB-CP", "Monomer B NH - He"),
  ("O24by5mb-2-2.0", " NH He R=2.0"),
  ("O24by5mb-2-2.0-dimer", "Dimer from NH - He"),
  ("O24by5mb-2-2.0-monoA-CP", "Monomer A NH - He"),
  ("O24by5mb-2-2.0-monoB-CP", "Monomer B NH - He"),
  ("O24by5mb-3-0.9", " C2H3 - C2H4 R=0.9"),
  ("O24by5mb-3-0.9-dimer", "Dimer from C2H3 - C2H4"),
  ("O24by5mb-3-0.9-monoA-CP", "Monomer A C2H3 - C2H4"),
  ("O24by5mb-3-0.9-monoB-CP", "Monomer B C2H3 - C2H4"),
  ("O24by5mb-3-1.0", " C2H3 - C2H4 R=1.0"),
  ("O24by5mb-3-1.0-dimer", "Dimer from C2H3 - C2H4"),
  ("O24by5mb-3-1.0-monoA-CP", "Monomer A C2H3 - C2H4"),
  ("O24by5mb-3-1.0-monoB-CP", "Monomer B C2H3 - C2H4"),
  ("O24by5mb-3-1.2", " C2H3 - C2H4 R=1.2"),
  ("O24by5mb-3-1.2-dimer", "Dimer from C2H3 - C2H4"),
  ("O24by5mb-3-1.2-monoA-CP", "Monomer A C2H3 - C2H4"),
  ("O24by5mb-3-1.2-monoB-CP", "Monomer B C2H3 - C2H4"),
  ("O24by5mb-3-1.5", "C2H3 C2H4 R=1.5"),
  ("O24by5mb-3-1.5-dimer", "Dimer from C2H3 - C2H4"),
  ("O24by5mb-3-1.5-monoA-CP", "Monomer A C2H3 - C2H4"),
  ("O24by5mb-3-1.5-monoB-CP", "Monomer B C2H3 - C2H4"),
  ("O24by5mb-3-2.0", " C2H3 C2H4 R=2.0"),
  ("O24by5mb-3-2.0-dimer", "Dimer from C2H3 - C2H4"),
  ("O24by5mb-3-2.0-monoA-CP", "Monomer A C2H3 - C2H4"),
  ("O24by5mb-3-2.0-monoB-CP", "Monomer B C2H3 - C2H4"),
  ("O24by5mb-4-0.9", " O2 H2 R=0.9"),
  ("O24by5mb-4-0.9-dimer", "Dimer from O2 - H2"),
  ("O24by5mb-4-0.9-monoA-CP", "Monomer A O2 - H2"),
  ("O24by5mb-4-0.9-monoB-CP", "Monomer B O2 - H2"),
  ("O24by5mb-4-1.0", " O2 H2 R=1.0"),
  ("O24by5mb-4-1.0-dimer", "Dimer from O2 - H2"),
  ("O24by5mb-4-1.0-monoA-CP", "Monomer A O2 - H2"),
  ("O24by5mb-4-1.0-monoB-CP", "Monomer B O2 - H2"),
  ("O24by5mb-4-1.2", " O2 H2 R=1.2"),
  ("O24by5mb-4-1.2-dimer", "Dimer from O2 - H2"),
  ("O24by5mb-4-1.2-monoA-CP", "Monomer A O2 - H2"),
  ("O24by5mb-4-1.2-monoB-CP", "Monomer B O2 - H2"),
  ("O24by5mb-4-1.5", " O2 H2 R=1.5"),
  ("O24by5mb-4-1.5-dimer", "Dimer from O2 - H2"),
  ("O24by5mb-4-1.5-monoA-CP", "Monomer A O2 - H2"),
  ("O24by5mb-4-1.5-monoB-CP", "Monomer B O2 - H2"),
  ("O24by5mb-4-2.0", " O2 H2 R=2.0"),
  ("O24by5mb-4-2.0-dimer", "Dimer from O2 - H2"),
  ("O24by5mb-4-2.0-monoA-CP", "Monomer A O2 - H2"),
  ("O24by5mb-4-2.0-monoB-CP", "Monomer B O2 - H2"),
  ("O24by5mb-5-0.9", " NH Ar R=0.9"),
  ("O24by5mb-5-0.9-dimer", "Dimer from NH - Ar"),
  ("O24by5mb-5-0.9-monoA-CP", "Monomer A NH - Ar"),
  ("O24by5mb-5-0.9-monoB-CP", "Monomer B NH - Ar"),
  ("O24by5mb-5-1.0", " NH Ar R=1.0"),
  ("O24by5mb-5-1.0-dimer", "Dimer from NH - Ar"),
  ("O24by5mb-5-1.0-monoA-CP", "Monomer A NH - Ar"),
  ("O24by5mb-5-1.0-monoB-CP", "Monomer B NH - Ar"),
  ("O24by5mb-5-1.2", " NH Ar R=1.2"),
  ("O24by5mb-5-1.2-dimer", "Dimer from NH - Ar"),
  ("O24by5mb-5-1.2-monoA-CP", "Monomer A NH - Ar"),
  ("O24by5mb-5-1.2-monoB-CP", "Monomer B NH - Ar"),
  ("O24by5mb-5-1.5", " NH Ar R=1.5"),
  ("O24by5mb-5-1.5-dimer", "Dimer from NH - Ar"),
  ("O24by5mb-5-1.5-monoA-CP", "Monomer A NH - Ar"),
  ("O24by5mb-5-1.5-monoB-CP", "Monomer B NH - Ar"),
  ("O24by5mb-5-2.0", " NH Ar R=2.0"),
  ("O24by5mb-5-2.0-dimer", "Dimer from NH - Ar"),
  ("O24by5mb-5-2.0-monoA-CP", "Monomer A NH - Ar"),
  ("O24by5mb-5-2.0-monoB-CP", "Monomer B NH - Ar"),
  ("O24by5mb-6-0.9", " CN Ar R=0.9"),
  ("O24by5mb-6-0.9-dimer", "Dimer from CN - Ar"),
  ("O24by5mb-6-0.9-monoA-CP", "Monomer A CN - Ar"),
  ("O24by5mb-6-0.9-monoB-CP", "Monomer B CN - Ar"),
  ("O24by5mb-6-1.0", " CN Ar R=1.0"),
  ("O24by5mb-6-1.0-dimer", "Dimer from CN - Ar"),
  ("O24by5mb-6-1.0-monoA-CP", "Monomer A CN - Ar"),
  ("O24by5mb-6-1.0-monoB-CP", "Monomer B CN - Ar"),
  ("O24by5mb-6-1.2", " CN Ar R=1.2"),
  ("O24by5mb-6-1.2-dimer", "Dimer from CN - Ar"),
  ("O24by5mb-6-1.2-monoA-CP", "Monomer A CN - Ar"),
  ("O24by5mb-6-1.2-monoB-CP", "Monomer B CN - Ar"),
  ("O24by5mb-6-1.5", " CN Ar R=1.5"),
  ("O24by5mb-6-1.5-dimer", "Dimer from CN - Ar"),
  ("O24by5mb-6-1.5-monoA-CP", "Monomer A CN - Ar"),
  ("O24by5mb-6-1.5-monoB-CP", "Monomer B CN - Ar"),
  ("O24by5mb-6-2.0", " CN Ar R=2.0"),
  ("O24by5mb-6-2.0-dimer", "Dimer from CN - Ar "),
  ("O24by5mb-6-2.0-monoA-CP", "Monomer A CN - Ar"),
  ("O24by5mb-6-2.0-monoB-CP", "Monomer B CN - Ar"),
  ("O24by5mb-7-0.9", " O2 N2 R=0.9"),
  ("O24by5mb-7-0.9-dimer", "Dimer from O2 - N2"),
  ("O24by5mb-7-0.9-monoA-CP", "Monomer A O2 - N2"),
  ("O24by5mb-7-0.9-monoB-CP", "Monomer B O2 - N2"),
  ("O24by5mb-7-1.0", " O2 N2 R=1.0"),
  ("O24by5mb-7-1.0-dimer", "Dimer from O2 - N2"),
  ("O24by5mb-7-1.0-monoA-CP", "Monomer A O2 - N2"),
  ("O24by5mb-7-1.0-monoB-CP", "Monomer B O2 - N2"),
  ("O24by5mb-7-1.2", " O2 N2 R=1.2"),
  ("O24by5mb-7-1.2-dimer", "Dimer from O2 - N2"),
  ("O24by5mb-7-1.2-monoA-CP", "Monomer A O2 - N2"),
  ("O24by5mb-7-1.2-monoB-CP", "Monomer B O2 - N2"),
  ("O24by5mb-7-1.5", " O2 N2 R=1.5"),
  ("O24by5mb-7-1.5-dimer", "Dimer from O2 - N2"),
  ("O24by5mb-7-1.5-monoA-CP", "Monomer A O2 - N2"),
  ("O24by5mb-7-1.5-monoB-CP", "Monomer B O2 - N2"),
  ("O24by5mb-7-2.0", " O2 N2 R=2.0"),
  ("O24by5mb-7-2.0-dimer", "Dimer from O2 - N2"),
  ("O24by5mb-7-2.0-monoA-CP", "Monomer A O2 - N2"),
  ("O24by5mb-7-2.0-monoB-CP", "Monomer B O2 - N2"),
  ("O24by5mb-8-0.9", " H2O O2 (sp) R=0.9"),
  ("O24by5mb-8-0.9-dimer", "Dimer from H2O - O2 (sp)"),
  ("O24by5mb-8-0.9-monoA-CP", "Monomer A H2O - O2 (sp)"),
  ("O24by5mb-8-0.9-monoB-CP", "Monomer B H2O - O2 (sp)"),
  ("O24by5mb-8-1.0", " H2O O2 (sp) R=1.0"),
  ("O24by5mb-8-1.0-dimer", "Dimer from H2O - O2 (sp)"),
  ("O24by5mb-8-1.0-monoA-CP", "Monomer A H2O - O2 (sp)"),
  ("O24by5mb-8-1.0-monoB-CP", "Monomer B H2O - O2 (sp)"),
  ("O24by5mb-8-1.2", " H2O O2 (sp) R=1.2"),
  ("O24by5mb-8-1.2-dimer", "Dimer from H2O - O2 (sp)"),
  ("O24by5mb-8-1.2-monoA-CP", "Monomer A H2O - O2 (sp)"),
  ("O24by5mb-8-1.2-monoB-CP", "Monomer B H2O - O2 (sp)"),
  ("O24by5mb-8-1.5", " H2O O2 (sp) R=1.5"),
  ("O24by5mb-8-1.5-dimer", "Dimer from H2O - O2 (sp)"),
  ("O24by5mb-8-1.5-monoA-CP", "Monomer A H2O - O2 (sp)"),
  ("O24by5mb-8-1.5-monoB-CP", "Monomer B H2O - O2 (sp)"),
  ("O24by5mb-8-2.0", " H2O O2 (sp) R=2.0"),
  ("O24by5mb-8-2.0-dimer", "Dimer from H2O - O2 (sp)"),
  ("O24by5mb-8-2.0-monoA-CP", "Monomer A H2O - O2 (sp)"),
  ("O24by5mb-8-2.0-monoB-CP", "Monomer B H2O - O2 (sp)"),
  ("O24by5mb-9-0.9", " O2 O2 R=0.9"),
  ("O24by5mb-9-0.9-dimer", "Dimer from O2 - O2"),
  ("O24by5mb-9-0.9-monoA-CP", "Monomer A O2 - O2"),
  ("O24by5mb-9-0.9-monoB-CP", "Monomer B O2 - O2"),
  ("O24by5mb-9-1.0", " O2 O2 R=1.0"),
  ("O24by5mb-9-1.0-dimer", "Dimer from O2 - O2"),
  ("O24by5mb-9-1.0-monoA-CP", "Monomer A O2 - O2"),
  ("O24by5mb-9-1.0-monoB-CP", "Monomer B O2 - O2"),
  ("O24by5mb-9-1.2", " O2 O2 R=1.2"),
  ("O24by5mb-9-1.2-dimer", "Dimer from O2 - O2"),
  ("O24by5mb-9-1.2-monoA-CP", "Monomer A O2 - O2"),
  ("O24by5mb-9-1.2-monoB-CP", "Monomer B O2 - O2"),
  ("O24by5mb-9-1.5", " O2 O2 R=1.5"),
  ("O24by5mb-9-1.5-dimer", "Dimer from O2 - O2"),
  ("O24by5mb-9-1.5-monoA-CP", "Monomer A O2 - O2"),
  ("O24by5mb-9-1.5-monoB-CP", "Monomer B O2 - O2"),
  ("O24by5mb-9-2.0", " O2 O2 R=2.0"),
  ("O24by5mb-9-2.0-dimer", "Dimer from O2 - O2"),
  ("O24by5mb-9-2.0-monoA-CP", "Monomer A O2 - O2"),
  ("O24by5mb-9-2.0-monoB-CP", "Monomer B O2 - O2"),
  ("O24by5mb-10-0.9", " NH NH R=0.9"),
  ("O24by5mb-10-0.9-dimer", "Dimer from NH - NH"),
  ("O24by5mb-10-0.9-monoA-CP", "Monomer A NH - NH"),
  ("O24by5mb-10-0.9-monoB-CP", "Monomer B NH - NH"),
  ("O24by5mb-10-1.0", " NH NH R=1.0"),
  ("O24by5mb-10-1.0-dimer", "Dimer from NH - NH"),
  ("O24by5mb-10-1.0-monoA-CP", "Monomer A NH - NH"),
  ("O24by5mb-10-1.0-monoB-CP", "Monomer B NH - NH"),
  ("O24by5mb-10-1.2", " NH NH R=1.2"),
  ("O24by5mb-10-1.2-dimer", "Dimer from NH - NH"),
  ("O24by5mb-10-1.2-monoA-CP", "Monomer A NH - NH"),
  ("O24by5mb-10-1.2-monoB-CP", "Monomer B NH - NH"),
  ("O24by5mb-10-1.5", " NH NH R=1.5"),
  ("O24by5mb-10-1.5-dimer", "Dimer from NH - NH"),
  ("O24by5mb-10-1.5-monoA-CP", "Monomer A NH - NH"),
  ("O24by5mb-10-1.5-monoB-CP", "Monomer B NH - NH"),
  ("O24by5mb-10-2.0", " NH NH R=2.0"),
  ("O24by5mb-10-2.0-dimer", "Dimer from NH - NH"),
  ("O24by5mb-10-2.0-monoA-CP", "Monomer A NH - NH"),
  ("O24by5mb-10-2.0-monoB-CP", "Monomer B NH - NH"),
  ("O24by5mb-11-0.9", " CH2O NH2 R=0.9"),
  ("O24by5mb-11-0.9-dimer", "Dimer from CH2O - NH2 "),
  ("O24by5mb-11-0.9-monoA-CP", "Monomer A CH2O - NH2  "),
  ("O24by5mb-11-0.9-monoB-CP", "Monomer B CH2O - NH2  "),
  ("O24by5mb-11-1.0", " CH2O NH2 R=1.1"),
  ("O24by5mb-11-1.0-dimer", "Dimer from CH2O - NH2 "),
  ("O24by5mb-11-1.0-monoA-CP", "Monomer A CH2O - NH2  "),
  ("O24by5mb-11-1.0-monoB-CP", "Monomer B CH2O - NH2  "),
  ("O24by5mb-11-1.2", " CH2O NH2 R=1.2"),
  ("O24by5mb-11-1.2-dimer", "Dimer from CH2O - NH2 "),
  ("O24by5mb-11-1.2-monoA-CP", "Monomer A CH2O - NH2  "),
  ("O24by5mb-11-1.2-monoB-CP", "Monomer B CH2O - NH2  "),
  ("O24by5mb-11-1.5", " CH2O NH2 R=1.5"),
  ("O24by5mb-11-1.5-dimer", "Dimer from CH2O - NH2 "),
  ("O24by5mb-11-1.5-monoA-CP", "Monomer A CH2O - NH2  "),
  ("O24by5mb-11-1.5-monoB-CP", "Monomer B CH2O - NH2  "),
  ("O24by5mb-11-2.0", " CH2O NH2 R=2.0"),
  ("O24by5mb-11-2.0-dimer", "Dimer from CH2O - NH2 "),
  ("O24by5mb-11-2.0-monoA-CP", "Monomer A CH2O - NH2  "),
  ("O24by5mb-11-2.0-monoB-CP", "Monomer B CH2O - NH2  "),
  ("O24by5mb-12-0.9", " H2O Na R=0.9"),
  ("O24by5mb-12-0.9-dimer", "Dimer from H2O - Na"),
  ("O24by5mb-12-0.9-monoA-CP", "Monomer A H2O - Na"),
  ("O24by5mb-12-0.9-monoB-CP", "Monomer B H2O - Na"),
  ("O24by5mb-12-1.0", " H2O Na R=1.0"),
  ("O24by5mb-12-1.0-dimer", "Dimer from H2O - Na"),
  ("O24by5mb-12-1.0-monoA-CP", "Monomer A H2O - Na"),
  ("O24by5mb-12-1.0-monoB-CP", "Monomer B H2O - Na"),
  ("O24by5mb-12-1.2", " H2O Na R=1.2"),
  ("O24by5mb-12-1.2-dimer", "Dimer from H2O - Na"),
  ("O24by5mb-12-1.2-monoA-CP", "Monomer A H2O - Na"),
  ("O24by5mb-12-1.2-monoB-CP", "Monomer B H2O - Na"),
  ("O24by5mb-12-1.5", " H2O Na R=1.5"),
  ("O24by5mb-12-1.5-dimer", "Dimer from H2O - Na"),
  ("O24by5mb-12-1.5-monoA-CP", "Monomer A H2O - Na"),
  ("O24by5mb-12-1.5-monoB-CP", "Monomer B H2O - Na"),
  ("O24by5mb-12-2.0", " H2O Na R=2.0"),
  ("O24by5mb-12-2.0-dimer", "Dimer from H2O - Na"),
  ("O24by5mb-12-2.0-monoA-CP", "Monomer A H2O - Na"),
  ("O24by5mb-12-2.0-monoB-CP", "Monomer B H2O - Na"),
  ("O24by5mb-13-0.9", " H2O OH R=0.9"),
  ("O24by5mb-13-0.9-dimer", "Dimer from H2O - OH"),
  ("O24by5mb-13-0.9-monoA-CP", "Monomer A H2O - OH"),
  ("O24by5mb-13-0.9-monoB-CP", "Monomer B H2O - OH"),
  ("O24by5mb-13-1.0", " H2O OH "),
  ("O24by5mb-13-1.0-dimer", "Dimer from H2O - OH"),
  ("O24by5mb-13-1.0-monoA-CP", "Monomer A H2O - OH"),
  ("O24by5mb-13-1.0-monoB-CP", "Monomer B H2O - OH"),
  ("O24by5mb-13-1.2", " H2O OH R=1.2"),
  ("O24by5mb-13-1.2-dimer", "Dimer from H2O - OH"),
  ("O24by5mb-13-1.2-monoA-CP", "Monomer A H2O - OH"),
  ("O24by5mb-13-1.2-monoB-CP", "Monomer B H2O - OH"),
  ("O24by5mb-13-1.5", " H2O OH R=1.5"),
  ("O24by5mb-13-1.5-dimer", "Dimer from H2O - OH"),
  ("O24by5mb-13-1.5-monoA-CP", "Monomer A H2O - OH"),
  ("O24by5mb-13-1.5-monoB-CP", "Monomer B H2O - OH"),
  ("O24by5mb-13-2.0", " H2O OH R=1.5"),
  ("O24by5mb-13-2.0-dimer", "Dimer from H2O - OH"),
  ("O24by5mb-13-2.0-monoA-CP", "Monomer A H2O - OH"),
  ("O24by5mb-13-2.0-monoB-CP", "Monomer B H2O - OH"),
  ("O24by5mb-14-0.9", " H2O O2H R=0.9"),
  ("O24by5mb-14-0.9-dimer", "Dimer from H2O - O2H"),
  ("O24by5mb-14-0.9-monoA-CP", "Monomer A H2O - O2H"),
  ("O24by5mb-14-0.9-monoB-CP", "Monomer B H2O - O2H"),
  ("O24by5mb-14-1.0", " H2O O2H R=1.0"),
  ("O24by5mb-14-1.0-dimer", "Dimer from H2O - O2H"),
  ("O24by5mb-14-1.0-monoA-CP", "Monomer A H2O - O2H"),
  ("O24by5mb-14-1.0-monoB-CP", "Monomer B H2O - O2H"),
  ("O24by5mb-14-1.2", " H2O O2H R=1.2"),
  ("O24by5mb-14-1.2-dimer", "Dimer from H2O - O2H"),
  ("O24by5mb-14-1.2-monoA-CP", "Monomer A H2O - O2H"),
  ("O24by5mb-14-1.2-monoB-CP", "Monomer B H2O - O2H"),
  ("O24by5mb-14-1.5", " H2O O2H R=1.5"),
  ("O24by5mb-14-1.5-dimer", "Dimer from H2O - O2H"),
  ("O24by5mb-14-1.5-monoA-CP", "Monomer A H2O - O2H"),
  ("O24by5mb-14-1.5-monoB-CP", "Monomer B H2O - O2H"),
  ("O24by5mb-14-2.0", " H2O O2H R=2.0"),
  ("O24by5mb-14-2.0-dimer", "Dimer from H2O - O2H"),
  ("O24by5mb-14-2.0-monoA-CP", "Monomer A H2O - O2H"),
  ("O24by5mb-14-2.0-monoB-CP", "Monomer B H2O - O2H"),
  ("O24by5mb-15-0.9", " Li NH3 (gm) R=0.9"),
  ("O24by5mb-15-0.9-dimer", "Dimer from Li NH3 (gm)"),
  ("O24by5mb-15-0.9-monoA-CP", "Monomer A Li NH3 (gm)"),
  ("O24by5mb-15-0.9-monoB-CP", "Monomer B Li NH3 (gm)"),
  ("O24by5mb-15-1.0", " Li NH3 (gm) R=1.0"),
  ("O24by5mb-15-1.0-dimer", "Dimer from Li - NH3 (gm)"),
  ("O24by5mb-15-1.0-monoA-CP", "Monomer A Li - NH3 (gm)"),
  ("O24by5mb-15-1.0-monoB-CP", "Monomer B Li - NH3 (gm"),
  ("O24by5mb-15-1.2", " Li NH3 (gm) R=1.2"),
  ("O24by5mb-15-1.2-dimer", "Dimer from Li - NH3 (gm)"),
  ("O24by5mb-15-1.2-monoA-CP", "Monomer A Li - NH3 (gm)"),
  ("O24by5mb-15-1.2-monoB-CP", "Monomer B Li - NH3 (gm)"),
  ("O24by5mb-15-1.5", " Li NH3 (gm) R=1.5"),
  ("O24by5mb-15-1.5-dimer", "Dimer from Li - NH3 (gm)"),
  ("O24by5mb-15-1.5-monoA-CP", "Monomer A Li - NH3 (gm)"),
  ("O24by5mb-15-1.5-monoB-CP", "Monomer B Li - NH3 (gm)"),
  ("O24by5mb-15-2.0", " Li NH3 (gm) R=2.0"),
  ("O24by5mb-15-2.0-dimer", "Dimer from Li NH3 (gm)"),
  ("O24by5mb-15-2.0-monoA-CP", "Monomer A Li NH3 (gm)"),
  ("O24by5mb-15-2.0-monoB-CP", "Monomer B Li NH3 (gm)"),
  ("O24by5mb-16-0.9", " Li O2 R=0.9"),
  ("O24by5mb-16-0.9-dimer", "Dimer from Li - O2"),
  ("O24by5mb-16-0.9-monoA-CP", "Monomer A Li - O2"),
  ("O24by5mb-16-0.9-monoB-CP", "Monomer B Li - O2"),
  ("O24by5mb-16-1.0", " Li O2 R=1.0"),
  ("O24by5mb-16-1.0-dimer", "Dimer from Li - O2"),
  ("O24by5mb-16-1.0-monoA-CP", "Monomer A Li - O2"),
  ("O24by5mb-16-1.0-monoB-CP", "Monomer B Li - O2"),
  ("O24by5mb-16-1.2", " Li O2 R=1.2"),
  ("O24by5mb-16-1.2-dimer", "Dimer from Li - O2"),
  ("O24by5mb-16-1.2-monoA-CP", "Monomer A Li - O2"),
  ("O24by5mb-16-1.2-monoB-CP", "Monomer B Li - O2"),
  ("O24by5mb-16-1.5", " Li O2 R=1.5"),
  ("O24by5mb-16-1.5-dimer", "Dimer from Li - O2"),
  ("O24by5mb-16-1.5-monoA-CP", "Monomer A Li - O2"),
  ("O24by5mb-16-1.5-monoB-CP", "Monomer B Li - O2"),
  ("O24by5mb-16-2.0", " Li O2 R=2.0"),
  ("O24by5mb-16-2.0-dimer", "Dimer from Li - O2"),
  ("O24by5mb-16-2.0-monoA-CP", "Monomer A Li - O2"),
  ("O24by5mb-16-2.0-monoB-CP", "Monomer B Li - O2"),
  ("O24by5mb-17-0.9", " CN H2 R=0.9"),
  ("O24by5mb-17-0.9-dimer", "Dimer from CN - H2"),
  ("O24by5mb-17-0.9-monoA-CP", "Monomer A CN - H2"),
  ("O24by5mb-17-0.9-monoB-CP", "Monomer B CN - H2"),
  ("O24by5mb-17-1.0", " CN H2 R=1.0"),
  ("O24by5mb-17-1.0-dimer", "Dimer from CN - H2"),
  ("O24by5mb-17-1.0-monoA-CP", "Monomer A CN - H2"),
  ("O24by5mb-17-1.0-monoB-CP", "Monomer B CN - H2"),
  ("O24by5mb-17-1.2", " CN H2 R=1.2"),
  ("O24by5mb-17-1.2-dimer", "Dimer from CN - H2"),
  ("O24by5mb-17-1.2-monoA-CP", "Monomer A CN - H2"),
  ("O24by5mb-17-1.2-monoB-CP", "Monomer B CN - H2"),
  ("O24by5mb-17-1.5", " CN H2 R=1.5"),
  ("O24by5mb-17-1.5-dimer", "Dimer from CN - H2"),
  ("O24by5mb-17-1.5-monoA-CP", "Monomer A CN - H2"),
  ("O24by5mb-17-1.5-monoB-CP", "Monomer B CN - H2"),
  ("O24by5mb-17-2.0", " CN H2 R=2.0"),
  ("O24by5mb-17-2.0-dimer", "Dimer from CN - H2"),
  ("O24by5mb-17-2.0-monoA-CP", "Monomer A CN - H2"),
  ("O24by5mb-17-2.0-monoB-CP", "Monomer B CN - H2"),
  ("O24by5mb-18-0.9", " Li NH3 (lm) R=0.9"),
  ("O24by5mb-18-0.9-dimer", "Dimer from Li NH3 (lm)"),
  ("O24by5mb-18-0.9-monoA-CP", "Monomer A Li NH3 (lm)"),
  ("O24by5mb-18-0.9-monoB-CP", "Monomer B Li NH3 (lm)"),
  ("O24by5mb-18-1.0", " Li NH3 (lm) R=1.0"),
  ("O24by5mb-18-1.0-dimer", "Dimer from Li NH3 (lm)"),
  ("O24by5mb-18-1.0-monoA-CP", "Monomer A Li NH3 (lm)"),
  ("O24by5mb-18-1.0-monoB-CP", "Monomer B Li NH3 (lm)"),
  ("O24by5mb-18-1.2", " Li NH3 (lm) R=1.2"),
  ("O24by5mb-18-1.2-dimer", "Dimer from Li NH3 (lm)"),
  ("O24by5mb-18-1.2-monoA-CP", "Monomer A Li NH3 (lm)"),
  ("O24by5mb-18-1.2-monoB-CP", "Monomer B Li NH3 (lm)"),
  ("O24by5mb-18-1.5", " Li NH3 (lm) R=1.5"),
  ("O24by5mb-18-1.5-dimer", "Dimer from Li NH3 (lm)"),
  ("O24by5mb-18-1.5-monoA-CP", "Monomer A Li NH3 (lm)"),
  ("O24by5mb-18-1.5-monoB-CP", "Monomer B Li NH3 (lm)"),
  ("O24by5mb-18-2.0", " Li NH3 (lm) R=2.0"),
  ("O24by5mb-18-2.0-dimer", "Dimer from Li NH3 (lm)"),
  ("O24by5mb-18-2.0-monoA-CP", "Monomer A Li NH3 (lm)"),
  ("O24by5mb-18-2.0-monoB-CP", "Monomer B Li NH3 (lm)"),
  ("O24by5mb-19-0.9", " H2O O2 (gm) R=0.9"),
  ("O24by5mb-19-0.9-dimer", "Dimer from H2O - O2 (gm)"),
  ("O24by5mb-19-0.9-monoA-CP", "Monomer A H2O - O2 (gm)"),
  ("O24by5mb-19-0.9-monoB-CP", "Monomer B H2O - O2 (gm)"),
  ("O24by5mb-19-1.0", " H2O O2 (gm) R=1.0"),
  ("O24by5mb-19-1.0-dimer", "Dimer from H2O - O2 (gm)"),
  ("O24by5mb-19-1.0-monoA-CP", "Monomer A H2O - O2 (gm)"),
  ("O24by5mb-19-1.0-monoB-CP", "Monomer B H2O - O2 (gm)"),
  ("O24by5mb-19-1.2", " H2O O2 (gm) R=1.2"),
  ("O24by5mb-19-1.2-dimer", "Dimer from H2O - O2 (gm)"),
  ("O24by5mb-19-1.2-monoA-CP", "Monomer A H2O - O2 (gm)"),
  ("O24by5mb-19-1.2-monoB-CP", "Monomer B H2O - O2 (gm)"),
  ("O24by5mb-19-1.5", " H2O O2 (gm) R=1.5"),
  ("O24by5mb-19-1.5-dimer", "Dimer from H2O - O2 (gm)"),
  ("O24by5mb-19-1.5-monoA-CP", "Monomer A H2O - O2 (gm)"),
  ("O24by5mb-19-1.5-monoB-CP", "Monomer B H2O - O2 (gm)"),
  ("O24by5mb-19-2.0", " H2O O2 (gm) R=2.0"),
  ("O24by5mb-19-2.0-dimer", "Dimer from H2O - O2 (gm)"),
  ("O24by5mb-19-2.0-monoA-CP", "Monomer A H2O - O2 (gm)"),
  ("O24by5mb-19-2.0-monoB-CP", "Monomer B H2O - O2 (gm)"),
  ("O24by5mb-20-0.9", " Na Li R=0.9"),
  ("O24by5mb-20-0.9-dimer", "Dimer from Na - Li"),
  ("O24by5mb-20-0.9-monoA-CP", "Monomer A Na - Li"),
  ("O24by5mb-20-0.9-monoB-CP", "Monomer B Na - Li"),
  ("O24by5mb-20-1.0", " Na Li R=1.0"),
  ("O24by5mb-20-1.0-dimer", "Dimer from Na - Li"),
  ("O24by5mb-20-1.0-monoA-CP", "Monomer A Na - Li"),
  ("O24by5mb-20-1.0-monoB-CP", "Monomer B Na - Li"),
  ("O24by5mb-20-1.2", " Na Li R=1.2"),
  ("O24by5mb-20-1.2-dimer", "Dimer from Na - Li"),
  ("O24by5mb-20-1.2-monoA-CP", "Monomer A Na - Li"),
  ("O24by5mb-20-1.2-monoB-CP", "Monomer B Na - Li"),
  ("O24by5mb-20-1.5", " Na Li R=1.5"),
  ("O24by5mb-20-1.5-dimer", "Dimer from Na - Li"),
  ("O24by5mb-20-1.5-monoA-CP", "Monomer A Na - Li"),
  ("O24by5mb-20-1.5-monoB-CP", "Monomer B Na - Li"),
  ("O24by5mb-20-2.0", " Na Li "),
  ("O24by5mb-20-2.0-dimer", "Dimer from Na - Li"),
  ("O24by5mb-20-2.0-monoA-CP", "Monomer A Na - Li"),
  ("O24by5mb-20-2.0-monoB-CP", "Monomer B Na - Li"),
  ("O24by5mb-21-0.9", " CO2 O2 R=0.9"),
  ("O24by5mb-21-0.9-dimer", "Dimer from CO2 - O2"),
  ("O24by5mb-21-0.9-monoA-CP", "Monomer A CO2 - O2"),
  ("O24by5mb-21-0.9-monoB-CP", "Monomer B CO2 - O2"),
  ("O24by5mb-21-1.0", " CO2 O2 R=1.0"),
  ("O24by5mb-21-1.0-dimer", "Dimer from CO2 - O2"),
  ("O24by5mb-21-1.0-monoA-CP", "Monomer A CO2 - O2"),
  ("O24by5mb-21-1.0-monoB-CP", "Monomer B CO2 - O2"),
  ("O24by5mb-21-1.2", " CO2 O2 R=1.2"),
  ("O24by5mb-21-1.2-dimer", "Dimer from CO2 - O2"),
  ("O24by5mb-21-1.2-monoA-CP", "Monomer A CO2 - O2"),
  ("O24by5mb-21-1.2-monoB-CP", "Monomer B CO2 - O2"),
  ("O24by5mb-21-1.5", " CO2 O2 R=1.5"),
  ("O24by5mb-21-1.5-dimer", "Dimer from CO2 - O2"),
  ("O24by5mb-21-1.5-monoA-CP", "Monomer A CO2 - O2"),
  ("O24by5mb-21-1.5-monoB-CP", "Monomer B CO2 - O2"),
  ("O24by5mb-21-2.0", " CO2 - O2 R=2.0"),
  ("O24by5mb-21-2.0-dimer", "Dimer from CO2 - O2"),
  ("O24by5mb-21-2.0-monoA-CP", "Monomer A CO2 - O2"),
  ("O24by5mb-21-2.0-monoB-CP", "Monomer B CO2 - O2"),
  ("O24by5mb-22-0.9", " C2H3 CO2 R=0.9"),
  ("O24by5mb-22-0.9-dimer", "Dimer from C2H3 - CO2"),
  ("O24by5mb-22-0.9-monoA-CP", "Monomer A C2H3 - CO2"),
  ("O24by5mb-22-0.9-monoB-CP", "Monomer B C2H3 - CO2"),
  ("O24by5mb-22-1.0", " C2H3 CO2 R=1.0"),
  ("O24by5mb-22-1.0-dimer", "Dimer from C2H3 - CO2"),
  ("O24by5mb-22-1.0-monoA-CP", "Monomer A C2H3 - CO2"),
  ("O24by5mb-22-1.0-monoB-CP", "Monomer B C2H3 - CO2"),
  ("O24by5mb-22-1.2", " C2H3 CO2 R=1.2"),
  ("O24by5mb-22-1.2-dimer", "Dimer from C2H3 - CO2"),
  ("O24by5mb-22-1.2-monoA-CP", "Monomer A C2H3 - CO2"),
  ("O24by5mb-22-1.2-monoB-CP", "Monomer B C2H3 - CO2"),
  ("O24by5mb-22-1.5", " C2H3 CO2 R=1.5"),
  ("O24by5mb-22-1.5-dimer", "Dimer from C2H3 - CO2"),
  ("O24by5mb-22-1.5-monoA-CP", "Monomer A C2H3 - CO2"),
  ("O24by5mb-22-1.5-monoB-CP", "Monomer B C2H3 - CO2"),
  ("O24by5mb-22-2.0", " C2H3 CO2 R=2.0"),
  ("O24by5mb-22-2.0-dimer", "Dimer from C2H3 - CO2"),
  ("O24by5mb-22-2.0-monoA-CP", "Monomer A C2H3 - CO2"),
  ("O24by5mb-22-2.0-monoB-CP", "Monomer B C2H3 - CO2"),
  ("O24by5mb-23-0.9", " He* He* R=0.9"),
  ("O24by5mb-23-0.9-dimer", "Dimer from He* - He*"),
  ("O24by5mb-23-0.9-monoA-CP", "Monomer A He* - He*"),
  ("O24by5mb-23-0.9-monoB-CP", "Monomer B He* - He*"),
  ("O24by5mb-23-1.0", " He* He* R=1.0"),
  ("O24by5mb-23-1.0-dimer", "Dimer from He* - He*"),
  ("O24by5mb-23-1.0-monoA-CP", "Monomer A He* - He*"),
  ("O24by5mb-23-1.0-monoB-CP", "Monomer B He* - He*"),
  ("O24by5mb-23-1.2", " He* He* R=1.2"),
  ("O24by5mb-23-1.2-dimer", "Dimer from He* - He*"),
  ("O24by5mb-23-1.2-monoA-CP", "Monomer A He* - He*"),
  ("O24by5mb-23-1.2-monoB-CP", "Monomer B He* - He*"),
  ("O24by5mb-23-1.5", " He* He* R=1.5"),
  ("O24by5mb-23-1.5-dimer", "Dimer from He* - He*"),
  ("O24by5mb-23-1.5-monoA-CP", "Monomer A He* - He*"),
  ("O24by5mb-23-1.5-monoB-CP", "Monomer B He* - He*"),
  ("O24by5mb-23-2.0", " He* He* R=2.0"),
  ("O24by5mb-23-2.0-dimer", "Dimer from He* - He*"),
  ("O24by5mb-23-2.0-monoA-CP", "Monomer A He* - He*"),
  ("O24by5mb-23-2.0-monoB-CP", "Monomer B He* - He*"),
  ("O24by5mb-24-0.9", " HF CO+ R=0.9"),
  ("O24by5mb-24-0.9-dimer", "Dimer from HF - CO+"),
  ("O24by5mb-24-0.9-monoA-CP", "Monomer A HF - CO+"),
  ("O24by5mb-24-0.9-monoB-CP", "Monomer B HF - CO+"),
  ("O24by5mb-24-1.0", " HF CO+ R=1.0"),
  ("O24by5mb-24-1.0-dimer", "Dimer from HF - CO+"),
  ("O24by5mb-24-1.0-monoA-CP", "Monomer A HF - CO+"),
  ("O24by5mb-24-1.0-monoB-CP", "Monomer B HF - CO+"),
  ("O24by5mb-24-1.2", " HF CO+ R=1.2"),
  ("O24by5mb-24-1.2-dimer", "Dimer from HF - CO+"),
  ("O24by5mb-24-1.2-monoA-CP", "Monomer A HF - CO+"),
  ("O24by5mb-24-1.2-monoB-CP", "Monomer B HF - CO+"),
  ("O24by5mb-24-1.5", " HF CO+ R=1.5"),
  ("O24by5mb-24-1.5-dimer", "Dimer from HF - CO+"),
  ("O24by5mb-24-1.5-monoA-CP", "Monomer A HF - CO+"),
  ("O24by5mb-24-1.5-monoB-CP", "Monomer B HF - CO+"),
  ("O24by5mb-24-2.0", " HF CO+ R=2.0"),
  ("O24by5mb-24-2.0-dimer", "Dimer from HF - CO+"),
  ("O24by5mb-24-2.0-monoA-CP", "Monomer A HF - CO+"),
  ("O24by5mb-24-2.0-monoB-CP", "Monomer B HF - CO+")]

/-- The dimer geometry literal the source stores under key O24by5mb-1-0.9-dimer. -/
def g1_0_9 : Molecule := {
  fragments := [
    { charge := some 0, mult := some 2, atoms := [
        { el := "C", ghost := false, x := -0.664078525, y := 0.000000000, z := 1.259898914 },
        { el := "N", ghost := false, x := 0.292558536, y := 0.000000000, z := 1.928630081 }] },
    { charge := some 0, mult := some 1, atoms := [
        { el := "He", ghost := false, x := 0.149064407, y := 0.000000000, z := -1.619916319 }] },
    { charge := none, mult := none, atoms := [
        { el := "H", ghost := true, x := 0.000000000, y := 0.000000000, z := 0.000000000 }] }],
  units := "angstrom", no_reorient := true, no_com := true, symmetry := "c1" }

/-- The dimer geometry literal the source stores under key O24by5mb-1-1.0-dimer. -/
def g1_1_0 : Molecule := {
  fragments := [
    { charge := some 0, mult := some 2, atoms := [
        { el := "C", ghost := false, x := -0.680641237, y := 0.000000000, z := 1.439889616 },
        { el := "N", ghost := false, x := 0.275995824, y := 0.000000000, z := 2.108620783 }] },
    { charge := some 0, mult := some 1, atoms := [
        { el := "He", ghost := false, x := 0.165627119, y := 0.000000000, z := -1.799907021 }] },
    { charge := none, mult := none, atoms := [
        { el := "H", ghost := true, x := 0.000000000, y := 0.000000000, z := 0.000000000 }] }],
  units := "angstrom", no_reorient := true, no_com := true, symmetry := "c1" }

/-- The dimer geometry literal the source stores under key O24by5mb-1-1.2-dimer. -/
def g1_1_2 : Molecule := {
  fragments := [
    { charge := some 0, mult := some 2, atoms := [
        { el := "C", ghost := false, x := -0.713766661, y := 0.000000000, z := 1.799871020 },
        { el := "N", ghost := false, x := 0.242870401, y := 0.000000000, z := 2.468602187 }] },
    { charge := some 0, mult := some 1, atoms := [
        { el := "He", ghost := false, x := 0.198752542, y := 0.000000000, z := -2.159888425 }] },
    { charge := none, mult := none, atoms := [
        { el := "H", ghost := true, x := 0.000000000, y := 0.000000000, z := 0.000000000 }] }],
  units := "angstrom", no_reorient := true, no_com := true, symmetry := "c1" }

/-- The dimer geometry literal the source stores under key O24by5mb-1-1.5-dimer. -/
def g1_1_5 : Molecule := {
  fragments := [
    { charge := some 0, mult := some 2, atoms := [
        { el := "C", ghost := false, x := -0.763454796, y := 0.000000000, z := 2.339843127 },
        { el := "N", ghost := false, x := 0.193182265, y := 0.000000000, z := 3.008574293 }] },
    { charge := some 0, mult := some 1, atoms := [
        { el := "He", ghost := false, x := 0.248440678, y := 0.000000000, z := -2.699860531 }] },
    { charge := none, mult := none, atoms := [
        { el := "H", ghost := true, x := 0.000000000, y := 0.000000000, z := 0.000000000 }] }],
  units := "angstrom", no_reorient := true, no_com := true, symmetry := "c1" }

/-- The dimer geometry literal the source stores under key O24by5mb-1-2.0-dimer. -/
def g1_2_0 : Molecule := {
  fragments := [
    { charge := some 0, mult := some 2, atoms := [
        { el := "C", ghost := false, x := -0.846268356, y := 0.000000000, z := 3.239796637 },
        { el := "N", ghost := false, x := 0.110368706, y := 0.000000000, z := 3.908527804 }] },
    { charge := some 0, mult := some 1, atoms := [
        { el := "He", ghost := false, x := 0.331254237, y := 0.000000000, z := -3.599814042 }] },
    { charge := none, mult := none, atoms := [
        { el := "H", ghost := true, x := 0.000000000, y := 0.000000000, z := 0.000000000 }] }],
  units := "angstrom", no_reorient := true, no_com := true, symmetry := "c1" }

/-- The dimer geometry literal the source stores under key O24by5mb-2-0.9-dimer. -/
def g2_0_9 : Molecule := {
  fragments := [
    { charge := some 0, mult := some 3, atoms := [
        { el := "N", ghost := false, x := 0.000000000, y := -1.324613470, z := -0.800832434 },
        { el := "H", ghost := false, x := 0.000000000, y := -1.324613470, z := 0.235137867 }] },
    { charge := some 0, mult := some 1, atoms := [
        { el := "He", ghost := false, x := 0.000000000, y := 1.324613470, z := 0.731287250 }] },
    { charge := none, mult := none, atoms := [
        { el := "H", ghost := true, x := 0.000000000, y := 0.000000000, z := 0.000000000 }] }],
  units := "angstrom", no_reorient := true, no_com := true, symmetry := "c1" }

/-- The dimer geometry literal the source stores under key O24by5mb-2-1.0-dimer. -/
def g2_1_0 : Molecule := {
  fragments := [
    { charge := some 0, mult := some 3, atoms := [
        { el := "N", ghost := false, x := 0.000000000, y := -1.471792745, z := -0.882086573 },
        { el := "H", ghost := false, x := 0.000000000, y := -1.471792745, z := 0.153883728 }] },
    { charge := some 0, mult := some 1, atoms := [
        { el := "He", ghost := false, x := 0.000000000, y := 1.471792745, z := 0.812541389 }] },
    { charge := none, mult := none, atoms := [
        { el := "H", ghost := true, x := 0.000000000, y := 0.000000000, z := 0.000000000 }] }],
  units := "angstrom", no_reorient := true, no_com := true, symmetry := "c1" }

/-- The dimer geometry literal the source stores under key O24by5mb-2-1.2-dimer. -/
def g2_1_2 : Molecule := {
  fragments := [
    { charge := some 0, mult := some 3, atoms := [
        { el := "N", ghost := false, x := 0.000000000, y := -1.766151294, z := -1.044594851 },
        { el := "H", ghost := false, x := 0.000000000, y := -1.766151294, z := -0.008624550 }] },
    { charge := some 0, mult := some 1, atoms := [
        { el := "He", ghost := false, x := 0.000000000, y := 1.766151294, z := 0.975049667 }] },
    { charge := none, mult := none, atoms := [
        { el := "H", ghost := true, x := 0.000000000, y := 0.000000000, z := 0.000000000 }] }],
  units := "angstrom", no_reorient := true, no_com := true, symmetry := "c1" }

/-- The dimer geometry literal the source stores under key O24by5mb-2-1.5-dimer. -/
def g2_1_5 : Molecule := {
  fragments := [
    { charge := some 0, mult := some 3, atoms := [
        { el := "N", ghost := false, x := 0.000000000, y := -2.207689117, z := -1.288357268 },
        { el := "H", ghost := false, x := 0.000000000, y := -2.207689117, z := -0.252386967 }] },
    { charge := some 0, mult := some 1, atoms := [
        { el := "He", ghost := false, x := 0.000000000, y := 2.207689117, z := 1.218812083 }] },
    { charge := none, mult := none, atoms := [
        { el := "H", ghost := true, x := 0.000000000, y := 0.000000000, z := 0.000000000 }] }],
  units := "angstrom", no_reorient := true, no_com := true, symmetry := "c1" }

/-- The dimer geometry literal the source stores under key O24by5mb-2-2.0-dimer. -/
def g2_2_0 : Molecule := {
  fragments := [
    { charge := some 0, mult := some 3, atoms := [
        { el := "N", ghost := false, x := 0.000000000, y := -2.943585490, z := -1.694627962 },
        { el := "H", ghost := false, x := 0.000000000, y := -2.943585490, z := -0.658657661 }] },
    { charge := some 0, mult := some 1, atoms := [
        { el := "He", ghost := false, x := 0.000000000, y := 2.943585490, z := 1.625082778 }] },
    { charge := none, mult := none, atoms := [
        { el := "H", ghost := true, x := 0.000000000, y := 0.000000000, z := 0.000000000 }] }],
  units := "angstrom", no_reorient := true, no_com := true, symmetry := "c1" }

/-- The dimer geometry literal the source stores under key O24by5mb-3-0.9-dimer. -/
def g3_0_9 : Molecule := {
  fragments := [
    { charge := some 0, mult := some 2, atoms := [
        { el := "H", ghost := false, x := 0.905020870, y := 1.257212446, z := -1.980000000 },
        { el := "H", ghost := false, x := 0.905020870, y := -1.206707554, z := -1.980000000 },
        { el := "H", ghost := false, x := -0.942899130, y := -1.206707554, z := -1.980000000 },
        { el := "C", ghost := false, x := -0.018939130, y := 0.692432446, z := -1.980000000 },
        { el := "C", ghost := false, x := -0.018939130, y := -0.641927554, z := -1.980000000 }] },
    { charge := some 0, mult := some 1, atoms := [
        { el := "H", ghost := false, x := -0.939455652, y := 1.252621093, z := 1.980000000 },
        { el := "H", ghost := false, x := 0.908464348, y := 1.252621093, z := 1.980000000 },
        { el := "H", ghost := false, x := 0.908464348, y := -1.211298907, z := 1.980000000 },
        { el := "H", ghost := false, x := -0.939455652, y := -1.211298907, z := 1.980000000 },
        { el := "C", ghost := false, x := -0.015495652, y := 0.687841093, z := 1.980000000 },
        { el := "C", ghost := false, x := -0.015495652, y := -0.646518907, z := 1.980000000 }] },
    { charge := none, mult := none, atoms := [
        { el := "H", ghost := true, x := 0.000000000, y := 0.000000000, z := 0.000000000 }] }],
  units := "angstrom", no_reorient := true, no_com := true, symmetry := "c1" }

/-- The dimer geometry literal the source stores under key O24by5mb-3-1.0-dimer. -/
def g3_1_0 : Molecule := {
  fragments := [
    { charge := some 0, mult := some 2, atoms := [
        { el := "H", ghost := false, x := 0.906742609, y := 1.254916769, z := -2.200000000 },
        { el := "H", ghost := false, x := 0.906742609, y := -1.209003231, z := -2.200000000 },
        { el := "H", ghost := false, x := -0.941177391, y := -1.209003231, z := -2.200000000 },
        { el := "C", ghost := false, x := -0.017217391, y := 0.690136769, z := -2.200000000 },
        { el := "C", ghost := false, x := -0.017217391, y := -0.644223231, z := -2.200000000 }] },
    { charge := some 0, mult := some 1, atoms := [
        { el := "H", ghost := false, x := -0.941177391, y := 1.254916769, z := 2.200000000 },
        { el := "H", ghost := false, x := 0.906742609, y := 1.254916769, z := 2.200000000 },
        { el := "H", ghost := false, x := 0.906742609, y := -1.209003231, z := 2.200000000 },
        { el := "H", ghost := false, x := -0.941177391, y := -1.209003231, z := 2.200000000 },
        { el := "C", ghost := false, x := -0.017217391, y := 0.690136769, z := 2.200000000 },
        { el := "C", ghost := false, x := -0.017217391, y := -0.644223231, z := 2.200000000 }] },
    { charge := none, mult := none, atoms := [
        { el := "H", ghost := true, x := 0.000000000, y := 0.000000000, z := 0.000000000 }] }],
  units := "angstrom", no_reorient := true, no_com := true, symmetry := "c1" }

/-- The dimer geometry literal the source stores under key O24by5mb-3-1.2-dimer. -/
def g3_1_2 : Molecule := {
  fragments := [
    { charge := some 0, mult := some 2, atoms := [
        { el := "H", ghost := false, x := 0.910186087, y := 1.250325416, z := -2.640000000 },
        { el := "H", ghost := false, x := 0.910186087, y := -1.213594584, z := -2.640000000 },
        { el := "H", ghost := false, x := -0.937733913, y := -1.213594584, z := -2.640000000 },
        { el := "C", ghost := false, x := -0.013773913, y := 0.685545416, z := -2.640000000 },
        { el := "C", ghost := false, x := -0.013773913, y := -0.648814584, z := -2.640000000 }] },
    { charge := some 0, mult := some 1, atoms := [
        { el := "H", ghost := false, x := -0.944620869, y := 1.259508123, z := 2.640000000 },
        { el := "H", ghost := false, x := 0.903299131, y := 1.259508123, z := 2.640000000 },
        { el := "H", ghost := false, x := 0.903299131, y := -1.204411877, z := 2.640000000 },
        { el := "H", ghost := false, x := -0.944620869, y := -1.204411877, z := 2.640000000 },
        { el := "C", ghost := false, x := -0.020660869, y := 0.694728123, z := 2.640000000 },
        { el := "C", ghost := false, x := -0.020660869, y := -0.639631877, z := 2.640000000 }] },
    { charge := none, mult := none, atoms := [
        { el := "H", ghost := true, x := 0.000000000, y := 0.000000000, z := 0.000000000 }] }],
  units := "angstrom", no_reorient := true, no_com := true, symmetry := "c1" }

/-- The dimer geometry literal the source stores under key O24by5mb-3-1.5-dimer. -/
def g3_1_5 : Molecule := {
  fragments := [
    { charge := some 0, mult := some 2, atoms := [
        { el := "H", ghost := false, x := 0.915351305, y := 1.243438385, z := -3.300000000 },
        { el := "H", ghost := false, x := 0.915351305, y := -1.220481615, z := -3.300000000 },
        { el := "H", ghost := false, x := -0.932568695, y := -1.220481615, z := -3.300000000 },
        { el := "C", ghost := false, x := -0.008608695, y := 0.678658385, z := -3.300000000 },
        { el := "C", ghost := false, x := -0.008608695, y := -0.655701615, z := -3.300000000 }] },
    { charge := some 0, mult := some 1, atoms := [
        { el := "H", ghost := false, x := -0.949786086, y := 1.266395154, z := 3.300000000 },
        { el := "H", ghost := false, x := 0.898133914, y := 1.266395154, z := 3.300000000 },
        { el := "H", ghost := false, x := 0.898133914, y := -1.197524846, z := 3.300000000 },
        { el := "H", ghost := false, x := -0.949786086, y := -1.197524846, z := 3.300000000 },
        { el := "C", ghost := false, x := -0.025826086, y := 0.701615154, z := 3.300000000 },
        { el := "C", ghost := false, x := -0.025826086, y := -0.632744846, z := 3.300000000 }] },
    { charge := none, mult := none, atoms := [
        { el := "H", ghost := true, x := 0.000000000, y := 0.000000000, z := 0.000000000 }] }],
  units := "angstrom", no_reorient := true, no_com := true, symmetry := "c1" }

/-- The dimer geometry literal the source stores under key O24by5mb-3-2.0-dimer. -/
def g3_2_0 : Molecule := {
  fragments := [
    { charge := some 0, mult := some 2, atoms := [
        { el := "H", ghost := false, x := 0.923960000, y := 1.231960000, z := -4.400000000 },
        { el := "H", ghost := false, x := 0.923960000, y := -1.231960000, z := -4.400000000 },
        { el := "H", ghost := false, x := -0.923960000, y := -1.231960000, z := -4.400000000 },
        { el := "C", ghost := false, x := 0.000000000, y := 0.667180000, z := -4.400000000 },
        { el := "C", ghost := false, x := 0.000000000, y := -0.667180000, z := -4.400000000 }] },
    { charge := some 0, mult := some 1, atoms := [
        { el := "H", ghost := false, x := -0.958394782, y := 1.277873539, z := 4.400000000 },
        { el := "H", ghost := false, x := 0.889525218, y := 1.277873539, z := 4.400000000 },
        { el := "H", ghost := false, x := 0.889525218, y := -1.186046461, z := 4.400000000 },
        { el := "H", ghost := false, x := -0.958394782, y := -1.186046461, z := 4.400000000 },
        { el := "C", ghost := false, x := -0.034434782, y := 0.713093539, z := 4.400000000 },
        { el := "C", ghost := false, x := -0.034434782, y := -0.621266461, z := 4.400000000 }] },
    { charge := none, mult := none, atoms := [
        { el := "H", ghost := true, x := 0.000000000, y := 0.000000000, z := 0.000000000 }] }],
  units := "angstrom", no_reorient := true, no_com := true, symmetry := "c1" }

/-- The dimer geometry literal the source stores under key O24by5mb-4-0.9-dimer. -/
def g4_0_9 : Molecule := {
  fragments := [
    { charge := some 0, mult := some 3, atoms := [
        { el := "O", ghost := false, x := -0.330467500, y := 0.000000000, z := -1.475595000 },
        { el := "O", ghost := false, x := 0.871232500, y := 0.000000000, z := -1.475595000 }] },
    { charge := some 0, mult := some 1, atoms := [
        { el := "H", ghost := false, x := -0.270382500, y := -0.371400000, z := 1.475595000 },
        { el := "H", ghost := false, x := -0.270382500, y := 0.371400000, z := 1.475595000 }] },
    { charge := none, mult := none, atoms := [
        { el := "H", ghost := true, x := 0.000000000, y := 0.000000000, z := 0.000000000 }] }],
  units := "angstrom", no_reorient := true, no_com := true, symmetry := "c1" }

/-- The dimer geometry literal the source stores under key O24by5mb-4-1.0-dimer. -/
def g4_1_0 : Molecule := {
  fragments := [
    { charge := some 0, mult := some 3, atoms := [
        { el := "O", ghost := false, x := -0.300425000, y := 0.000000000, z := -1.639550000 },
        { el := "O", ghost := false, x := 0.901275000, y := 0.000000000, z := -1.639550000 }] },
    { charge := some 0, mult := some 1, atoms := [
        { el := "H", ghost := false, x := -0.300425000, y := -0.371400000, z := 1.639550000 },
        { el := "H", ghost := false, x := -0.300425000, y := 0.371400000, z := 1.639550000 }] },
    { charge := none, mult := none, atoms := [
        { el := "H", ghost := true, x := 0.000000000, y := 0.000000000, z := 0.000000000 }] }],
  units := "angstrom", no_reorient := true, no_com := true, symmetry := "c1" }

/-- The dimer geometry literal the source stores under key O24by5mb-4-1.2-dimer. -/
def g4_1_2 : Molecule := {
  fragments := [
    { charge := some 0, mult := some 3, atoms := [
        { el := "O", ghost := false, x := -0.240340000, y := 0.000000000, z := -1.967460000 },
        { el := "O", ghost := false, x := 0.961360000, y := 0.000000000, z := -1.967460000 }] },
    { charge := some 0, mult := some 1, atoms := [
        { el := "H", ghost := false, x := -0.360510000, y := -0.371400000, z := 1.967460000 },
        { el := "H", ghost := false, x := -0.360510000, y := 0.371400000, z := 1.967460000 }] },
    { charge := none, mult := none, atoms := [
        { el := "H", ghost := true, x := 0.000000000, y := 0.000000000, z := 0.000000000 }] }],
  units := "angstrom", no_reorient := true, no_com := true, symmetry := "c1" }

/-- The dimer geometry literal the source stores under key O24by5mb-4-1.5-dimer. -/
def g4_1_5 : Molecule := {
  fragments := [
    { charge := some 0, mult := some 3, atoms := [
        { el := "O", ghost := false, x := -0.150212500, y := 0.000000000, z := -2.459325000 },
        { el := "O", ghost := false, x := 1.051487500, y := 0.000000000, z := -2.459325000 }] },
    { charge := some 0, mult := some 1, atoms := [
        { el := "H", ghost := false, x := -0.450637500, y := -0.371400000, z := 2.459325000 },
        { el := "H", ghost := false, x := -0.450637500, y := 0.371400000, z := 2.459325000 }] },
    { charge := none, mult := none, atoms := [
        { el := "H", ghost := true, x := 0.000000000, y := 0.000000000, z := 0.000000000 }] }],
  units := "angstrom", no_reorient := true, no_com := true, symmetry := "c1" }

/-- The dimer geometry literal the source stores under key O24by5mb-4-2.0-dimer. -/
def g4_2_0 : Molecule := {
  fragments := [
    { charge := some 0, mult := some 3, atoms := [
        { el := "O", ghost := false, x := 0.000000000, y := 0.000000000, z := -3.279100000 },
        { el := "O", ghost := false, x := 1.201700000, y := 0.000000000, z := -3.279100000 }] },
    { charge := some 0, mult := some 1, atoms := [
        { el := "H", ghost := false, x := -0.600850000, y := -0.371400000, z := 3.279100000 },
        { el := "H", ghost := false, x := -0.600850000, y := 0.371400000, z := 3.279100000 }] },
    { charge := none, mult := none, atoms := [
        { el := "H", ghost := true, x := 0.000000000, y := 0.000000000, z := 0.000000000 }] }],
  units := "angstrom", no_reorient := true, no_com := true, symmetry := "c1" }

/-- The dimer geometry literal the source stores under key O24by5mb-5-0.9-dimer. -/
def g5_0_9 : Molecule := {
  fragments := [
    { charge := some 0, mult := some 3, atoms := [
        { el := "N", ghost := false, x := -0.056490403, y := 0.000000000, z := 1.724989690 },
        { el := "H", ghost := false, x := 0.854426530, y := 0.000000000, z := 1.228991525 }] },
    { charge := some 0, mult := some 1, atoms := [
        { el := "Ar", ghost := false, x := -0.004659888, y := 0.000000000, z := -1.691693095 }] },
    { charge := none, mult := none, atoms := [
        { el := "H", ghost := true, x := 0.000000000, y := 0.000000000, z := 0.000000000 }] }],
  units := "angstrom", no_reorient := true, no_com := true, symmetry := "c1" }

/-- The dimer geometry literal the source stores under key O24by5mb-5-1.0-dimer. -/
def g5_1_0 : Molecule := {
  fragments := [
    { charge := some 0, mult := some 3, atoms := [
        { el := "N", ghost := false, x := -0.055972638, y := 0.000000000, z := 1.912955590 },
        { el := "H", ghost := false, x := 0.854944296, y := 0.000000000, z := 1.416957424 }] },
    { charge := some 0, mult := some 1, atoms := [
        { el := "Ar", ghost := false, x := -0.005177654, y := 0.000000000, z := -1.879658994 }] },
    { charge := none, mult := none, atoms := [
        { el := "H", ghost := true, x := 0.000000000, y := 0.000000000, z := 0.000000000 }] }],
  units := "angstrom", no_reorient := true, no_com := true, symmetry := "c1" }

/-- The dimer geometry literal the source stores under key O24by5mb-5-1.2-dimer. -/
def g5_1_2 : Molecule := {
  fragments := [
    { charge := some 0, mult := some 3, atoms := [
        { el := "N", ghost := false, x := -0.054937107, y := 0.000000000, z := 2.288887388 },
        { el := "H", ghost := false, x := 0.855979826, y := 0.000000000, z := 1.792889223 }] },
    { charge := some 0, mult := some 1, atoms := [
        { el := "Ar", ghost := false, x := -0.006213184, y := 0.000000000, z := -2.255590793 }] },
    { charge := none, mult := none, atoms := [
        { el := "H", ghost := true, x := 0.000000000, y := 0.000000000, z := 0.000000000 }] }],
  units := "angstrom", no_reorient := true, no_com := true, symmetry := "c1" }

/-- The dimer geometry literal the source stores under key O24by5mb-5-1.5-dimer. -/
def g5_1_5 : Molecule := {
  fragments := [
    { charge := some 0, mult := some 3, atoms := [
        { el := "N", ghost := false, x := -0.053383811, y := 0.000000000, z := 2.852785087 },
        { el := "H", ghost := false, x := 0.857533122, y := 0.000000000, z := 2.356786921 }] },
    { charge := some 0, mult := some 1, atoms := [
        { el := "Ar", ghost := false, x := -0.007766480, y := 0.000000000, z := -2.819488491 }] },
    { charge := none, mult := none, atoms := [
        { el := "H", ghost := true, x := 0.000000000, y := 0.000000000, z := 0.000000000 }] }],
  units := "angstrom", no_reorient := true, no_com := true, symmetry := "c1" }

/-- The dimer geometry literal the source stores under key O24by5mb-5-2.0-dimer. -/
def g5_2_0 : Molecule := {
  fragments := [
    { charge := some 0, mult := some 3, atoms := [
        { el := "N", ghost := false, x := -0.050794984, y := 0.000000000, z := 3.792614584 },
        { el := "H", ghost := false, x := 0.860121949, y := 0.000000000, z := 3.296616418 }] },
    { charge := some 0, mult := some 1, atoms := [
        { el := "Ar", ghost := false, x := -0.010355307, y := 0.000000000, z := -3.759317989 }] },
    { charge := none, mult := none, atoms := [
        { el := "H", ghost := true, x := 0.000000000, y := 0.000000000, z := 0.000000000 }] }],
  units := "angstrom", no_reorient := true, no_com := true, symmetry := "c1" }

/-- The dimer geometry literal the source stores under key O24by5mb-6-0.9-dimer. -/
def g6_0_9 : Molecule := {
  fragments := [
    { charge := some 0, mult := some 2, atoms := [
        { el := "C", ghost := false, x := -0.427112733, y := 0.000000000, z := 2.134178904 },
        { el := "N", ghost := false, x := 0.427713476, y := 0.000000000, z := 1.339428634 }] },
    { charge := some 0, mult := some 1, atoms := [
        { el := "Ar", ghost := false, x := -0.033090602, y := 0.000000000, z := -1.706317987 }] },
    { charge := none, mult := none, atoms := [
        { el := "H", ghost := true, x := 0.000000000, y := 0.000000000, z := 0.000000000 }] }],
  units := "angstrom", no_reorient := true, no_com := true, symmetry := "c1" }

/-- The dimer geometry literal the source stores under key O24by5mb-6-1.0-dimer. -/
def g6_1_0 : Molecule := {
  fragments := [
    { charge := some 0, mult := some 2, atoms := [
        { el := "C", ghost := false, x := -0.423436000, y := 0.000000000, z := 2.323769791 },
        { el := "N", ghost := false, x := 0.431390210, y := 0.000000000, z := 1.529019521 }] },
    { charge := some 0, mult := some 1, atoms := [
        { el := "Ar", ghost := false, x := -0.036767336, y := 0.000000000, z := -1.895908875 }] },
    { charge := none, mult := none, atoms := [
        { el := "H", ghost := true, x := 0.000000000, y := 0.000000000, z := 0.000000000 }] }],
  units := "angstrom", no_reorient := true, no_com := true, symmetry := "c1" }

/-- The dimer geometry literal the source stores under key O24by5mb-6-1.2-dimer. -/
def g6_1_2 : Molecule := {
  fragments := [
    { charge := some 0, mult := some 2, atoms := [
        { el := "C", ghost := false, x := -0.416082533, y := 0.000000000, z := 2.702951566 },
        { el := "N", ghost := false, x := 0.438743677, y := 0.000000000, z := 1.908201296 }] },
    { charge := some 0, mult := some 1, atoms := [
        { el := "Ar", ghost := false, x := -0.044120803, y := 0.000000000, z := -2.275090650 }] },
    { charge := none, mult := none, atoms := [
        { el := "H", ghost := true, x := 0.000000000, y := 0.000000000, z := 0.000000000 }] }],
  units := "angstrom", no_reorient := true, no_com := true, symmetry := "c1" }

/-- The dimer geometry literal the source stores under key O24by5mb-6-1.5-dimer. -/
def g6_1_5 : Molecule := {
  fragments := [
    { charge := some 0, mult := some 2, atoms := [
        { el := "C", ghost := false, x := -0.405052332, y := 0.000000000, z := 3.271724229 },
        { el := "N", ghost := false, x := 0.449773878, y := 0.000000000, z := 2.476973959 }] },
    { charge := some 0, mult := some 1, atoms := [
        { el := "Ar", ghost := false, x := -0.055151004, y := 0.000000000, z := -2.843863312 }] },
    { charge := none, mult := none, atoms := [
        { el := "H", ghost := true, x := 0.000000000, y := 0.000000000, z := 0.000000000 }] }],
  units := "angstrom", no_reorient := true, no_com := true, symmetry := "c1" }

/-- The dimer geometry literal the source stores under key O24by5mb-6-2.0-dimer. -/
def g6_2_0 : Molecule := {
  fragments := [
    { charge := some 0, mult := some 2, atoms := [
        { el := "C", ghost := false, x := -0.386668664, y := 0.000000000, z := 4.219678666 },
        { el := "N", ghost := false, x := 0.468157545, y := 0.000000000, z := 3.424928396 }] },
    { charge := some 0, mult := some 1, atoms := [
        { el := "Ar", ghost := false, x := -0.073534672, y := 0.000000000, z := -3.791817750 }] },
    { charge := none, mult := none, atoms := [
        { el := "H", ghost := true, x := 0.000000000, y := 0.000000000, z := 0.000000000 }] }],
  units := "angstrom", no_reorient := true, no_com := true, symmetry := "c1" }

/-- The dimer geometry literal the source stores under key O24by5mb-7-0.9-dimer. -/
def g7_0_9 : Molecule := {
  fragments := [
    { charge := some 0, mult := some 3, atoms := [
        { el := "O", ghost := false, x := -0.600850000, y := 0.000000000, z := -1.548000000 },
        { el := "O", ghost := false, x := 0.600850000, y := 0.000000000, z := -1.548000000 }] },
    { charge := some 0, mult := some 1, atoms := [
        { el := "N", ghost := false, x := 0.000000000, y := -0.548400000, z := 1.548000000 },
        { el := "N", ghost := false, x := 0.000000000, y := 0.548400000, z := 1.548000000 }] },
    { charge := none, mult := none, atoms := [
        { el := "H", ghost := true, x := 0.000000000, y := 0.000000000, z := 0.000000000 }] }],
  units := "angstrom", no_reorient := true, no_com := true, symmetry := "c1" }

/-- The dimer geometry literal the source stores under key O24by5mb-7-1.0-dimer. -/
def g7_1_0 : Molecule := {
  fragments := [
    { charge := some 0, mult := some 3, atoms := [
        { el := "O", ghost := false, x := -0.600850000, y := 0.000000000, z := -1.720000000 },
        { el := "O", ghost := false, x := 0.600850000, y := 0.000000000, z := -1.720000000 }] },
    { charge := some 0, mult := some 1, atoms := [
        { el := "N", ghost := false, x := 0.000000000, y := -0.548400000, z := 1.720000000 },
        { el := "N", ghost := false, x := 0.000000000, y := 0.548400000, z := 1.720000000 }] },
    { charge := none, mult := none, atoms := [
        { el := "H", ghost := true, x := 0.000000000, y := 0.000000000, z := 0.000000000 }] }],
  units := "angstrom", no_reorient := true, no_com := true, symmetry := "c1" }

/-- The dimer geometry literal the source stores under key O24by5mb-7-1.2-dimer. -/
def g7_1_2 : Molecule := {
  fragments := [
    { charge := some 0, mult := some 3, atoms := [
        { el := "O", ghost := false, x := -0.600850000, y := 0.000000000, z := -2.064000000 },
        { el := "O", ghost := false, x := 0.600850000, y := 0.000000000, z := -2.064000000 }] },
    { charge := some 0, mult := some 1, atoms := [
        { el := "N", ghost := false, x := 0.000000000, y := -0.548400000, z := 2.064000000 },
        { el := "N", ghost := false, x := 0.000000000, y := 0.548400000, z := 2.064000000 }] },
    { charge := none, mult := none, atoms := [
        { el := "H", ghost := true, x := 0.000000000, y := 0.000000000, z := 0.000000000 }] }],
  units := "angstrom", no_reorient := true, no_com := true, symmetry := "c1" }

/-- The dimer geometry literal the source stores under key O24by5mb-7-1.5-dimer. -/
def g7_1_5 : Molecule := {
  fragments := [
    { charge := some 0, mult := some 3, atoms := [
        { el := "O", ghost := false, x := -0.600850000, y := 0.000000000, z := -2.580000000 },
        { el := "O", ghost := false, x := 0.600850000, y := 0.000000000, z := -2.580000000 }] },
    { charge := some 0, mult := some 1, atoms := [
        { el := "N", ghost := false, x := 0.000000000, y := -0.548400000, z := 2.580000000 },
        { el := "N", ghost := false, x := 0.000000000, y := 0.548400000, z := 2.580000000 }] },
    { charge := none, mult := none, atoms := [
        { el := "H", ghost := true, x := 0.000000000, y := 0.000000000, z := 0.000000000 }] }],
  units := "angstrom", no_reorient := true, no_com := true, symmetry := "c1" }

/-- The dimer geometry literal the source stores under key O24by5mb-7-2.0-dimer. -/
def g7_2_0 : Molecule := {
  fragments := [
    { charge := some 0, mult := some 3, atoms := [
        { el := "O", ghost := false, x := -0.600850000, y := 0.000000000, z := -3.440000000 },
        { el := "O", ghost := false, x := 0.600850000, y := 0.000000000, z := -3.440000000 }] },
    { charge := some 0, mult := some 1, atoms := [
        { el := "N", ghost := false, x := 0.000000000, y := -0.548400000, z := 3.440000000 },
        { el := "N", ghost := false, x := 0.000000000, y := 0.548400000, z := 3.440000000 }] },
    { charge := none, mult := none, atoms := [
        { el := "H", ghost := true, x := 0.000000000, y := 0.000000000, z := 0.000000000 }] }],
  units := "angstrom", no_reorient := true, no_com := true, symmetry := "c1" }

/-- The dimer geometry literal the source stores under key O24by5mb-8-0.9-dimer. -/
def g8_0_9 : Molecule := {
  fragments := [
    { charge := some 0, mult := some 1, atoms := [
        { el := "O", ghost := false, x := -1.602354754, y := -0.131587291, z := 0.000000000 },
        { el := "H", ghost := false, x := -0.911985371, y := 0.483604683, z := 0.000000000 },
        { el := "H", ghost := false, x := -0.875976531, y := -0.823928533, z := 0.000000000 }] },
    { charge := some 0, mult := some 3, atoms := [
        { el := "O", ghost := false, x := 1.447979736, y := 0.699599572, z := 0.000000000 },
        { el := "O", ghost := false, x := 1.598198061, y := -0.427792115, z := 0.000000000 }] },
    { charge := none, mult := none, atoms := [
        { el := "H", ghost := true, x := 0.000000000, y := 0.000000000, z := 0.000000000 }] }],
  units := "angstrom", no_reorient := true, no_com := true, symmetry := "c1" }

/-- The dimer geometry literal the source stores under key O24by5mb-8-1.0-dimer. -/
def g8_1_0 : Molecule := {
  fragments := [
    { charge := some 0, mult := some 1, atoms := [
        { el := "O", ghost := false, x := -1.771586854, y := -0.146687705, z := 0.000000000 },
        { el := "H", ghost := false, x := -1.081217471, y := 0.468504269, z := 0.000000000 },
        { el := "H", ghost := false, x := -1.045208631, y := -0.839028947, z := 0.000000000 }] },
    { charge := some 0, mult := some 3, atoms := [
        { el := "O", ghost := false, x := 1.617211836, y := 0.714699987, z := 0.000000000 },
        { el := "O", ghost := false, x := 1.767430161, y := -0.412691700, z := 0.000000000 }] },
    { charge := none, mult := none, atoms := [
        { el := "H", ghost := true, x := 0.000000000, y := 0.000000000, z := 0.000000000 }] }],
  units := "angstrom", no_reorient := true, no_com := true, symmetry := "c1" }

/-- The dimer geometry literal the source stores under key O24by5mb-8-1.2-dimer. -/
def g8_1_2 : Molecule := {
  fragments := [
    { charge := some 0, mult := some 1, atoms := [
        { el := "O", ghost := false, x := -2.110051054, y := -0.176888534, z := 0.000000000 },
        { el := "H", ghost := false, x := -1.419681671, y := 0.438303440, z := 0.000000000 },
        { el := "H", ghost := false, x := -1.383672831, y := -0.869229776, z := 0.000000000 }] },
    { charge := some 0, mult := some 3, atoms := [
        { el := "O", ghost := false, x := 1.955676036, y := 0.744900815, z := 0.000000000 },
        { el := "O", ghost := false, x := 2.105894361, y := -0.382490872, z := 0.000000000 }] },
    { charge := none, mult := none, atoms := [
        { el := "H", ghost := true, x := 0.000000000, y := 0.000000000, z := 0.000000000 }] }],
  units := "angstrom", no_reorient := true, no_com := true, symmetry := "c1" }

/-- The dimer geometry literal the source stores under key O24by5mb-8-1.5-dimer. -/
def g8_1_5 : Molecule := {
  fragments := [
    { charge := some 0, mult := some 1, atoms := [
        { el := "O", ghost := false, x := -2.617747353, y := -0.222189777, z := 0.000000000 },
        { el := "H", ghost := false, x := -1.927377970, y := 0.393002197, z := 0.000000000 },
        { el := "H", ghost := false, x := -1.891369130, y := -0.914531019, z := 0.000000000 }] },
    { charge := some 0, mult := some 3, atoms := [
        { el := "O", ghost := false, x := 2.463372335, y := 0.790202058, z := 0.000000000 },
        { el := "O", ghost := false, x := 2.613590660, y := -0.337189629, z := 0.000000000 }] },
    { charge := none, mult := none, atoms := [
        { el := "H", ghost := true, x := 0.000000000, y := 0.000000000, z := 0.000000000 }] }],
  units := "angstrom", no_reorient := true, no_com := true, symmetry := "c1" }

/-- The dimer geometry literal the source stores under key O24by5mb-8-2.0-dimer. -/
def g8_2_0 : Molecule := {
  fragments := [
    { charge := some 0, mult := some 1, atoms := [
        { el := "O", ghost := false, x := -3.463907853, y := -0.297691848, z := 0.000000000 },
        { el := "H", ghost := false, x := -2.773538470, y := 0.317500126, z := 0.000000000 },
        { el := "H", ghost := false, x := -2.737529630, y := -0.990033090, z := 0.000000000 }] },
    { charge := some 0, mult := some 3, atoms := [
        { el := "O", ghost := false, x := 3.309532834, y := 0.865704130, z := 0.000000000 },
        { el := "O", ghost := false, x := 3.459751159, y := -0.261687557, z := 0.000000000 }] },
    { charge := none, mult := none, atoms := [
        { el := "H", ghost := true, x := 0.000000000, y := 0.000000000, z := 0.000000000 }] }],
  units := "angstrom", no_reorient := true, no_com := true, symmetry := "c1" }

/-- The dimer geometry literal the source stores under key O24by5mb-9-0.9-dimer. -/
def g9_0_9 : Molecule := {
  fragments := [
    { charge := some 0, mult := some 3, atoms := [
        { el := "O", ghost := false, x := 0.601000000, y := -1.485000000, z := 0.000000000 },
        { el := "O", ghost := false, x := -0.601000000, y := -1.485000000, z := 0.000000000 }] },
    { charge := some 0, mult := some 3, atoms := [
        { el := "O", ghost := false, x := 0.000000000, y := 1.485000000, z := 0.601000000 },
        { el := "O", ghost := false, x := 0.000000000, y := 1.485000000, z := -0.601000000 }] },
    { charge := none, mult := none, atoms := [
        { el := "H", ghost := true, x := 0.000000000, y := 0.000000000, z := 0.000000000 }] }],
  units := "angstrom", no_reorient := true, no_com := true, symmetry := "c1" }

/-- The dimer geometry literal the source stores under key O24by5mb-9-1.0-dimer. -/
def g9_1_0 : Molecule := {
  fragments := [
    { charge := some 0, mult := some 3, atoms := [
        { el := "O", ghost := false, x := 0.601000000, y := -1.650000000, z := 0.000000000 },
        { el := "O", ghost := false, x := -0.601000000, y := -1.650000000, z := 0.000000000 }] },
    { charge := some 0, mult := some 3, atoms := [
        { el := "O", ghost := false, x := 0.000000000, y := 1.650000000, z := 0.601000000 },
        { el := "O", ghost := false, x := 0.000000000, y := 1.650000000, z := -0.601000000 }] },
    { charge := none, mult := none, atoms := [
        { el := "H", ghost := true, x := 0.000000000, y := 0.000000000, z := 0.000000000 }] }],
  units := "angstrom", no_reorient := true, no_com := true, symmetry := "c1" }

/-- The dimer geometry literal the source stores under key O24by5mb-9-1.2-dimer. -/
def g9_1_2 : Molecule := {
  fragments := [
    { charge := some 0, mult := some 3, atoms := [
        { el := "O", ghost := false, x := 0.601000000, y := -1.980000000, z := 0.000000000 },
        { el := "O", ghost := false, x := -0.601000000, y := -1.980000000, z := 0.000000000 }] },
    { charge := some 0, mult := some 3, atoms := [
        { el := "O", ghost := false, x := 0.000000000, y := 1.980000000, z := 0.601000000 },
        { el := "O", ghost := false, x := 0.000000000, y := 1.980000000, z := -0.601000000 }] },
    { charge := none, mult := none, atoms := [
        { el := "H", ghost := true, x := 0.000000000, y := 0.000000000, z := 0.000000000 }] }],
  units := "angstrom", no_reorient := true, no_com := true, symmetry := "c1" }

/-- The dimer geometry literal the source stores under key O24by5mb-9-1.5-dimer. -/
def g9_1_5 : Molecule := {
  fragments := [
    { charge := some 0, mult := some 3, atoms := [
        { el := "O", ghost := false, x := 0.601000000, y := -2.475000000, z := 0.000000000 },
        { el := "O", ghost := false, x := -0.601000000, y := -2.475000000, z := 0.000000000 }] },
    { charge := some 0, mult := some 3, atoms := [
        { el := "O", ghost := false, x := 0.000000000, y := 2.475000000, z := 0.601000000 },
        { el := "O", ghost := false, x := 0.000000000, y := 2.475000000, z := -0.601000000 }] },
    { charge := none, mult := none, atoms := [
        { el := "H", ghost := true, x := 0.000000000, y := 0.000000000, z := 0.000000000 }] }],
  units := "angstrom", no_reorient := true, no_com := true, symmetry := "c1" }

/-- The dimer geometry literal the source stores under key O24by5mb-9-2.0-dimer. -/
def g9_2_0 : Molecule := {
  fragments := [
    { charge := some 0, mult := some 3, atoms := [
        { el := "O", ghost := false, x := 0.601000000, y := -3.300000000, z := 0.000000000 },
        { el := "O", ghost := false, x := -0.601000000, y := -3.300000000, z := 0.000000000 }] },
    { charge := some 0, mult := some 3, atoms := [
        { el := "O", ghost := false, x := 0.000000000, y := 3.300000000, z := 0.601000000 },
        { el := "O", ghost := false, x := 0.000000000, y := 3.300000000, z := -0.601000000 }] },
    { charge := none, mult := none, atoms := [
        { el := "H", ghost := true, x := 0.000000000, y := 0.000000000, z := 0.000000000 }] }],
  units := "angstrom", no_reorient := true, no_com := true, symmetry := "c1" }

/-- The dimer geometry literal the source stores under key O24by5mb-10-0.9-dimer. -/
def g10_0_9 : Molecule := {
  fragments := [
    { charge := some 0, mult := some 3, atoms := [
        { el := "N", ghost := false, x := -1.644614308, y := 0.000000000, z := 0.000000000 },
        { el := "H", ghost := false, x := -0.607614308, y := 0.000000000, z := 0.000000000 }] },
    { charge := some 0, mult := some 3, atoms := [
        { el := "N", ghost := false, x := 1.505385692, y := 0.000000000, z := 0.000000000 },
        { el := "H", ghost := false, x := 2.542385692, y := 0.000000000, z := 0.000000000 }] },
    { charge := none, mult := none, atoms := [
        { el := "H", ghost := true, x := 0.000000000, y := 0.000000000, z := 0.000000000 }] }],
  units := "angstrom", no_reorient := true, no_com := true, symmetry := "c1" }

/-- The dimer geometry literal the source stores under key O24by5mb-10-1.0-dimer. -/
def g10_1_0 : Molecule := {
  fragments := [
    { charge := some 0, mult := some 3, atoms := [
        { el := "N", ghost := false, x := -1.819614308, y := 0.000000000, z := 0.000000000 },
        { el := "H", ghost := false, x := -0.782614308, y := 0.000000000, z := 0.000000000 }] },
    { charge := some 0, mult := some 3, atoms := [
        { el := "N", ghost := false, x := 1.680385692, y := 0.000000000, z := 0.000000000 },
        { el := "H", ghost := false, x := 2.717385692, y := 0.000000000, z := 0.000000000 }] },
    { charge := none, mult := none, atoms := [
        { el := "H", ghost := true, x := 0.000000000, y := 0.000000000, z := 0.000000000 }] }],
  units := "angstrom", no_reorient := true, no_com := true, symmetry := "c1" }

/-- The dimer geometry literal the source stores under key O24by5mb-10-1.2-dimer. -/
def g10_1_2 : Molecule := {
  fragments := [
    { charge := some 0, mult := some 3, atoms := [
        { el := "N", ghost := false, x := -2.169614308, y := 0.000000000, z := 0.000000000 },
        { el := "H", ghost := false, x := -1.132614308, y := 0.000000000, z := 0.000000000 }] },
    { charge := some 0, mult := some 3, atoms := [
        { el := "N", ghost := false, x := 2.030385692, y := 0.000000000, z := 0.000000000 },
        { el := "H", ghost := false, x := 3.067385692, y := 0.000000000, z := 0.000000000 }] },
    { charge := none, mult := none, atoms := [
        { el := "H", ghost := true, x := 0.000000000, y := 0.000000000, z := 0.000000000 }] }],
  units := "angstrom", no_reorient := true, no_com := true, symmetry := "c1" }

/-- The dimer geometry literal the source stores under key O24by5mb-10-1.5-dimer. -/
def g10_1_5 : Molecule := {
  fragments := [
    { charge := some 0, mult := some 3, atoms := [
        { el := "N", ghost := false, x := -2.694614308, y := 0.000000000, z := 0.000000000 },
        { el := "H", ghost := false, x := -1.657614308, y := 0.000000000, z := 0.000000000 }] },
    { charge := some 0, mult := some 3, atoms := [
        { el := "N", ghost := false, x := 2.555385692, y := 0.000000000, z := 0.000000000 },
        { el := "H", ghost := false, x := 3.592385692, y := 0.000000000, z := 0.000000000 }] },
    { charge := none, mult := none, atoms := [
        { el := "H", ghost := true, x := 0.000000000, y := 0.000000000, z := 0.000000000 }] }],
  units := "angstrom", no_reorient := true, no_com := true, symmetry := "c1" }

/-- The dimer geometry literal the source stores under key O24by5mb-10-2.0-dimer. -/
def g10_2_0 : Molecule := {
  fragments := [
    { charge := some 0, mult := some 3, atoms := [
        { el := "N", ghost := false, x := -3.569614308, y := 0.000000000, z := 0.000000000 },
        { el := "H", ghost := false, x := -2.532614308, y := 0.000000000, z := 0.000000000 }] },
    { charge := some 0, mult := some 3, atoms := [
        { el := "N", ghost := false, x := 3.430385692, y := 0.000000000, z := 0.000000000 },
        { el := "H", ghost := false, x := 4.467385692, y := 0.000000000, z := 0.000000000 }] },
    { charge := none, mult := none, atoms := [
        { el := "H", ghost := true, x := 0.000000000, y := 0.000000000, z := 0.000000000 }] }],
  units := "angstrom", no_reorient := true, no_com := true, symmetry := "c1" }

/-- The dimer geometry literal the source stores under key O24by5mb-11-0.9-dimer. -/
def g11_0_9 : Molecule := {
  fragments := [
    { charge := some 0, mult := some 1, atoms := [
        { el := "C", ghost := false, x := -0.101334404, y := 1.309903834, z := 0.000000000 },
        { el := "H", ghost := false, x := 0.475160596, y := 1.401144834, z := 0.932814000 },
        { el := "H", ghost := false, x := 0.475160596, y := 1.401144834, z := -0.932814000 },
        { el := "O", ghost := false, x := -1.294782404, y := 1.126008834, z := 0.000000000 }] },
    { charge := some 0, mult := some 2, atoms := [
        { el := "N", ghost := false, x := 0.727791868, y := -1.144301441, z := 0.000000000 },
        { el := "H", ghost := false, x := -0.255227132, y := -1.433449441, z := 0.000000000 },
        { el := "H", ghost := false, x := 1.246142868, y := -2.027340441, z := 0.000000000 }] },
    { charge := none, mult := none, atoms := [
        { el := "H", ghost := true, x := 0.000000000, y := 0.000000000, z := 0.000000000 }] }],
  units := "angstrom", no_reorient := true, no_com := true, symmetry := "c1" }

/-- The dimer geometry literal the source stores under key O24by5mb-11-1.0-dimer. -/
def g11_1_0 : Molecule := {
  fragments := [
    { charge := some 0, mult := some 1, atoms := [
        { el := "C", ghost := false, x := -0.178952268, y := 1.445241696, z := 0.000000000 },
        { el := "H", ghost := false, x := 0.397542732, y := 1.536482696, z := 0.932814000 },
        { el := "H", ghost := false, x := 0.397542732, y := 1.536482696, z := -0.932814000 },
        { el := "O", ghost := false, x := -1.372400268, y := 1.261346696, z := 0.000000000 }] },
    { charge := some 0, mult := some 2, atoms := [
        { el := "N", ghost := false, x := 0.805409732, y := -1.279639304, z := 0.000000000 },
        { el := "H", ghost := false, x := -0.177609268, y := -1.568787304, z := 0.000000000 },
        { el := "H", ghost := false, x := 1.323760732, y := -2.162678304, z := 0.000000000 }] },
    { charge := none, mult := none, atoms := [
        { el := "H", ghost := true, x := 0.000000000, y := 0.000000000, z := 0.000000000 }] }],
  units := "angstrom", no_reorient := true, no_com := true, symmetry := "c1" }

/-- The dimer geometry literal the source stores under key O24by5mb-11-1.2-dimer. -/
def g11_1_2 : Molecule := {
  fragments := [
    { charge := some 0, mult := some 1, atoms := [
        { el := "C", ghost := false, x := -0.334187997, y := 1.715917421, z := 0.000000000 },
        { el := "H", ghost := false, x := 0.242307003, y := 1.807158421, z := 0.932814000 },
        { el := "H", ghost := false, x := 0.242307003, y := 1.807158421, z := -0.932814000 },
        { el := "O", ghost := false, x := -1.527635997, y := 1.532022421, z := 0.000000000 }] },
    { charge := some 0, mult := some 2, atoms := [
        { el := "N", ghost := false, x := 0.960645461, y := -1.550315029, z := 0.000000000 },
        { el := "H", ghost := false, x := -0.022373539, y := -1.839463029, z := 0.000000000 },
        { el := "H", ghost := false, x := 1.478996461, y := -2.433354029, z := 0.000000000 }] },
    { charge := none, mult := none, atoms := [
        { el := "H", ghost := true, x := 0.000000000, y := 0.000000000, z := 0.000000000 }] }],
  units := "angstrom", no_reorient := true, no_com := true, symmetry := "c1" }

/-- The dimer geometry literal the source stores under key O24by5mb-11-1.5-dimer. -/
def g11_1_5 : Molecule := {
  fragments := [
    { charge := some 0, mult := some 1, atoms := [
        { el := "C", ghost := false, x := -0.567041589, y := 2.121931008, z := 0.000000000 },
        { el := "H", ghost := false, x := 0.009453411, y := 2.213172008, z := 0.932814000 },
        { el := "H", ghost := false, x := 0.009453411, y := 2.213172008, z := -0.932814000 },
        { el := "O", ghost := false, x := -1.760489589, y := 1.938036008, z := 0.000000000 }] },
    { charge := some 0, mult := some 2, atoms := [
        { el := "N", ghost := false, x := 1.193499054, y := -1.956328616, z := 0.000000000 },
        { el := "H", ghost := false, x := 0.210480054, y := -2.245476616, z := 0.000000000 },
        { el := "H", ghost := false, x := 1.711850054, y := -2.839367616, z := 0.000000000 }] },
    { charge := none, mult := none, atoms := [
        { el := "H", ghost := true, x := 0.000000000, y := 0.000000000, z := 0.000000000 }] }],
  units := "angstrom", no_reorient := true, no_com := true, symmetry := "c1" }

/-- The dimer geometry literal the source stores under key O24by5mb-11-2.0-dimer. -/
def g11_2_0 : Molecule := {
  fragments := [
    { charge := some 0, mult := some 1, atoms := [
        { el := "C", ghost := false, x := -0.955130911, y := 2.798620321, z := 0.000000000 },
        { el := "H", ghost := false, x := -0.378635911, y := 2.889861321, z := 0.932814000 },
        { el := "H", ghost := false, x := -0.378635911, y := 2.889861321, z := -0.932814000 },
        { el := "O", ghost := false, x := -2.148578911, y := 2.614725321, z := 0.000000000 }] },
    { charge := some 0, mult := some 2, atoms := [
        { el := "N", ghost := false, x := 1.581588375, y := -2.633017928, z := 0.000000000 },
        { el := "H", ghost := false, x := 0.598569375, y := -2.922165928, z := 0.000000000 },
        { el := "H", ghost := false, x := 2.099939375, y := -3.516056928, z := 0.000000000 }] },
    { charge := none, mult := none, atoms := [
        { el := "H", ghost := true, x := 0.000000000, y := 0.000000000, z := 0.000000000 }] }],
  units := "angstrom", no_reorient := true, no_com := true, symmetry := "c1" }

/-- The dimer geometry literal the source stores under key O24by5mb-12-0.9-dimer. -/
def g12_0_9 : Molecule := {
  fragments := [
    { charge := some 0, mult := some 2, atoms := [
        { el := "Na", ghost := false, x := 0.000008510, y := 0.000000000, z := -1.099330219 }] },
    { charge := some 0, mult := some 1, atoms := [
        { el := "O", ghost := false, x := -0.000060510, y := 0.000000000, z := 1.036566937 },
        { el := "H", ghost := false, x := 0.000404197, y := 0.758137925, z := 1.597462474 },
        { el := "H", ghost := false, x := 0.000404197, y := -0.758137925, z := 1.597462474 }] },
    { charge := none, mult := none, atoms := [
        { el := "H", ghost := true, x := 0.000000000, y := 0.000000000, z := 0.000000000 }] }],
  units := "angstrom", no_reorient := true, no_com := true, symmetry := "c1" }

/-- The dimer geometry literal the source stores under key O24by5mb-12-1.0-dimer. -/
def g12_1_0 : Molecule := {
  fragments := [
    { charge := some 0, mult := some 2, atoms := [
        { el := "Na", ghost := false, x := 0.000009456, y := 0.000000000, z := -1.221478021 }] },
    { charge := some 0, mult := some 1, atoms := [
        { el := "O", ghost := false, x := -0.000061456, y := 0.000000000, z := 1.158714739 },
        { el := "H", ghost := false, x := 0.000403251, y := 0.758137925, z := 1.719610276 },
        { el := "H", ghost := false, x := 0.000403251, y := -0.758137925, z := 1.719610276 }] },
    { charge := none, mult := none, atoms := [
        { el := "H", ghost := true, x := 0.000000000, y := 0.000000000, z := 0.000000000 }] }],
  units := "angstrom", no_reorient := true, no_com := true, symmetry := "c1" }

/-- The dimer geometry literal the source stores under key O24by5mb-12-1.2-dimer. -/
def g12_1_2 : Molecule := {
  fragments := [
    { charge := some 0, mult := some 2, atoms := [
        { el := "Na", ghost := false, x := 0.000011347, y := 0.000000000, z := -1.465773625 }] },
    { charge := some 0, mult := some 1, atoms := [
        { el := "O", ghost := false, x := -0.000063347, y := 0.000000000, z := 1.403010344 },
        { el := "H", ghost := false, x := 0.000401360, y := 0.758137925, z := 1.963905880 },
        { el := "H", ghost := false, x := 0.000401360, y := -0.758137925, z := 1.963905880 }] },
    { charge := none, mult := none, atoms := [
        { el := "H", ghost := true, x := 0.000000000, y := 0.000000000, z := 0.000000000 }] }],
  units := "angstrom", no_reorient := true, no_com := true, symmetry := "c1" }

/-- The dimer geometry literal the source stores under key O24by5mb-12-1.5-dimer. -/
def g12_1_5 : Molecule := {
  fragments := [
    { charge := some 0, mult := some 2, atoms := [
        { el := "Na", ghost := false, x := 0.000014184, y := 0.000000000, z := -1.832217032 }] },
    { charge := some 0, mult := some 1, atoms := [
        { el := "O", ghost := false, x := -0.000066184, y := 0.000000000, z := 1.769453750 },
        { el := "H", ghost := false, x := 0.000398523, y := 0.758137925, z := 2.330349286 },
        { el := "H", ghost := false, x := 0.000398523, y := -0.758137925, z := 2.330349286 }] },
    { charge := none, mult := none, atoms := [
        { el := "H", ghost := true, x := 0.000000000, y := 0.000000000, z := 0.000000000 }] }],
  units := "angstrom", no_reorient := true, no_com := true, symmetry := "c1" }

/-- The dimer geometry literal the source stores under key O24by5mb-12-2.0-dimer. -/
def g12_2_0 : Molecule := {
  fragments := [
    { charge := some 0, mult := some 2, atoms := [
        { el := "Na", ghost := false, x := 0.000018912, y := 0.000000000, z := -2.442956042 }] },
    { charge := some 0, mult := some 1, atoms := [
        { el := "O", ghost := false, x := -0.000070912, y := 0.000000000, z := 2.380192760 },
        { el := "H", ghost := false, x := 0.000393795, y := 0.758137925, z := 2.941088297 },
        { el := "H", ghost := false, x := 0.000393795, y := -0.758137925, z := 2.941088297 }] },
    { charge := none, mult := none, atoms := [
        { el := "H", ghost := true, x := 0.000000000, y := 0.000000000, z := 0.000000000 }] }],
  units := "angstrom", no_reorient := true, no_com := true, symmetry := "c1" }

/-- The dimer geometry literal the source stores under key O24by5mb-13-0.9-dimer. -/
def g13_0_9 : Molecule := {
  fragments := [
    { charge := some 0, mult := some 1, atoms := [
        { el := "O", ghost := false, x := 0.000000000, y := 0.040866260, z := 1.250060902 },
        { el := "H", ghost := false, x := 0.758711083, y := -0.281411037, z := 1.745206735 },
        { el := "H", ghost := false, x := -0.758711083, y := -0.281411037, z := 1.745206735 }] },
    { charge := some 0, mult := some 2, atoms := [
        { el := "O", ghost := false, x := 0.000000000, y := -0.005751238, z := -1.363141746 },
        { el := "H", ghost := false, x := 0.000000000, y := 0.010232468, z := -0.389972999 }] },
    { charge := none, mult := none, atoms := [
        { el := "H", ghost := true, x := 0.000000000, y := 0.000000000, z := 0.000000000 }] }],
  units := "angstrom", no_reorient := true, no_com := true, symmetry := "c1" }

/-- The dimer geometry literal the source stores under key O24by5mb-13-1.0-dimer. -/
def g13_1_0 : Molecule := {
  fragments := [
    { charge := some 0, mult := some 1, atoms := [
        { el := "O", ghost := false, x := 0.000000000, y := 0.041400034, z := 1.395112780 },
        { el := "H", ghost := false, x := 0.758711083, y := -0.280877264, z := 1.890258613 },
        { el := "H", ghost := false, x := -0.758711083, y := -0.280877264, z := 1.890258613 }] },
    { charge := some 0, mult := some 2, atoms := [
        { el := "O", ghost := false, x := 0.000000000, y := -0.006285012, z := -1.508193624 },
        { el := "H", ghost := false, x := 0.000000000, y := 0.009698694, z := -0.535024877 }] },
    { charge := none, mult := none, atoms := [
        { el := "H", ghost := true, x := 0.000000000, y := 0.000000000, z := 0.000000000 }] }],
  units := "angstrom", no_reorient := true, no_com := true, symmetry := "c1" }

/-- The dimer geometry literal the source stores under key O24by5mb-13-1.2-dimer. -/
def g13_1_2 : Molecule := {
  fragments := [
    { charge := some 0, mult := some 1, atoms := [
        { el := "O", ghost := false, x := 0.000000000, y := 0.042467581, z := 1.685216535 },
        { el := "H", ghost := false, x := 0.758711083, y := -0.279809716, z := 2.180362369 },
        { el := "H", ghost := false, x := -0.758711083, y := -0.279809716, z := 2.180362369 }] },
    { charge := some 0, mult := some 2, atoms := [
        { el := "O", ghost := false, x := 0.000000000, y := -0.007352559, z := -1.798297380 },
        { el := "H", ghost := false, x := 0.000000000, y := 0.008631147, z := -0.825128632 }] },
    { charge := none, mult := none, atoms := [
        { el := "H", ghost := true, x := 0.000000000, y := 0.000000000, z := 0.000000000 }] }],
  units := "angstrom", no_reorient := true, no_com := true, symmetry := "c1" }

/-- The dimer geometry literal the source stores under key O24by5mb-13-1.5-dimer. -/
def g13_1_5 : Molecule := {
  fragments := [
    { charge := some 0, mult := some 1, atoms := [
        { el := "O", ghost := false, x := 0.000000000, y := 0.044068902, z := 2.120372169 },
        { el := "H", ghost := false, x := 0.758711083, y := -0.278208395, z := 2.615518002 },
        { el := "H", ghost := false, x := -0.758711083, y := -0.278208395, z := 2.615518002 }] },
    { charge := some 0, mult := some 2, atoms := [
        { el := "O", ghost := false, x := 0.000000000, y := -0.008953881, z := -2.233453013 },
        { el := "H", ghost := false, x := 0.000000000, y := 0.007029825, z := -1.260284266 }] },
    { charge := none, mult := none, atoms := [
        { el := "H", ghost := true, x := 0.000000000, y := 0.000000000, z := 0.000000000 }] }],
  units := "angstrom", no_reorient := true, no_com := true, symmetry := "c1" }

/-- The dimer geometry literal the source stores under key O24by5mb-13-2.0-dimer. -/
def g13_2_0 : Molecule := {
  fragments := [
    { charge := some 0, mult := some 1, atoms := [
        { el := "O", ghost := false, x := 0.000000000, y := 0.046737771, z := 2.845631558 },
        { el := "H", ghost := false, x := 0.758711083, y := -0.275539526, z := 3.340777391 },
        { el := "H", ghost := false, x := -0.758711083, y := -0.275539526, z := 3.340777391 }] },
    { charge := some 0, mult := some 2, atoms := [
        { el := "O", ghost := false, x := 0.000000000, y := -0.011622750, z := -2.958712403 },
        { el := "H", ghost := false, x := 0.000000000, y := 0.004360956, z := -1.985543655 }] },
    { charge := none, mult := none, atoms := [
        { el := "H", ghost := true, x := 0.000000000, y := 0.000000000, z := 0.000000000 }] }],
  units := "angstrom", no_reorient := true, no_com := true, symmetry := "c1" }

/-- The dimer geometry literal the source stores under key O24by5mb-14-0.9-dimer. -/
def g14_0_9 : Molecule := {
  fragments := [
    { charge := some 0, mult := some 1, atoms := [
        { el := "O", ghost := false, x := 0.009168889, y := -0.062647918, z := -1.355472454 },
        { el := "H", ghost := false, x := 0.035272725, y := -0.935983853, z := -1.711786553 },
        { el := "H", ghost := false, x := -0.174773578, y := 0.520586925, z := -2.074053757 }] },
    { charge := some 0, mult := some 2, atoms := [
        { el := "H", ghost := false, x := 0.007562952, y := 0.395572349, z := 0.203044832 },
        { el := "O", ghost := false, x := 0.006757459, y := 0.633252986, z := 1.127049552 },
        { el := "O", ghost := false, x := -0.007931101, y := -0.495446570, z := 1.780564418 }] },
    { charge := none, mult := none, atoms := [
        { el := "H", ghost := true, x := 0.000000000, y := 0.000000000, z := 0.000000000 }] }],
  units := "angstrom", no_reorient := true, no_com := true, symmetry := "c1" }

/-- The dimer geometry literal the source stores under key O24by5mb-14-1.0-dimer. -/
def g14_1_0 : Molecule := {
  fragments := [
    { charge := some 0, mult := some 1, atoms := [
        { el := "O", ghost := false, x := 0.009206439, y := -0.071412233, z := -1.512762672 },
        { el := "H", ghost := false, x := 0.035310275, y := -0.944748168, z := -1.869076771 },
        { el := "H", ghost := false, x := -0.174736028, y := 0.511822610, z := -2.231343975 }] },
    { charge := some 0, mult := some 2, atoms := [
        { el := "H", ghost := false, x := 0.007525402, y := 0.404336664, z := 0.360335050 },
        { el := "O", ghost := false, x := 0.006719909, y := 0.642017300, z := 1.284339770 },
        { el := "O", ghost := false, x := -0.007968651, y := -0.486682255, z := 1.937854636 }] },
    { charge := none, mult := none, atoms := [
        { el := "H", ghost := true, x := 0.000000000, y := 0.000000000, z := 0.000000000 }] }],
  units := "angstrom", no_reorient := true, no_com := true, symmetry := "c1" }

/-- The dimer geometry literal the source stores under key O24by5mb-14-1.2-dimer. -/
def g14_1_2 : Molecule := {
  fragments := [
    { charge := some 0, mult := some 1, atoms := [
        { el := "O", ghost := false, x := 0.009281538, y := -0.088940863, z := -1.827343108 },
        { el := "H", ghost := false, x := 0.035385374, y := -0.962276797, z := -2.183657207 },
        { el := "H", ghost := false, x := -0.174660929, y := 0.494293980, z := -2.545924411 }] },
    { charge := some 0, mult := some 2, atoms := [
        { el := "H", ghost := false, x := 0.007450302, y := 0.421865294, z := 0.674915486 },
        { el := "O", ghost := false, x := 0.006644810, y := 0.659545930, z := 1.598920206 },
        { el := "O", ghost := false, x := -0.008043751, y := -0.469153625, z := 2.252435072 }] },
    { charge := none, mult := none, atoms := [
        { el := "H", ghost := true, x := 0.000000000, y := 0.000000000, z := 0.000000000 }] }],
  units := "angstrom", no_reorient := true, no_com := true, symmetry := "c1" }

/-- The dimer geometry literal the source stores under key O24by5mb-14-1.5-dimer. -/
def g14_1_5 : Molecule := {
  fragments := [
    { charge := some 0, mult := some 1, atoms := [
        { el := "O", ghost := false, x := 0.009394188, y := -0.115233807, z := -2.299213762 },
        { el := "H", ghost := false, x := 0.035498024, y := -0.988569742, z := -2.655527861 },
        { el := "H", ghost := false, x := -0.174548279, y := 0.468001035, z := -3.017795065 }] },
    { charge := some 0, mult := some 2, atoms := [
        { el := "H", ghost := false, x := 0.007337653, y := 0.448158238, z := 1.146786139 },
        { el := "O", ghost := false, x := 0.006532160, y := 0.685838875, z := 2.070790860 },
        { el := "O", ghost := false, x := -0.008156400, y := -0.442860681, z := 2.724305726 }] },
    { charge := none, mult := none, atoms := [
        { el := "H", ghost := true, x := 0.000000000, y := 0.000000000, z := 0.000000000 }] }],
  units := "angstrom", no_reorient := true, no_com := true, symmetry := "c1" }

/-- The dimer geometry literal the source stores under key O24by5mb-14-2.0-dimer. -/
def g14_2_0 : Molecule := {
  fragments := [
    { charge := some 0, mult := some 1, atoms := [
        { el := "O", ghost := false, x := 0.009581937, y := -0.159055382, z := -3.085664852 },
        { el := "H", ghost := false, x := 0.035685773, y := -1.032391316, z := -3.441978951 },
        { el := "H", ghost := false, x := -0.174360530, y := 0.424179461, z := -3.804246155 }] },
    { charge := some 0, mult := some 2, atoms := [
        { el := "H", ghost := false, x := 0.007149904, y := 0.491979813, z := 1.933237229 },
        { el := "O", ghost := false, x := 0.006344411, y := 0.729660449, z := 2.857241950 },
        { el := "O", ghost := false, x := -0.008344149, y := -0.399039106, z := 3.510756816 }] },
    { charge := none, mult := none, atoms := [
        { el := "H", ghost := true, x := 0.000000000, y := 0.000000000, z := 0.000000000 }] }],
  units := "angstrom", no_reorient := true, no_com := true, symmetry := "c1" }

/-- The dimer geometry literal the source stores under key O24by5mb-15-0.9-dimer. -/
def g15_0_9 : Molecule := {
  fragments := [
    { charge := some 0, mult := some 1, atoms := [
        { el := "N", ghost := false, x := 0.000000000, y := 0.000000000, z := 0.863512817 },
        { el := "H", ghost := false, x := 0.937314431, y := 0.000000000, z := 1.245069906 },
        { el := "H", ghost := false, x := -0.468657216, y := -0.811738109, z := 1.245069906 },
        { el := "H", ghost := false, x := -0.468657216, y := 0.811738109, z := 1.245069906 }] },
    { charge := some 0, mult := some 2, atoms := [
        { el := "Li", ghost := false, x := 0.000000000, y := 0.000000000, z := -0.931259424 }] },
    { charge := none, mult := none, atoms := [
        { el := "H", ghost := true, x := 0.000000000, y := 0.000000000, z := 0.000000000 }] }],
  units := "angstrom", no_reorient := true, no_com := true, symmetry := "c1" }

/-- The dimer geometry literal the source stores under key O24by5mb-15-1.0-dimer. -/
def g15_1_0 : Molecule := {
  fragments := [
    { charge := some 0, mult := some 1, atoms := [
        { el := "N", ghost := false, x := 0.000000000, y := 0.000000000, z := 0.966986086 },
        { el := "H", ghost := false, x := 0.937314431, y := 0.000000000, z := 1.348543175 },
        { el := "H", ghost := false, x := -0.468657216, y := -0.811738109, z := 1.348543175 },
        { el := "H", ghost := false, x := -0.468657216, y := 0.811738109, z := 1.348543175 }] },
    { charge := some 0, mult := some 2, atoms := [
        { el := "Li", ghost := false, x := 0.000000000, y := 0.000000000, z := -1.034732694 }] },
    { charge := none, mult := none, atoms := [
        { el := "H", ghost := true, x := 0.000000000, y := 0.000000000, z := 0.000000000 }] }],
  units := "angstrom", no_reorient := true, no_com := true, symmetry := "c1" }

/-- The dimer geometry literal the source stores under key O24by5mb-15-1.2-dimer. -/
def g15_1_2 : Molecule := {
  fragments := [
    { charge := some 0, mult := some 1, atoms := [
        { el := "N", ghost := false, x := 0.000000000, y := 0.000000000, z := 1.173932625 },
        { el := "H", ghost := false, x := 0.937314431, y := 0.000000000, z := 1.555489714 },
        { el := "H", ghost := false, x := -0.468657216, y := -0.811738109, z := 1.555489714 },
        { el := "H", ghost := false, x := -0.468657216, y := 0.811738109, z := 1.555489714 }] },
    { charge := some 0, mult := some 2, atoms := [
        { el := "Li", ghost := false, x := 0.000000000, y := 0.000000000, z := -1.241679233 }] },
    { charge := none, mult := none, atoms := [
        { el := "H", ghost := true, x := 0.000000000, y := 0.000000000, z := 0.000000000 }] }],
  units := "angstrom", no_reorient := true, no_com := true, symmetry := "c1" }

/-- The dimer geometry literal the source stores under key O24by5mb-15-1.5-dimer. -/
def g15_1_5 : Molecule := {
  fragments := [
    { charge := some 0, mult := some 1, atoms := [
        { el := "N", ghost := false, x := 0.000000000, y := 0.000000000, z := 1.484352433 },
        { el := "H", ghost := false, x := 0.937314431, y := 0.000000000, z := 1.865909522 },
        { el := "H", ghost := false, x := -0.468657216, y := -0.811738109, z := 1.865909522 },
        { el := "H", ghost := false, x := -0.468657216, y := 0.811738109, z := 1.865909522 }] },
    { charge := some 0, mult := some 2, atoms := [
        { el := "Li", ghost := false, x := 0.000000000, y := 0.000000000, z := -1.552099041 }] },
    { charge := none, mult := none, atoms := [
        { el := "H", ghost := true, x := 0.000000000, y := 0.000000000, z := 0.000000000 }] }],
  units := "angstrom", no_reorient := true, no_com := true, symmetry := "c1" }

/-- The dimer geometry literal the source stores under key O24by5mb-15-2.0-dimer. -/
def g15_2_0 : Molecule := {
  fragments := [
    { charge := some 0, mult := some 1, atoms := [
        { el := "N", ghost := false, x := 0.000000000, y := 0.000000000, z := 2.001718780 },
        { el := "H", ghost := false, x := 0.937314431, y := 0.000000000, z := 2.383275869 },
        { el := "H", ghost := false, x := -0.468657216, y := -0.811738109, z := 2.383275869 },
        { el := "H", ghost := false, x := -0.468657216, y := 0.811738109, z := 2.383275869 }] },
    { charge := some 0, mult := some 2, atoms := [
        { el := "Li", ghost := false, x := 0.000000000, y := 0.000000000, z := -2.069465388 }] },
    { charge := none, mult := none, atoms := [
        { el := "H", ghost := true, x := 0.000000000, y := 0.000000000, z := 0.000000000 }] }],
  units := "angstrom", no_reorient := true, no_com := true, symmetry := "c1" }

/-- The dimer geometry literal the source stores under key O24by5mb-16-0.9-dimer. -/
def g16_0_9 : Molecule := {
  fragments := [
    { charge := some 0, mult := some 3, atoms := [
        { el := "O", ghost := false, x := 0.000000000, y := 0.603367899, z := -2.143167858 },
        { el := "O", ghost := false, x := 0.000000000, y := -0.603367899, z := -2.143167858 }] },
    { charge := some 0, mult := some 2, atoms := [
        { el := "Li", ghost := false, x := 0.000000000, y := 0.000000000, z := 2.143167858 }] },
    { charge := none, mult := none, atoms := [
        { el := "H", ghost := true, x := 0.000000000, y := 0.000000000, z := 0.000000000 }] }],
  units := "angstrom", no_reorient := true, no_com := true, symmetry := "c1" }

/-- The dimer geometry literal the source stores under key O24by5mb-16-1.0-dimer. -/
def g16_1_0 : Molecule := {
  fragments := [
    { charge := some 0, mult := some 3, atoms := [
        { el := "O", ghost := false, x := 0.000000000, y := 0.603367899, z := -2.381297620 },
        { el := "O", ghost := false, x := 0.000000000, y := -0.603367899, z := -2.381297620 }] },
    { charge := some 0, mult := some 2, atoms := [
        { el := "Li", ghost := false, x := 0.000000000, y := 0.000000000, z := 2.381297620 }] },
    { charge := none, mult := none, atoms := [
        { el := "H", ghost := true, x := 0.000000000, y := 0.000000000, z := 0.000000000 }] }],
  units := "angstrom", no_reorient := true, no_com := true, symmetry := "c1" }

/-- The dimer geometry literal the source stores under key O24by5mb-16-1.2-dimer. -/
def g16_1_2 : Molecule := {
  fragments := [
    { charge := some 0, mult := some 3, atoms := [
        { el := "O", ghost := false, x := 0.000000000, y := 0.603367899, z := -2.857557145 },
        { el := "O", ghost := false, x := 0.000000000, y := -0.603367899, z := -2.857557145 }] },
    { charge := some 0, mult := some 2, atoms := [
        { el := "Li", ghost := false, x := 0.000000000, y := 0.000000000, z := 2.857557145 }] },
    { charge := none, mult := none, atoms := [
        { el := "H", ghost := true, x := 0.000000000, y := 0.000000000, z := 0.000000000 }] }],
  units := "angstrom", no_reorient := true, no_com := true, symmetry := "c1" }

/-- The dimer geometry literal the source stores under key O24by5mb-16-1.5-dimer. -/
def g16_1_5 : Molecule := {
  fragments := [
    { charge := some 0, mult := some 3, atoms := [
        { el := "O", ghost := false, x := 0.000000000, y := 0.603367899, z := -3.571946431 },
        { el := "O", ghost := false, x := 0.000000000, y := -0.603367899, z := -3.571946431 }] },
    { charge := some 0, mult := some 2, atoms := [
        { el := "Li", ghost := false, x := 0.000000000, y := 0.000000000, z := 3.571946431 }] },
    { charge := none, mult := none, atoms := [
        { el := "H", ghost := true, x := 0.000000000, y := 0.000000000, z := 0.000000000 }] }],
  units := "angstrom", no_reorient := true, no_com := true, symmetry := "c1" }

/-- The dimer geometry literal the source stores under key O24by5mb-16-2.0-dimer. -/
def g16_2_0 : Molecule := {
  fragments := [
    { charge := some 0, mult := some 3, atoms := [
        { el := "O", ghost := false, x := 0.000000000, y := 0.603367899, z := -4.762595241 },
        { el := "O", ghost := false, x := 0.000000000, y := -0.603367899, z := -4.762595241 }] },
    { charge := some 0, mult := some 2, atoms := [
        { el := "Li", ghost := false, x := 0.000000000, y := 0.000000000, z := 4.762595241 }] },
    { charge := none, mult := none, atoms := [
        { el := "H", ghost := true, x := 0.000000000, y := 0.000000000, z := 0.000000000 }] }],
  units := "angstrom", no_reorient := true, no_com := true, symmetry := "c1" }

/-- The dimer geometry literal the source stores under key O24by5mb-17-0.9-dimer. -/
def g17_0_9 : Molecule := {
  fragments := [
    { charge := some 0, mult := some 2, atoms := [
        { el := "C", ghost := false, x := -1.595250000, y := -0.609996639, z := 0.000000000 },
        { el := "N", ghost := false, x := -1.595250000, y := 0.560603361, z := 0.000000000 }] },
    { charge := some 0, mult := some 1, atoms := [
        { el := "H", ghost := false, x := 1.595250000, y := -0.020206341, z := 0.371400000 },
        { el := "H", ghost := false, x := 1.595250000, y := -0.020206341, z := -0.371400000 }] },
    { charge := none, mult := none, atoms := [
        { el := "H", ghost := true, x := 0.000000000, y := 0.000000000, z := 0.000000000 }] }],
  units := "angstrom", no_reorient := true, no_com := true, symmetry := "c1" }

/-- The dimer geometry literal the source stores under key O24by5mb-17-1.0-dimer. -/
def g17_1_0 : Molecule := {
  fragments := [
    { charge := some 0, mult := some 2, atoms := [
        { el := "C", ghost := false, x := -1.772500000, y := -0.607751490, z := 0.000000000 },
        { el := "N", ghost := false, x := -1.772500000, y := 0.562848510, z := 0.000000000 }] },
    { charge := some 0, mult := some 1, atoms := [
        { el := "H", ghost := false, x := 1.772500000, y := -0.022451490, z := 0.371400000 },
        { el := "H", ghost := false, x := 1.772500000, y := -0.022451490, z := -0.371400000 }] },
    { charge := none, mult := none, atoms := [
        { el := "H", ghost := true, x := 0.000000000, y := 0.000000000, z := 0.000000000 }] }],
  units := "angstrom", no_reorient := true, no_com := true, symmetry := "c1" }

/-- The dimer geometry literal the source stores under key O24by5mb-17-1.2-dimer. -/
def g17_1_2 : Molecule := {
  fragments := [
    { charge := some 0, mult := some 2, atoms := [
        { el := "C", ghost := false, x := -2.127000000, y := -0.603261192, z := 0.000000000 },
        { el := "N", ghost := false, x := -2.127000000, y := 0.567338808, z := 0.000000000 }] },
    { charge := some 0, mult := some 1, atoms := [
        { el := "H", ghost := false, x := 2.127000000, y := -0.026941788, z := 0.371400000 },
        { el := "H", ghost := false, x := 2.127000000, y := -0.026941788, z := -0.371400000 }] },
    { charge := none, mult := none, atoms := [
        { el := "H", ghost := true, x := 0.000000000, y := 0.000000000, z := 0.000000000 }] }],
  units := "angstrom", no_reorient := true, no_com := true, symmetry := "c1" }

/-- The dimer geometry literal the source stores under key O24by5mb-17-1.5-dimer. -/
def g17_1_5 : Molecule := {
  fragments := [
    { charge := some 0, mult := some 2, atoms := [
        { el := "C", ghost := false, x := -2.658750000, y := -0.596525745, z := 0.000000000 },
        { el := "N", ghost := false, x := -2.658750000, y := 0.574074255, z := 0.000000000 }] },
    { charge := some 0, mult := some 1, atoms := [
        { el := "H", ghost := false, x := 2.658750000, y := -0.033677235, z := 0.371400000 },
        { el := "H", ghost := false, x := 2.658750000, y := -0.033677235, z := -0.371400000 }] },
    { charge := none, mult := none, atoms := [
        { el := "H", ghost := true, x := 0.000000000, y := 0.000000000, z := 0.000000000 }] }],
  units := "angstrom", no_reorient := true, no_com := true, symmetry := "c1" }

/-- The dimer geometry literal the source stores under key O24by5mb-17-2.0-dimer. -/
def g17_2_0 : Molecule := {
  fragments := [
    { charge := some 0, mult := some 2, atoms := [
        { el := "C", ghost := false, x := -3.545000000, y := -0.585300000, z := 0.000000000 },
        { el := "N", ghost := false, x := -3.545000000, y := 0.585300000, z := 0.000000000 }] },
    { charge := some 0, mult := some 1, atoms := [
        { el := "H", ghost := false, x := 3.545000000, y := -0.044902980, z := 0.371400000 },
        { el := "H", ghost := false, x := 3.545000000, y := -0.044902980, z := -0.371400000 }] },
    { charge := none, mult := none, atoms := [
        { el := "H", ghost := true, x := 0.000000000, y := 0.000000000, z := 0.000000000 }] }],
  units := "angstrom", no_reorient := true, no_com := true, symmetry := "c1" }

/-- The dimer geometry literal the source stores under key O24by5mb-18-0.9-dimer. -/
def g18_0_9 : Molecule := {
  fragments := [
    { charge := some 0, mult := some 1, atoms := [
        { el := "N", ghost := false, x := 0.000000000, y := 0.000000000, z := -1.994044328 },
        { el := "H", ghost := false, x := 0.937314431, y := 0.000000000, z := -1.612487239 },
        { el := "H", ghost := false, x := -0.468657216, y := -0.811738109, z := -1.612487239 },
        { el := "H", ghost := false, x := -0.468657216, y := 0.811738109, z := -1.612487239 }] },
    { charge := some 0, mult := some 2, atoms := [
        { el := "Li", ghost := false, x := 0.000000000, y := 0.000000000, z := 1.926297720 }] },
    { charge := none, mult := none, atoms := [
        { el := "H", ghost := true, x := 0.000000000, y := 0.000000000, z := 0.000000000 }] }],
  units := "angstrom", no_reorient := true, no_com := true, symmetry := "c1" }

/-- The dimer geometry literal the source stores under key O24by5mb-18-1.0-dimer. -/
def g18_1_0 : Molecule := {
  fragments := [
    { charge := some 0, mult := some 1, atoms := [
        { el := "N", ghost := false, x := 0.000000000, y := 0.000000000, z := -2.208077408 },
        { el := "H", ghost := false, x := 0.937314431, y := 0.000000000, z := -1.826520319 },
        { el := "H", ghost := false, x := -0.468657216, y := -0.811738109, z := -1.826520319 },
        { el := "H", ghost := false, x := -0.468657216, y := 0.811738109, z := -1.826520319 }] },
    { charge := some 0, mult := some 2, atoms := [
        { el := "Li", ghost := false, x := 0.000000000, y := 0.000000000, z := 2.140330800 }] },
    { charge := none, mult := none, atoms := [
        { el := "H", ghost := true, x := 0.000000000, y := 0.000000000, z := 0.000000000 }] }],
  units := "angstrom", no_reorient := true, no_com := true, symmetry := "c1" }

/-- The dimer geometry literal the source stores under key O24by5mb-18-1.2-dimer. -/
def g18_1_2 : Molecule := {
  fragments := [
    { charge := some 0, mult := some 1, atoms := [
        { el := "N", ghost := false, x := 0.000000000, y := 0.000000000, z := -2.636143568 },
        { el := "H", ghost := false, x := 0.937314431, y := 0.000000000, z := -2.254586479 },
        { el := "H", ghost := false, x := -0.468657216, y := -0.811738109, z := -2.254586479 },
        { el := "H", ghost := false, x := -0.468657216, y := 0.811738109, z := -2.254586479 }] },
    { charge := some 0, mult := some 2, atoms := [
        { el := "Li", ghost := false, x := 0.000000000, y := 0.000000000, z := 2.568396960 }] },
    { charge := none, mult := none, atoms := [
        { el := "H", ghost := true, x := 0.000000000, y := 0.000000000, z := 0.000000000 }] }],
  units := "angstrom", no_reorient := true, no_com := true, symmetry := "c1" }

/-- The dimer geometry literal the source stores under key O24by5mb-18-1.5-dimer. -/
def g18_1_5 : Molecule := {
  fragments := [
    { charge := some 0, mult := some 1, atoms := [
        { el := "N", ghost := false, x := 0.000000000, y := 0.000000000, z := -3.278242808 },
        { el := "H", ghost := false, x := 0.937314431, y := 0.000000000, z := -2.896685719 },
        { el := "H", ghost := false, x := -0.468657216, y := -0.811738109, z := -2.896685719 },
        { el := "H", ghost := false, x := -0.468657216, y := 0.811738109, z := -2.896685719 }] },
    { charge := some 0, mult := some 2, atoms := [
        { el := "Li", ghost := false, x := 0.000000000, y := 0.000000000, z := 3.210496200 }] },
    { charge := none, mult := none, atoms := [
        { el := "H", ghost := true, x := 0.000000000, y := 0.000000000, z := 0.000000000 }] }],
  units := "angstrom", no_reorient := true, no_com := true, symmetry := "c1" }

/-- The dimer geometry literal the source stores under key O24by5mb-18-2.0-dimer. -/
def g18_2_0 : Molecule := {
  fragments := [
    { charge := some 0, mult := some 1, atoms := [
        { el := "N", ghost := false, x := 0.000000000, y := 0.000000000, z := -4.348408208 },
        { el := "H", ghost := false, x := 0.937314431, y := 0.000000000, z := -3.966851119 },
        { el := "H", ghost := false, x := -0.468657216, y := -0.811738109, z := -3.966851119 },
        { el := "H", ghost := false, x := -0.468657216, y := 0.811738109, z := -3.966851119 }] },
    { charge := some 0, mult := some 2, atoms := [
        { el := "Li", ghost := false, x := 0.000000000, y := 0.000000000, z := 4.280661600 }] },
    { charge := none, mult := none, atoms := [
        { el := "H", ghost := true, x := 0.000000000, y := 0.000000000, z := 0.000000000 }] }],
  units := "angstrom", no_reorient := true, no_com := true, symmetry := "c1" }

/-- The dimer geometry literal the source stores under key O24by5mb-19-0.9-dimer. -/
def g19_0_9 : Molecule := {
  fragments := [
    { charge := some 0, mult := some 1, atoms := [
        { el := "H", ghost := false, x := -2.342136430, y := 0.069282299, z := 0.000000000 },
        { el := "O", ghost := false, x := -1.395456186, y := -0.083638660, z := 0.000000000 },
        { el := "H", ghost := false, x := -1.010361619, y := 0.794850735, z := 0.000000000 }] },
    { charge := some 0, mult := some 3, atoms := [
        { el := "O", ghost := false, x := 1.303480449, y := 0.616939606, z := 0.000000000 },
        { el := "O", ghost := false, x := 1.550272430, y := -0.565075397, z := 0.000000000 }] },
    { charge := none, mult := none, atoms := [
        { el := "H", ghost := true, x := 0.000000000, y := 0.000000000, z := 0.000000000 }] }],
  units := "angstrom", no_reorient := true, no_com := true, symmetry := "c1" }

/-- The dimer geometry literal the source stores under key O24by5mb-19-1.0-dimer. -/
def g19_1_0 : Molecule := {
  fragments := [
    { charge := some 0, mult := some 1, atoms := [
        { el := "H", ghost := false, x := -2.500678256, y := 0.066400954, z := 0.000000000 },
        { el := "O", ghost := false, x := -1.553998012, y := -0.086520005, z := 0.000000000 },
        { el := "H", ghost := false, x := -1.168903446, y := 0.791969390, z := 0.000000000 }] },
    { charge := some 0, mult := some 3, atoms := [
        { el := "O", ghost := false, x := 1.462022276, y := 0.619820951, z := 0.000000000 },
        { el := "O", ghost := false, x := 1.708814256, y := -0.562194052, z := 0.000000000 }] },
    { charge := none, mult := none, atoms := [
        { el := "H", ghost := true, x := 0.000000000, y := 0.000000000, z := 0.000000000 }] }],
  units := "angstrom", no_reorient := true, no_com := true, symmetry := "c1" }

/-- The dimer geometry literal the source stores under key O24by5mb-19-1.2-dimer. -/
def g19_1_2 : Molecule := {
  fragments := [
    { charge := some 0, mult := some 1, atoms := [
        { el := "H", ghost := false, x := -2.817761909, y := 0.060638264, z := 0.000000000 },
        { el := "O", ghost := false, x := -1.871081665, y := -0.092282694, z := 0.000000000 },
        { el := "H", ghost := false, x := -1.485987099, y := 0.786206700, z := 0.000000000 }] },
    { charge := some 0, mult := some 3, atoms := [
        { el := "O", ghost := false, x := 1.779105929, y := 0.625583641, z := 0.000000000 },
        { el := "O", ghost := false, x := 2.025897910, y := -0.556431362, z := 0.000000000 }] },
    { charge := none, mult := none, atoms := [
        { el := "H", ghost := true, x := 0.000000000, y := 0.000000000, z := 0.000000000 }] }],
  units := "angstrom", no_reorient := true, no_com := true, symmetry := "c1" }

/-- The dimer geometry literal the source stores under key O24by5mb-19-1.5-dimer. -/
def g19_1_5 : Molecule := {
  fragments := [
    { charge := some 0, mult := some 1, atoms := [
        { el := "H", ghost := false, x := -3.293387389, y := 0.051994230, z := 0.000000000 },
        { el := "O", ghost := false, x := -2.346707145, y := -0.100926729, z := 0.000000000 },
        { el := "H", ghost := false, x := -1.961612579, y := 0.777562666, z := 0.000000000 }] },
    { charge := some 0, mult := some 3, atoms := [
        { el := "O", ghost := false, x := 2.254731409, y := 0.634227675, z := 0.000000000 },
        { el := "O", ghost := false, x := 2.501523389, y := -0.547787328, z := 0.000000000 }] },
    { charge := none, mult := none, atoms := [
        { el := "H", ghost := true, x := 0.000000000, y := 0.000000000, z := 0.000000000 }] }],
  units := "angstrom", no_reorient := true, no_com := true, symmetry := "c1" }

/-- The dimer geometry literal the source stores under key O24by5mb-19-2.0-dimer. -/
def g19_2_0 : Molecule := {
  fragments := [
    { charge := some 0, mult := some 1, atoms := [
        { el := "H", ghost := false, x := -4.086096522, y := 0.037587505, z := 0.000000000 },
        { el := "O", ghost := false, x := -3.139416278, y := -0.115333454, z := 0.000000000 },
        { el := "H", ghost := false, x := -2.754321712, y := 0.763155941, z := 0.000000000 }] },
    { charge := some 0, mult := some 3, atoms := [
        { el := "O", ghost := false, x := 3.047440541, y := 0.648634400, z := 0.000000000 },
        { el := "O", ghost := false, x := 3.294232522, y := -0.533380603, z := 0.000000000 }] },
    { charge := none, mult := none, atoms := [
        { el := "H", ghost := true, x := 0.000000000, y := 0.000000000, z := 0.000000000 }] }],
  units := "angstrom", no_reorient := true, no_com := true, symmetry := "c1" }

/-- The dimer geometry literal the source stores under key O24by5mb-20-0.9-dimer. -/
def g20_0_9 : Molecule := {
  fragments := [
    { charge := some 0, mult := some 2, atoms := [
        { el := "Na", ghost := false, x := -2.124000000, y := 0.000000000, z := 0.000000000 }] },
    { charge := some 0, mult := some 2, atoms := [
        { el := "Li", ghost := false, x := 2.124000000, y := 0.000000000, z := 0.000000000 }] },
    { charge := none, mult := none, atoms := [
        { el := "H", ghost := true, x := 0.000000000, y := 0.000000000, z := 0.000000000 }] }],
  units := "angstrom", no_reorient := true, no_com := true, symmetry := "c1" }

/-- The dimer geometry literal the source stores under key O24by5mb-20-1.0-dimer. -/
def g20_1_0 : Molecule := {
  fragments := [
    { charge := some 0, mult := some 2, atoms := [
        { el := "Na", ghost := false, x := -2.360000000, y := 0.000000000, z := 0.000000000 }] },
    { charge := some 0, mult := some 2, atoms := [
        { el := "Li", ghost := false, x := 2.360000000, y := 0.000000000, z := 0.000000000 }] },
    { charge := none, mult := none, atoms := [
        { el := "H", ghost := true, x := 0.000000000, y := 0.000000000, z := 0.000000000 }] }],
  units := "angstrom", no_reorient := true, no_com := true, symmetry := "c1" }

/-- The dimer geometry literal the source stores under key O24by5mb-20-1.2-dimer. -/
def g20_1_2 : Molecule := {
  fragments := [
    { charge := some 0, mult := some 2, atoms := [
        { el := "Na", ghost := false, x := -2.832000000, y := 0.000000000, z := 0.000000000 }] },
    { charge := some 0, mult := some 2, atoms := [
        { el := "Li", ghost := false, x := 2.832000000, y := 0.000000000, z := 0.000000000 }] },
    { charge := none, mult := none, atoms := [
        { el := "H", ghost := true, x := 0.000000000, y := 0.000000000, z := 0.000000000 }] }],
  units := "angstrom", no_reorient := true, no_com := true, symmetry := "c1" }

/-- The dimer geometry literal the source stores under key O24by5mb-20-1.5-dimer. -/
def g20_1_5 : Molecule := {
  fragments := [
    { charge := some 0, mult := some 2, atoms := [
        { el := "Na", ghost := false, x := -3.540000000, y := 0.000000000, z := 0.000000000 }] },
    { charge := some 0, mult := some 2, atoms := [
        { el := "Li", ghost := false, x := 3.540000000, y := 0.000000000, z := 0.000000000 }] },
    { charge := none, mult := none, atoms := [
        { el := "H", ghost := true, x := 0.000000000, y := 0.000000000, z := 0.000000000 }] }],
  units := "angstrom", no_reorient := true, no_com := true, symmetry := "c1" }

/-- The dimer geometry literal the source stores under key O24by5mb-20-2.0-dimer. -/
def g20_2_0 : Molecule := {
  fragments := [
    { charge := some 0, mult := some 2, atoms := [
        { el := "Na", ghost := false, x := -4.720000000, y := 0.000000000, z := 0.000000000 }] },
    { charge := some 0, mult := some 2, atoms := [
        { el := "Li", ghost := false, x := 4.720000000, y := 0.000000000, z := 0.000000000 }] },
    { charge := none, mult := none, atoms := [
        { el := "H", ghost := true, x := 0.000000000, y := 0.000000000, z := 0.000000000 }] }],
  units := "angstrom", no_reorient := true, no_com := true, symmetry := "c1" }

/-- The dimer geometry literal the source stores under key O24by5mb-21-0.9-dimer. -/
def g21_0_9 : Molecule := {
  fragments := [
    { charge := some 0, mult := some 1, atoms := [
        { el := "C", ghost := false, x := -1.523106993, y := 0.306968024, z := 0.000000000 },
        { el := "O", ghost := false, x := -1.523106993, y := 1.466968024, z := 0.000000000 },
        { el := "O", ghost := false, x := -1.523106993, y := -0.853031976, z := 0.000000000 }] },
    { charge := some 0, mult := some 3, atoms := [
        { el := "O", ghost := false, x := 1.260813349, y := 0.116735356, z := 0.000000000 },
        { el := "O", ghost := false, x := 1.785400638, y := -0.730671405, z := 0.000000000 }] },
    { charge := none, mult := none, atoms := [
        { el := "H", ghost := true, x := 0.000000000, y := 0.000000000, z := 0.000000000 }] }],
  units := "angstrom", no_reorient := true, no_com := true, symmetry := "c1" }

/-- The dimer geometry literal the source stores under key O24by5mb-21-1.0-dimer. -/
def g21_1_0 : Molecule := {
  fragments := [
    { charge := some 0, mult := some 1, atoms := [
        { el := "C", ghost := false, x := -1.692341104, y := 0.341075582, z := 0.000000000 },
        { el := "O", ghost := false, x := -1.692341104, y := 1.501075582, z := 0.000000000 },
        { el := "O", ghost := false, x := -1.692341104, y := -0.818924418, z := 0.000000000 }] },
    { charge := some 0, mult := some 3, atoms := [
        { el := "O", ghost := false, x := 1.430047459, y := 0.082627798, z := 0.000000000 },
        { el := "O", ghost := false, x := 1.954634748, y := -0.764778963, z := 0.000000000 }] },
    { charge := none, mult := none, atoms := [
        { el := "H", ghost := true, x := 0.000000000, y := 0.000000000, z := 0.000000000 }] }],
  units := "angstrom", no_reorient := true, no_com := true, symmetry := "c1" }

/-- The dimer geometry literal the source stores under key O24by5mb-21-1.2-dimer. -/
def g21_1_2 : Molecule := {
  fragments := [
    { charge := some 0, mult := some 1, atoms := [
        { el := "C", ghost := false, x := -2.030809325, y := 0.409290699, z := 0.000000000 },
        { el := "O", ghost := false, x := -2.030809325, y := 1.569290699, z := 0.000000000 },
        { el := "O", ghost := false, x := -2.030809325, y := -0.750709301, z := 0.000000000 }] },
    { charge := some 0, mult := some 3, atoms := [
        { el := "O", ghost := false, x := 1.768515680, y := 0.014412682, z := 0.000000000 },
        { el := "O", ghost := false, x := 2.293102969, y := -0.832994079, z := 0.000000000 }] },
    { charge := none, mult := none, atoms := [
        { el := "H", ghost := true, x := 0.000000000, y := 0.000000000, z := 0.000000000 }] }],
  units := "angstrom", no_reorient := true, no_com := true, symmetry := "c1" }

/-- The dimer geometry literal the source stores under key O24by5mb-21-1.5-dimer. -/
def g21_1_5 : Molecule := {
  fragments := [
    { charge := some 0, mult := some 1, atoms := [
        { el := "C", ghost := false, x := -2.538511656, y := 0.511613373, z := 0.000000000 },
        { el := "O", ghost := false, x := -2.538511656, y := 1.671613373, z := 0.000000000 },
        { el := "O", ghost := false, x := -2.538511656, y := -0.648386627, z := 0.000000000 }] },
    { charge := some 0, mult := some 3, atoms := [
        { el := "O", ghost := false, x := 2.276218011, y := -0.087909993, z := 0.000000000 },
        { el := "O", ghost := false, x := 2.800805300, y := -0.935316754, z := 0.000000000 }] },
    { charge := none, mult := none, atoms := [
        { el := "H", ghost := true, x := 0.000000000, y := 0.000000000, z := 0.000000000 }] }],
  units := "angstrom", no_reorient := true, no_com := true, symmetry := "c1" }

/-- The dimer geometry literal the source stores under key O24by5mb-21-2.0-dimer. -/
def g21_2_0 : Molecule := {
  fragments := [
    { charge := some 0, mult := some 1, atoms := [
        { el := "C", ghost := false, x := -3.384682208, y := 0.682151165, z := 0.000000000 },
        { el := "O", ghost := false, x := -3.384682208, y := 1.842151164, z := 0.000000000 },
        { el := "O", ghost := false, x := -3.384682208, y := -0.477848835, z := 0.000000000 }] },
    { charge := some 0, mult := some 3, atoms := [
        { el := "O", ghost := false, x := 3.122388563, y := -0.258447784, z := 0.000000000 },
        { el := "O", ghost := false, x := 3.646975852, y := -1.105854545, z := 0.000000000 }] },
    { charge := none, mult := none, atoms := [
        { el := "H", ghost := true, x := 0.000000000, y := 0.000000000, z := 0.000000000 }] }],
  units := "angstrom", no_reorient := true, no_com := true, symmetry := "c1" }

/-- The dimer geometry literal the source stores under key O24by5mb-22-0.9-dimer. -/
def g22_0_9 : Molecule := {
  fragments := [
    { charge := some 0, mult := some 2, atoms := [
        { el := "C", ghost := false, x := -1.221104626, y := -0.694508536, z := -0.323156022 },
        { el := "C", ghost := false, x := -1.684033576, y := 0.465731104, z := 0.078533898 },
        { el := "H", ghost := false, x := -1.480567976, y := -1.736096366, z := -0.211354942 },
        { el := "H", ghost := false, x := -2.573907146, y := 0.530613704, z := 0.705730008 },
        { el := "H", ghost := false, x := -1.204305196, y := 1.400456624, z := -0.192333322 }] },
    { charge := some 0, mult := some 1, atoms := [
        { el := "C", ghost := false, x := 1.480747026, y := 0.092766498, z := 0.096716376 },
        { el := "O", ghost := false, x := 1.276359406, y := 1.181647978, z := -0.260855354 },
        { el := "O", ghost := false, x := 1.699999106, y := -0.991806182, z := 0.456111446 }] },
    { charge := none, mult := none, atoms := [
        { el := "H", ghost := true, x := 0.000000000, y := 0.000000000, z := 0.000000000 }] }],
  units := "angstrom", no_reorient := true, no_com := true, symmetry := "c1" }

/-- The dimer geometry literal the source stores under key O24by5mb-22-1.0-dimer. -/
def g22_1_0 : Molecule := {
  fragments := [
    { charge := some 0, mult := some 2, atoms := [
        { el := "C", ghost := false, x := -1.386232505, y := -0.704989974, z := -0.333975938 },
        { el := "C", ghost := false, x := -1.849161455, y := 0.455249666, z := 0.067713982 },
        { el := "H", ghost := false, x := -1.645695855, y := -1.746577804, z := -0.222174858 },
        { el := "H", ghost := false, x := -2.739035025, y := 0.520132266, z := 0.694910092 },
        { el := "H", ghost := false, x := -1.369433075, y := 1.389975186, z := -0.203153238 }] },
    { charge := some 0, mult := some 1, atoms := [
        { el := "C", ghost := false, x := 1.645874905, y := 0.103247936, z := 0.107536292 },
        { el := "O", ghost := false, x := 1.441487285, y := 1.192129416, z := -0.250035438 },
        { el := "O", ghost := false, x := 1.865126985, y := -0.981324744, z := 0.466931362 }] },
    { charge := none, mult := none, atoms := [
        { el := "H", ghost := true, x := 0.000000000, y := 0.000000000, z := 0.000000000 }] }],
  units := "angstrom", no_reorient := true, no_com := true, symmetry := "c1" }

/-- The dimer geometry literal the source stores under key O24by5mb-22-1.2-dimer. -/
def g22_1_2 : Molecule := {
  fragments := [
    { charge := some 0, mult := some 2, atoms := [
        { el := "C", ghost := false, x := -1.716488264, y := -0.725952849, z := -0.355615769 },
        { el := "C", ghost := false, x := -2.179417214, y := 0.434286791, z := 0.046074151 },
        { el := "H", ghost := false, x := -1.975951614, y := -1.767540679, z := -0.243814689 },
        { el := "H", ghost := false, x := -3.069290784, y := 0.499169391, z := 0.673270261 },
        { el := "H", ghost := false, x := -1.699688834, y := 1.369012311, z := -0.224793069 }] },
    { charge := some 0, mult := some 1, atoms := [
        { el := "C", ghost := false, x := 1.976130664, y := 0.124210811, z := 0.129176123 },
        { el := "O", ghost := false, x := 1.771743044, y := 1.213092291, z := -0.228395607 },
        { el := "O", ghost := false, x := 2.195382744, y := -0.960361869, z := 0.488571193 }] },
    { charge := none, mult := none, atoms := [
        { el := "H", ghost := true, x := 0.000000000, y := 0.000000000, z := 0.000000000 }] }],
  units := "angstrom", no_reorient := true, no_com := true, symmetry := "c1" }

/-- The dimer geometry literal the source stores under key O24by5mb-22-1.5-dimer. -/
def g22_1_5 : Molecule := {
  fragments := [
    { charge := some 0, mult := some 2, atoms := [
        { el := "C", ghost := false, x := -2.211871902, y := -0.757397162, z := -0.388075516 },
        { el := "C", ghost := false, x := -2.674800852, y := 0.402842478, z := 0.013614404 },
        { el := "H", ghost := false, x := -2.471335252, y := -1.798984992, z := -0.276274436 },
        { el := "H", ghost := false, x := -3.564674422, y := 0.467725078, z := 0.640810514 },
        { el := "H", ghost := false, x := -2.195072472, y := 1.337567998, z := -0.257252816 }] },
    { charge := some 0, mult := some 1, atoms := [
        { el := "C", ghost := false, x := 2.471514302, y := 0.155655124, z := 0.161635870 },
        { el := "O", ghost := false, x := 2.267126682, y := 1.244536604, z := -0.195935860 },
        { el := "O", ghost := false, x := 2.690766382, y := -0.928917556, z := 0.521030940 }] },
    { charge := none, mult := none, atoms := [
        { el := "H", ghost := true, x := 0.000000000, y := 0.000000000, z := 0.000000000 }] }],
  units := "angstrom", no_reorient := true, no_com := true, symmetry := "c1" }

/-- The dimer geometry literal the source stores under key O24by5mb-22-2.0-dimer. -/
def g22_2_0 : Molecule := {
  fragments := [
    { charge := some 0, mult := some 2, atoms := [
        { el := "C", ghost := false, x := -3.037511299, y := -0.809804349, z := -0.442175095 },
        { el := "C", ghost := false, x := -3.500440249, y := 0.350435291, z := -0.040485175 },
        { el := "H", ghost := false, x := -3.296974649, y := -1.851392179, z := -0.330374015 },
        { el := "H", ghost := false, x := -4.390313819, y := 0.415317891, z := 0.586710935 },
        { el := "H", ghost := false, x := -3.020711869, y := 1.285160811, z := -0.311352395 }] },
    { charge := some 0, mult := some 1, atoms := [
        { el := "C", ghost := false, x := 3.297153699, y := 0.208062311, z := 0.215735449 },
        { el := "O", ghost := false, x := 3.092766079, y := 1.296943791, z := -0.141836281 },
        { el := "O", ghost := false, x := 3.516405779, y := -0.876510369, z := 0.575130519 }] },
    { charge := none, mult := none, atoms := [
        { el := "H", ghost := true, x := 0.000000000, y := 0.000000000, z := 0.000000000 }] }],
  units := "angstrom", no_reorient := true, no_com := true, symmetry := "c1" }

/-- The dimer geometry literal the source stores under key O24by5mb-23-0.9-dimer. -/
def g23_0_9 : Molecule := {
  fragments := [
    { charge := some 0, mult := some 3, atoms := [
        { el := "He", ghost := false, x := -1.738350000, y := 0.000000000, z := 0.000000000 }] },
    { charge := some 0, mult := some 3, atoms := [
        { el := "He", ghost := false, x := 1.738350000, y := 0.000000000, z := 0.000000000 }] },
    { charge := none, mult := none, atoms := [
        { el := "H", ghost := true, x := 0.000000000, y := 0.000000000, z := 0.000000000 }] }],
  units := "angstrom", no_reorient := true, no_com := true, symmetry := "c1" }

/-- The dimer geometry literal the source stores under key O24by5mb-23-1.0-dimer. -/
def g23_1_0 : Molecule := {
  fragments := [
    { charge := some 0, mult := some 3, atoms := [
        { el := "He", ghost := false, x := -1.931500000, y := 0.000000000, z := 0.000000000 }] },
    { charge := some 0, mult := some 3, atoms := [
        { el := "He", ghost := false, x := 1.931500000, y := 0.000000000, z := 0.000000000 }] },
    { charge := none, mult := none, atoms := [
        { el := "H", ghost := true, x := 0.000000000, y := 0.000000000, z := 0.000000000 }] }],
  units := "angstrom", no_reorient := true, no_com := true, symmetry := "c1" }

/-- The dimer geometry literal the source stores under key O24by5mb-23-1.2-dimer. -/
def g23_1_2 : Molecule := {
  fragments := [
    { charge := some 0, mult := some 3, atoms := [
        { el := "He", ghost := false, x := -2.317800000, y := 0.000000000, z := 0.000000000 }] },
    { charge := some 0, mult := some 3, atoms := [
        { el := "He", ghost := false, x := 2.317800000, y := 0.000000000, z := 0.000000000 }] },
    { charge := none, mult := none, atoms := [
        { el := "H", ghost := true, x := 0.000000000, y := 0.000000000, z := 0.000000000 }] }],
  units := "angstrom", no_reorient := true, no_com := true, symmetry := "c1" }

/-- The dimer geometry literal the source stores under key O24by5mb-23-1.5-dimer. -/
def g23_1_5 : Molecule := {
  fragments := [
    { charge := some 0, mult := some 3, atoms := [
        { el := "He", ghost := false, x := -2.897250000, y := 0.000000000, z := 0.000000000 }] },
    { charge := some 0, mult := some 3, atoms := [
        { el := "He", ghost := false, x := 2.897250000, y := 0.000000000, z := 0.000000000 }] },
    { charge := none, mult := none, atoms := [
        { el := "H", ghost := true, x := 0.000000000, y := 0.000000000, z := 0.000000000 }] }],
  units := "angstrom", no_reorient := true, no_com := true, symmetry := "c1" }

/-- The dimer geometry literal the source stores under key O24by5mb-23-2.0-dimer. -/
def g23_2_0 : Molecule := {
  fragments := [
    { charge := some 0, mult := some 3, atoms := [
        { el := "He", ghost := false, x := -3.863000000, y := 0.000000000, z := 0.000000000 }] },
    { charge := some 0, mult := some 3, atoms := [
        { el := "He", ghost := false, x := 3.863000000, y := 0.000000000, z := 0.000000000 }] },
    { charge := none, mult := none, atoms := [
        { el := "H", ghost := true, x := 0.000000000, y := 0.000000000, z := 0.000000000 }] }],
  units := "angstrom", no_reorient := true, no_com := true, symmetry := "c1" }

/-- The dimer geometry literal the source stores under key O24by5mb-24-0.9-dimer. -/
def g24_0_9 : Molecule := {
  fragments := [
    { charge := some 1, mult := some 2, atoms := [
        { el := "C", ghost := false, x := 0.000000000, y := -0.436434806, z := 0.497570949 },
        { el := "O", ghost := false, x := 0.000000000, y := 0.196238679, z := 1.420138459 }] },
    { charge := some 0, mult := some 1, atoms := [
        { el := "F", ghost := false, x := 0.000000000, y := 0.109938945, z := -0.992070159 },
        { el := "H", ghost := false, x := 0.000000000, y := -0.582542676, z := -1.636605903 }] },
    { charge := none, mult := none, atoms := [
        { el := "H", ghost := true, x := 0.000000000, y := 0.000000000, z := 0.000000000 }] }],
  units := "angstrom", no_reorient := true, no_com := true, symmetry := "c1" }

/-- The dimer geometry literal the source stores under key O24by5mb-24-1.0-dimer. -/
def g24_1_0 : Molecule := {
  fragments := [
    { charge := some 1, mult := some 2, atoms := [
        { el := "C", ghost := false, x := 0.000000000, y := -0.444773807, z := 0.611409007 },
        { el := "O", ghost := false, x := 0.000000000, y := 0.187899678, z := 1.533976518 }] },
    { charge := some 0, mult := some 1, atoms := [
        { el := "F", ghost := false, x := 0.000000000, y := 0.118277946, z := -1.105908217 },
        { el := "H", ghost := false, x := 0.000000000, y := -0.574203674, z := -1.750443962 }] },
    { charge := none, mult := none, atoms := [
        { el := "H", ghost := true, x := 0.000000000, y := 0.000000000, z := 0.000000000 }] }],
  units := "angstrom", no_reorient := true, no_com := true, symmetry := "c1" }

/-- The dimer geometry literal the source stores under key O24by5mb-24-1.2-dimer. -/
def g24_1_2 : Molecule := {
  fragments := [
    { charge := some 1, mult := some 2, atoms := [
        { el := "C", ghost := false, x := 0.000000000, y := -0.461451810, z := 0.839085125 },
        { el := "O", ghost := false, x := 0.000000000, y := 0.171221675, z := 1.761652635 }] },
    { charge := some 0, mult := some 1, atoms := [
        { el := "F", ghost := false, x := 0.000000000, y := 0.134955949, z := -1.333584335 },
        { el := "H", ghost := false, x := 0.000000000, y := -0.557525671, z := -1.978120079 }] },
    { charge := none, mult := none, atoms := [
        { el := "H", ghost := true, x := 0.000000000, y := 0.000000000, z := 0.000000000 }] }],
  units := "angstrom", no_reorient := true, no_com := true, symmetry := "c1" }

/-- The dimer geometry literal the source stores under key O24by5mb-24-1.5-dimer. -/
def g24_1_5 : Molecule := {
  fragments := [
    { charge := some 1, mult := some 2, atoms := [
        { el := "C", ghost := false, x := 0.000000000, y := -0.486468814, z := 1.180599300 },
        { el := "O", ghost := false, x := 0.000000000, y := 0.146204671, z := 2.103166811 }] },
    { charge := some 0, mult := some 1, atoms := [
        { el := "F", ghost := false, x := 0.000000000, y := 0.159972954, z := -1.675098511 },
        { el := "H", ghost := false, x := 0.000000000, y := -0.532508667, z := -2.319634255 }] },
    { charge := none, mult := none, atoms := [
        { el := "H", ghost := true, x := 0.000000000, y := 0.000000000, z := 0.000000000 }] }],
  units := "angstrom", no_reorient := true, no_com := true, symmetry := "c1" }

/-- The dimer geometry literal the source stores under key O24by5mb-24-2.0-dimer. -/
def g24_2_0 : Molecule := {
  fragments := [
    { charge := some 1, mult := some 2, atoms := [
        { el := "C", ghost := false, x := 0.000000000, y := -0.528163822, z := 1.749789594 },
        { el := "O", ghost := false, x := 0.000000000, y := 0.104509663, z := 2.672357104 }] },
    { charge := some 0, mult := some 1, atoms := [
        { el := "F", ghost := false, x := 0.000000000, y := 0.201667961, z := -2.244288804 },
        { el := "H", ghost := false, x := 0.000000000, y := -0.490813659, z := -2.888824548 }] },
    { charge := none, mult := none, atoms := [
        { el := "H", ghost := true, x := 0.000000000, y := 0.000000000, z := 0.000000000 }] }],
  units := "angstrom", no_reorient := true, no_com := true, symmetry := "c1" }

/-- The table of dimer geometry literals of the source, entry order as written. -/
def GEOS_dimers : List (String × Molecule) := [
  ("O24by5mb-1-0.9-dimer", g1_0_9),
  ("O24by5mb-1-1.0-dimer", g1_1_0),
  ("O24by5mb-1-1.2-dimer", g1_1_2),
  ("O24by5mb-1-1.5-dimer", g1_1_5),
  ("O24by5mb-1-2.0-dimer", g1_2_0),
  ("O24by5mb-2-0.9-dimer", g2_0_9),
  ("O24by5mb-2-1.0-dimer", g2_1_0),
  ("O24by5mb-2-1.2-dimer", g2_1_2),
  ("O24by5mb-2-1.5-dimer", g2_1_5),
  ("O24by5mb-2-2.0-dimer", g2_2_0),
  ("O24by5mb-3-0.9-dimer", g3_0_9),
  ("O24by5mb-3-1.0-dimer", g3_1_0),
  ("O24by5mb-3-1.2-dimer", g3_1_2),
  ("O24by5mb-3-1.5-dimer", g3_1_5),
  ("O24by5mb-3-2.0-dimer", g3_2_0),
  ("O24by5mb-4-0.9-dimer", g4_0_9),
  ("O24by5mb-4-1.0-dimer", g4_1_0),
  ("O24by5mb-4-1.2-dimer", g4_1_2),
  ("O24by5mb-4-1.5-dimer", g4_1_5),
  ("O24by5mb-4-2.0-dimer", g4_2_0),
  ("O24by5mb-5-0.9-dimer", g5_0_9),
  ("O24by5mb-5-1.0-dimer", g5_1_0),
  ("O24by5mb-5-1.2-dimer", g5_1_2),
  ("O24by5mb-5-1.5-dimer", g5_1_5),
  ("O24by5mb-5-2.0-dimer", g5_2_0),
  ("O24by5mb-6-0.9-dimer", g6_0_9),
  ("O24by5mb-6-1.0-dimer", g6_1_0),
  ("O24by5mb-6-1.2-dimer", g6_1_2),
  ("O24by5mb-6-1.5-dimer", g6_1_5),
  ("O24by5mb-6-2.0-dimer", g6_2_0),
  ("O24by5mb-7-0.9-dimer", g7_0_9),
  ("O24by5mb-7-1.0-dimer", g7_1_0),
  ("O24by5mb-7-1.2-dimer", g7_1_2),
  ("O24by5mb-7-1.5-dimer", g7_1_5),
  ("O24by5mb-7-2.0-dimer", g7_2_0),
  ("O24by5mb-8-0.9-dimer", g8_0_9),
  ("O24by5mb-8-1.0-dimer", g8_1_0),
  ("O24by5mb-8-1.2-dimer", g8_1_2),
  ("O24by5mb-8-1.5-dimer", g8_1_5),
  ("O24by5mb-8-2.0-dimer", g8_2_0),
  ("O24by5mb-9-0.9-dimer", g9_0_9),
  ("O24by5mb-9-1.0-dimer", g9_1_0),
  ("O24by5mb-9-1.2-dimer", g9_1_2),
  ("O24by5mb-9-1.5-dimer", g9_1_5),
  ("O24by5mb-9-2.0-dimer", g9_2_0),
  ("O24by5mb-10-0.9-dimer", g10_0_9),
  ("O24by5mb-10-1.0-dimer", g10_1_0),
  ("O24by5mb-10-1.2-dimer", g10_1_2),
  ("O24by5mb-10-1.5-dimer", g10_1_5),
  ("O24by5mb-10-2.0-dimer", g10_2_0),
  ("O24by5mb-11-0.9-dimer", g11_0_9),
  ("O24by5mb-11-1.0-dimer", g11_1_0),
  ("O24by5mb-11-1.2-dimer", g11_1_2),
  ("O24by5mb-11-1.5-dimer", g11_1_5),
  ("O24by5mb-11-2.0-dimer", g11_2_0),
  ("O24by5mb-12-0.9-dimer", g12_0_9),
  ("O24by5mb-12-1.0-dimer", g12_1_0),
  ("O24by5mb-12-1.2-dimer", g12_1_2),
  ("O24by5mb-12-1.5-dimer", g12_1_5),
  ("O24by5mb-12-2.0-dimer", g12_2_0),
  ("O24by5mb-13-0.9-dimer", g13_0_9),
  ("O24by5mb-13-1.0-dimer", g13_1_0),
  ("O24by5mb-13-1.2-dimer", g13_1_2),
  ("O24by5mb-13-1.5-dimer", g13_1_5),
  ("O24by5mb-13-2.0-dimer", g13_2_0),
  ("O24by5mb-14-0.9-dimer", g14_0_9),
  ("O24by5mb-14-1.0-dimer", g14_1_0),
  ("O24by5mb-14-1.2-dimer", g14_1_2),
  ("O24by5mb-14-1.5-dimer", g14_1_5),
  ("O24by5mb-14-2.0-dimer", g14_2_0),
  ("O24by5mb-15-0.9-dimer", g15_0_9),
  ("O24by5mb-15-1.0-dimer", g15_1_0),
  ("O24by5mb-15-1.2-dimer", g15_1_2),
  ("O24by5mb-15-1.5-dimer", g15_1_5),
  ("O24by5mb-15-2.0-dimer", g15_2_0),
  ("O24by5mb-16-0.9-dimer", g16_0_9),
  ("O24by5mb-16-1.0-dimer", g16_1_0),
  ("O24by5mb-16-1.2-dimer", g16_1_2),
  ("O24by5mb-16-1.5-dimer", g16_1_5),
  ("O24by5mb-16-2.0-dimer", g16_2_0),
  ("O24by5mb-17-0.9-dimer", g17_0_9),
  ("O24by5mb-17-1.0-dimer", g17_1_0),
  ("O24by5mb-17-1.2-dimer", g17_1_2),
  ("O24by5mb-17-1.5-dimer", g17_1_5),
  ("O24by5mb-17-2.0-dimer", g17_2_0),
  ("O24by5mb-18-0.9-dimer", g18_0_9),
  ("O24by5mb-18-1.0-dimer", g18_1_0),
  ("O24by5mb-18-1.2-dimer", g18_1_2),
  ("O24by5mb-18-1.5-dimer", g18_1_5),
  ("O24by5mb-18-2.0-dimer", g18_2_0),
  ("O24by5mb-19-0.9-dimer", g19_0_9),
  ("O24by5mb-19-1.0-dimer", g19_1_0),
  ("O24by5mb-19-1.2-dimer", g19_1_2),
  ("O24by5mb-19-1.5-dimer", g19_1_5),
  ("O24by5mb-19-2.0-dimer", g19_2_0),
  ("O24by5mb-20-0.9-dimer", g20_0_9),
  ("O24by5mb-20-1.0-dimer", g20_1_0),
  ("O24by5mb-20-1.2-dimer", g20_1_2),
  ("O24by5mb-20-1.5-dimer", g20_1_5),
  ("O24by5mb-20-2.0-dimer", g20_2_0),
  ("O24by5mb-21-0.9-dimer", g21_0_9),
  ("O24by5mb-21-1.0-dimer", g21_1_0),
  ("O24by5mb-21-1.2-dimer", g21_1_2),
  ("O24by5mb-21-1.5-dimer", g21_1_5),
  ("O24by5mb-21-2.0-dimer", g21_2_0),
  ("O24by5mb-22-0.9-dimer", g22_0_9),
  ("O24by5mb-22-1.0-dimer", g22_1_0),
  ("O24by5mb-22-1.2-dimer", g22_1_2),
  ("O24by5mb-22-1.5-dimer", g22_1_5),
  ("O24by5mb-22-2.0-dimer", g22_2_0),
  ("O24by5mb-23-0.9-dimer", g23_0_9),
  ("O24by5mb-23-1.0-dimer", g23_1_0),
  ("O24by5mb-23-1.2-dimer", g23_1_2),
  ("O24by5mb-23-1.5-dimer", g23_1_5),
  ("O24by5mb-23-2.0-dimer", g23_2_0),
  ("O24by5mb-24-0.9-dimer", g24_0_9),
  ("O24by5mb-24-1.0-dimer", g24_1_0),
  ("O24by5mb-24-1.2-dimer", g24_1_2),
  ("O24by5mb-24-1.5-dimer", g24_1_5),
  ("O24by5mb-24-2.0-dimer", g24_2_0)]

/-- The reference-energy table after the rescaling pass of the source, which
divides every stored value in place by KCALMOL2WAVENUMBERS. -/
def BIND : List (String × ℚ) :=
  BIND_cm.map (fun p => (p.1, p.2 / KCALMOL2WAVENUMBERS))

/-- Marks every atom of a fragment as a ghost (basis-only) center, leaving
element symbols and coordinates unchanged. -/
def Fragment.ghostify (f : Fragment) : Fragment :=
  { f with atoms := f.atoms.map (fun a => { a with ghost := true }) }

/-- Modelled from the spec: the source derives each counterpoise monomer
geometry by calling extract_fragments on the stored dimer, a capability of the
external molecule library (qcdb) whose implementation is not part of this
module. Per the spec it constructs a new molecule consisting of the named real
fragment plus the listed other fragments converted to ghost-only centers,
preserving absolute atomic coordinates and the parent frame directives.
Fragment numbers are 1-based positions in the parent's fragment list. -/
def Molecule.extract_fragments (m : Molecule) (real : Nat) (ghosts : List Nat) : Molecule :=
  { m with fragments :=
      (List.enumFrom 1 m.fragments).filterMap (fun fi =>
        if fi.1 = real then some fi.2
        else if fi.1 ∈ ghosts then some fi.2.ghostify
        else none) }

/-- The full geometry table: the dimer literals, followed by the derived
monomer entries the source loop appends for every reaction key, each obtained
from that key's dimer entry by fragment extraction (fragment 1 real with 2 and
3 ghosted for monoA-CP, fragment 2 real with 1 and 3 ghosted for monoB-CP). -/
def GEOS : List (String × Molecule) :=
  GEOS_dimers ++
    HRXN.flatMap (fun rxn =>
      match GEOS_dimers.lookup (dbse ++ "-" ++ rxn ++ "-dimer") with
      | some d =>
          [(dbse ++ "-" ++ rxn ++ "-monoA-CP", d.extract_fragments 1 [2, 3]),
           (dbse ++ "-" ++ rxn ++ "-monoB-CP", d.extract_fragments 2 [1, 3])]
      | none => [])

/-- The absolute coordinates of every atomic center of a molecule, fragment by
fragment in order. -/
def Molecule.coords (m : Molecule) : List (ℚ × ℚ × ℚ) :=
  m.fragments.flatMap (fun f => f.atoms.map (fun a => (a.x, a.y, a.z)))

/-- Total number of atomic centers of a molecule (real and ghost alike). -/
def Molecule.natoms (m : Molecule) : Nat :=
  (m.fragments.map (fun f => f.atoms.length)).sum

/-! Generic association-list helpers. -/

/-- Looking a key up in a second-component-mapped association list equals
mapping the original lookup result. -/
theorem lookup_map_snd {β γ : Type} (f : β → γ) :
    ∀ (l : List (String × β)) (k : String),
      (l.map (fun p => (p.1, f p.2))).lookup k = (l.lookup k).map f
  | [], _ => rfl
  | (a, b) :: t, k => by
    simp only [List.map, List.lookup]
    cases h : k == a
    · simpa using lookup_map_snd f t k
    · rfl

/-- A successful lookup result is a member of the association list. -/
theorem mem_of_lookup_eq_some {β : Type} :
    ∀ {l : List (String × β)} {k : String} {v : β}, l.lookup k = some v → (k, v) ∈ l
  | [], _, _, h => by simp [List.lookup] at h
  | (a, b) :: t, k, v, h => by
    rw [List.lookup] at h
    cases hab : k == a with
    | true =>
      rw [hab] at h
      simp only [Option.some.injEq] at h
      exact (List.mem_cons).mpr (Or.inl (by rw [eq_of_beq hab, h]))
    | false =>
      rw [hab] at h
      exact (List.mem_cons).mpr (Or.inr (mem_of_lookup_eq_some h))

/-- Looking up the key of a member in an association list built by mapping a
key builder and a value builder over a duplicate-free key base yields that
member's value. -/
theorem lookup_map_of_nodup {β : Type} (g : String → String) (v : String → β) :
    ∀ (l : List String), (l.map g).Nodup → ∀ rxn ∈ l,
      (l.map (fun r => (g r, v r))).lookup (g rxn) = some (v rxn)
  | [], _, _, h => by cases h
  | a :: t, hnd, rxn, hmem => by
    simp only [List.map] at hnd ⊢
    rw [List.lookup]
    rcases List.mem_cons.mp hmem with rfl | ht
    · simp
    · have hne : (g rxn == g a) = false := by
        rcases h : g rxn == g a with _ | _
        · rfl
        · exact absurd (eq_of_beq h ▸ List.mem_map_of_mem g ht)
            (List.nodup_cons.mp hnd).1
      rw [hne]
      exact lookup_map_of_nodup g v t (List.nodup_cons.mp hnd).2 rxn ht

/-- A key that occurs in the key list of an association list has a successful
lookup. -/
theorem lookup_isSome_of_mem_keys {β : Type} :
    ∀ {l : List (String × β)} {k : String},
      k ∈ l.map Prod.fst → (l.lookup k).isSome = true
  | [], k, h => by cases h
  | (a, b) :: t, k, h => by
    rw [List.lookup]
    rcases hab : k == a with _ | _
    · refine lookup_isSome_of_mem_keys (l := t) ?_
      rcases List.mem_cons.mp h with rfl | ht
      · simp at hab
      · exact ht
    · rfl

/-- The 120 reaction keys with the database prefix attached stay
duplicate-free. -/
theorem HRXN_keys_nodup : (HRXN.map (fun rxn => dbse ++ "-" ++ rxn)).Nodup := by
  decide

/-- In a duplicate-free three-part concatenation, every element lies in
exactly one of the three parts. -/
theorem nodup_append3_count_one {α : Type} [DecidableEq α] {a b c : List α}
    (h : (a ++ b ++ c).Nodup) :
    ∀ k ∈ a ++ b ++ c,
      ((if k ∈ a then 1 else 0) + (if k ∈ b then 1 else 0) +
        (if k ∈ c then 1 else 0) : Nat) = 1 := by
  intro k hk
  have dab : a.Disjoint b := List.disjoint_of_nodup_append h.of_append_left
  have dabc : (a ++ b).Disjoint c := List.disjoint_of_nodup_append h
  rcases List.mem_append.mp hk with hk1 | hkc
  · rcases List.mem_append.mp hk1 with hka | hkb
    · have h1 : k ∉ b := fun hkb => dab hka hkb
      have h2 : k ∉ c := fun hkc => dabc (List.mem_append.mpr (Or.inl hka)) hkc
      simp [hka, h1, h2]
    · have h1 : k ∉ a := fun hka => dab hka hkb
      have h2 : k ∉ c := fun hkc => dabc (List.mem_append.mpr (Or.inr hkb)) hkc
      simp [hkb, h1, h2]
  · have h1 : k ∉ a := fun hka => dabc (List.mem_append.mpr (Or.inl hka)) hkc
    have h2 : k ∉ b := fun hkb => dabc (List.mem_append.mpr (Or.inr hkb)) hkc
    simp [hkc, h1, h2]

/-! Facts about fragment extraction on three-fragment molecules, and about the
derived entries of the geometry table. -/

/-- Extraction with fragment 1 real and fragments 2 and 3 ghosted keeps
fragment 1 and ghosts the other two, in place. -/
theorem extract13_fragments (m : Molecule) (f1 f2 f3 : Fragment)
    (h : m.fragments = [f1, f2, f3]) :
    (m.extract_fragments 1 [2, 3]).fragments = [f1, f2.ghostify, f3.ghostify] := by
  show (List.enumFrom 1 m.fragments).filterMap _ = _
  rw [h]
  rfl

/-- Extraction with fragment 2 real and fragments 1 and 3 ghosted keeps
fragment 2 and ghosts the other two, in place. -/
theorem extract23_fragments (m : Molecule) (f1 f2 f3 : Fragment)
    (h : m.fragments = [f1, f2, f3]) :
    (m.extract_fragments 2 [1, 3]).fragments = [f1.ghostify, f2, f3.ghostify] := by
  show (List.enumFrom 1 m.fragments).filterMap _ = _
  rw [h]
  rfl

/-- Ghostifying a fragment does not change the coordinates of its atoms. -/
theorem coords_ghostify (f : Fragment) :
    (Fragment.ghostify f).atoms.map (fun a => (a.x, a.y, a.z)) =
      f.atoms.map (fun a => (a.x, a.y, a.z)) := by
  unfold Fragment.ghostify
  rw [List.map_map]
  rfl

/-- Ghostifying a fragment does not change its number of atoms. -/
theorem length_ghostify (f : Fragment) :
    (Fragment.ghostify f).atoms.length = f.atoms.length := by
  unfold Fragment.ghostify
  exact List.length_map _ _

/-- Extraction of fragment 1 from a three-fragment molecule preserves every
atomic coordinate. -/
theorem coords_extract13 (m : Molecule) (f1 f2 f3 : Fragment)
    (h : m.fragments = [f1, f2, f3]) :
    (m.extract_fragments 1 [2, 3]).coords = m.coords := by
  unfold Molecule.coords
  rw [extract13_fragments m f1 f2 f3 h, h]
  simp [coords_ghostify]

/-- Extraction of fragment 2 from a three-fragment molecule preserves every
atomic coordinate. -/
theorem coords_extract23 (m : Molecule) (f1 f2 f3 : Fragment)
    (h : m.fragments = [f1, f2, f3]) :
    (m.extract_fragments 2 [1, 3]).coords = m.coords := by
  unfold Molecule.coords
  rw [extract23_fragments m f1 f2 f3 h, h]
  simp [coords_ghostify]

/-- Extraction of fragment 1 from a three-fragment molecule preserves the
total number of atomic centers. -/
theorem natoms_extract13 (m : Molecule) (f1 f2 f3 : Fragment)
    (h : m.fragments = [f1, f2, f3]) :
    (m.extract_fragments 1 [2, 3]).natoms = m.natoms := by
  unfold Molecule.natoms
  rw [extract13_fragments m f1 f2 f3 h, h]
  simp [length_ghostify]

/-- Extraction of fragment 2 from a three-fragment molecule preserves the
total number of atomic centers. -/
theorem natoms_extract23 (m : Molecule) (f1 f2 f3 : Fragment)
    (h : m.fragments = [f1, f2, f3]) :
    (m.extract_fragments 2 [1, 3]).natoms = m.natoms := by
  unfold Molecule.natoms
  rw [extract23_fragments m f1 f2 f3 h, h]
  simp [length_ghostify]

/-- Every dimer literal of the geometry table has exactly three fragments. -/
theorem GEOS_dimers_three_fragments : ∀ p ∈ GEOS_dimers, p.2.fragments.length = 3 := by
  decide

/-- In every dimer literal the two leading fragments consist of real
(non-ghost) atoms only. -/
theorem GEOS_dimers_leading_real :
    ∀ p ∈ GEOS_dimers, ∀ f ∈ p.2.fragments.take 2,
      f.atoms.all (fun a => !a.ghost) = true := by
  decide

/-- The derived loop puts both counterpoise monomer entries of every reaction
key into the geometry table, each obtained from that key's dimer by fragment
extraction. -/
theorem mem_GEOS_derived {rxn : String} (hr : rxn ∈ HRXN) {d : Molecule}
    (hd : GEOS_dimers.lookup (dbse ++ "-" ++ rxn ++ "-dimer") = some d) :
    (dbse ++ "-" ++ rxn ++ "-monoA-CP", d.extract_fragments 1 [2, 3]) ∈ GEOS ∧
    (dbse ++ "-" ++ rxn ++ "-monoB-CP", d.extract_fragments 2 [1, 3]) ∈ GEOS := by
  have h : ∀ x ∈ ([(dbse ++ "-" ++ rxn ++ "-monoA-CP", d.extract_fragments 1 [2, 3]),
      (dbse ++ "-" ++ rxn ++ "-monoB-CP", d.extract_fragments 2 [1, 3])] :
      List (String × Molecule)), x ∈ GEOS := by
    intro x hx
    unfold GEOS
    refine List.mem_append.mpr (Or.inr (List.mem_flatMap.mpr ⟨rxn, hr, ?_⟩))
    rw [hd]
    exact hx
  exact ⟨h _ (by simp), h _ (by simp)⟩

/-! Claim theorems. -/

/-- C1: the key generator produces exactly 120 reaction keys (24 reaction
indices crossed with 5 distance labels), and the subsets HRXN_DD, HRXN_ED,
HRXN_MX partition that set: their concatenation is exactly HRXN, the keys are
duplicate-free, and every generated key belongs to exactly one subset. -/
theorem C1_partition :
    HRXN.length = 120 ∧ HRXN.Nodup ∧
    HRXN_DD ++ HRXN_ED ++ HRXN_MX = HRXN ∧
    ∀ k ∈ HRXN,
      ((if k ∈ HRXN_DD then 1 else 0) + (if k ∈ HRXN_ED then 1 else 0) +
        (if k ∈ HRXN_MX then 1 else 0) : Nat) = 1 := by
  have heq : HRXN_DD ++ HRXN_ED ++ HRXN_MX = HRXN := by decide
  have hnd : HRXN.Nodup := by decide
  refine ⟨by decide, hnd, heq, ?_⟩
  intro k hk
  exact nodup_append3_count_one (heq ▸ hnd) k (heq ▸ hk)

/-- Witness for C1 at the concrete key 9-1.0, which lies in the
dispersion-dominated subset and in no other. -/
theorem C1_partition_witness :
    "9-1.0" ∈ HRXN ∧
    ((if "9-1.0" ∈ HRXN_DD then 1 else 0) + (if "9-1.0" ∈ HRXN_ED then 1 else 0) +
      (if "9-1.0" ∈ HRXN_MX then 1 else 0) : Nat) = 1 :=
  ⟨by decide, C1_partition.2.2.2 "9-1.0" (by decide)⟩

/-- C2: for every one of the 120 reaction keys, the reaction matrix RXNM maps
the key to a contribution map with exactly three entries: the dimer fragment
identifier valued +1 and the two counterpoise monomer identifiers valued -1. -/
theorem C2_reaction_matrix :
    HRXN.length = 120 ∧
    ∀ rxn ∈ HRXN,
      RXNM.lookup (dbse ++ "-" ++ rxn) =
        some [(dbse ++ "-" ++ rxn ++ "-dimer", 1),
              (dbse ++ "-" ++ rxn ++ "-monoA-CP", -1),
              (dbse ++ "-" ++ rxn ++ "-monoB-CP", -1)] :=
  ⟨by decide, fun rxn hr =>
    lookup_map_of_nodup (fun r => dbse ++ "-" ++ r)
      (fun r =>
        [(dbse ++ "-" ++ r ++ "-dimer", 1),
         (dbse ++ "-" ++ r ++ "-monoA-CP", -1),
         (dbse ++ "-" ++ r ++ "-monoB-CP", -1)])
      HRXN HRXN_keys_nodup rxn hr⟩

/-- Witness for C2 at the concrete key 1-0.9. -/
theorem C2_reaction_matrix_witness :
    "1-0.9" ∈ HRXN ∧
    RXNM.lookup (dbse ++ "-" ++ "1-0.9") =
      some [(dbse ++ "-" ++ "1-0.9" ++ "-dimer", 1),
            (dbse ++ "-" ++ "1-0.9" ++ "-monoA-CP", -1),
            (dbse ++ "-" ++ "1-0.9" ++ "-monoB-CP", -1)] :=
  ⟨by decide, C2_reaction_matrix.2 "1-0.9" (by decide)⟩

/-- C3: the original table BIND_cm has exactly the 120 reaction keys, in
order; BIND is its image under division of every value by 349.7551, applied to
all entries and to no others, exactly once each: the key list is unchanged,
looking up any key in BIND yields exactly the BIND_cm value divided by the
constant, and every one of the 120 reaction keys is present. -/
theorem C3_rescaling :
    BIND_cm.length = 120 ∧
    BIND_cm.map Prod.fst = HRXN.map (fun rxn => dbse ++ "-" ++ rxn) ∧
    BIND.map Prod.fst = BIND_cm.map Prod.fst ∧
    (∀ k : String,
      BIND.lookup k = (BIND_cm.lookup k).map (fun v => v / KCALMOL2WAVENUMBERS)) ∧
    ∀ rxn ∈ HRXN, (BIND_cm.lookup (dbse ++ "-" ++ rxn)).isSome = true := by
  have hkeys : BIND_cm.map Prod.fst = HRXN.map (fun rxn => dbse ++ "-" ++ rxn) := by
    decide
  refine ⟨by decide, hkeys, by decide,
    fun k => lookup_map_snd (fun v => v / KCALMOL2WAVENUMBERS) BIND_cm k,
    fun rxn hr => lookup_isSome_of_mem_keys ?_⟩
  rw [hkeys]
  exact List.mem_map_of_mem _ hr

/-- Witness for C3 at the concrete key 24-0.9. -/
theorem C3_rescaling_witness :
    "24-0.9" ∈ HRXN ∧ (BIND_cm.lookup (dbse ++ "-" ++ "24-0.9")).isSome = true :=
  ⟨by decide, C3_rescaling.2.2.2.2 "24-0.9" (by decide)⟩

/-- C8 as stated is false at its own concrete input: the stored converted
value for key O24by5mb-24-0.9 is -8922.76 / 349.7551, but that number is not
within 1/10000 of -25.5064 (it differs in the third decimal place). -/
theorem C8_counterexample :
    BIND.lookup ("O24by5mb-24-0.9") =
      some ((-8922.76 : ℚ) / KCALMOL2WAVENUMBERS) ∧
    ¬ |(-8922.76 : ℚ) / KCALMOL2WAVENUMBERS - (-25.5064)| < 1 / 10000 := by
  refine ⟨rfl, ?_⟩
  show ¬ |(-8922.76 : ℚ) / 349.7551 - (-25.5064)| < 1 / 10000
  norm_num [abs_lt]

/-- C8 (amended): the converted reference energy stored under key
O24by5mb-24-0.9 equals the literal table value -8922.76 divided by 349.7551,
which is approximately -25.5115 in converted units (within 1/10000). -/
theorem C8_converted_value :
    BIND_cm.lookup ("O24by5mb-24-0.9") = some (-8922.76 : ℚ) ∧
    BIND.lookup ("O24by5mb-24-0.9") =
      some ((-8922.76 : ℚ) / KCALMOL2WAVENUMBERS) ∧
    |(-8922.76 : ℚ) / KCALMOL2WAVENUMBERS - (-25.5115)| < 1 / 10000 := by
  refine ⟨rfl, rfl, ?_⟩
  show |(-8922.76 : ℚ) / 349.7551 - (-25.5115)| < 1 / 10000
  norm_num [abs_lt]

/-- C9: the tag stored under key O24by5mb-20-2.0 is the string " Na Li ",
whose content names Na Li (it contains "Na Li" as a substring). -/
theorem C9_tag :
    TAGL.lookup ("O24by5mb-20-2.0") = some (" Na Li ") ∧
    ∃ pre post : String, " Na Li " = pre ++ "Na Li" ++ post :=
  ⟨rfl, " ", " ", by decide⟩

/-- C10: the two active-list maps ACTV and ACTV_CP are identical, and for
every one of the 120 reaction keys both map the key to the three-element list
[dimer, monoA-CP, monoB-CP] in that order, while ACTV_SA maps the key to the
one-element list holding only the dimer identifier. -/
theorem C10_active_lists :
    ACTV = ACTV_CP ∧
    ∀ rxn ∈ HRXN,
      ACTV.lookup (dbse ++ "-" ++ rxn) =
        some [dbse ++ "-" ++ rxn ++ "-dimer",
              dbse ++ "-" ++ rxn ++ "-monoA-CP",
              dbse ++ "-" ++ rxn ++ "-monoB-CP"] ∧
      ACTV_CP.lookup (dbse ++ "-" ++ rxn) =
        some [dbse ++ "-" ++ rxn ++ "-dimer",
              dbse ++ "-" ++ rxn ++ "-monoA-CP",
              dbse ++ "-" ++ rxn ++ "-monoB-CP"] ∧
      ACTV_SA.lookup (dbse ++ "-" ++ rxn) = some [dbse ++ "-" ++ rxn ++ "-dimer"] :=
  ⟨rfl, fun rxn hr =>
    ⟨lookup_map_of_nodup (fun r => dbse ++ "-" ++ r)
        (fun r =>
          [dbse ++ "-" ++ r ++ "-dimer",
           dbse ++ "-" ++ r ++ "-monoA-CP",
           dbse ++ "-" ++ r ++ "-monoB-CP"])
        HRXN HRXN_keys_nodup rxn hr,
     lookup_map_of_nodup (fun r => dbse ++ "-" ++ r)
        (fun r =>
          [dbse ++ "-" ++ r ++ "-dimer",
           dbse ++ "-" ++ r ++ "-monoA-CP",
           dbse ++ "-" ++ r ++ "-monoB-CP"])
        HRXN HRXN_keys_nodup rxn hr,
     lookup_map_of_nodup (fun r => dbse ++ "-" ++ r)
        (fun r => [dbse ++ "-" ++ r ++ "-dimer"])
        HRXN HRXN_keys_nodup rxn hr⟩⟩

/-- Witness for C10 at the concrete key 16-1.2. -/
theorem C10_active_lists_witness :
    "16-1.2" ∈ HRXN ∧
    ACTV.lookup (dbse ++ "-" ++ "16-1.2") =
      some [dbse ++ "-" ++ "16-1.2" ++ "-dimer",
            dbse ++ "-" ++ "16-1.2" ++ "-monoA-CP",
            dbse ++ "-" ++ "16-1.2" ++ "-monoB-CP"] ∧
    ACTV_CP.lookup (dbse ++ "-" ++ "16-1.2") =
      some [dbse ++ "-" ++ "16-1.2" ++ "-dimer",
            dbse ++ "-" ++ "16-1.2" ++ "-monoA-CP",
            dbse ++ "-" ++ "16-1.2" ++ "-monoB-CP"] ∧
    ACTV_SA.lookup (dbse ++ "-" ++ "16-1.2") =
      some [dbse ++ "-" ++ "16-1.2" ++ "-dimer"] :=
  ⟨by decide, C10_active_lists.2 "16-1.2" (by decide)⟩

/-- C4: for every one of the 120 reaction keys, the derived monoA-CP geometry
stored by the loop is the dimer's extraction keeping fragment 1 and ghosting
fragments 2 and 3 in place, and the monoB-CP geometry keeps fragment 2 and
ghosts fragments 1 and 3; every atomic center retains its absolute coordinates
from the parent dimer, the kept fragment is the real one (its atoms are
non-ghost in the dimer), and the derivation is the deterministic function
extract_fragments. -/
theorem C4_cp_derivation :
    ∀ rxn ∈ HRXN, ∀ (d : Molecule) (f1 f2 f3 : Fragment),
      GEOS_dimers.lookup (dbse ++ "-" ++ rxn ++ "-dimer") = some d →
      d.fragments = [f1, f2, f3] →
      (dbse ++ "-" ++ rxn ++ "-monoA-CP", d.extract_fragments 1 [2, 3]) ∈ GEOS ∧
      (dbse ++ "-" ++ rxn ++ "-monoB-CP", d.extract_fragments 2 [1, 3]) ∈ GEOS ∧
      (d.extract_fragments 1 [2, 3]).fragments = [f1, f2.ghostify, f3.ghostify] ∧
      (d.extract_fragments 2 [1, 3]).fragments = [f1.ghostify, f2, f3.ghostify] ∧
      (d.extract_fragments 1 [2, 3]).coords = d.coords ∧
      (d.extract_fragments 2 [1, 3]).coords = d.coords ∧
      f1.atoms.all (fun a => !a.ghost) = true ∧
      f2.atoms.all (fun a => !a.ghost) = true := by
  intro rxn hr d f1 f2 f3 hd hf
  have hm := mem_GEOS_derived hr hd
  have hreal := GEOS_dimers_leading_real _ (mem_of_lookup_eq_some hd)
  refine ⟨hm.1, hm.2, extract13_fragments d f1 f2 f3 hf, extract23_fragments d f1 f2 f3 hf,
    coords_extract13 d f1 f2 f3 hf, coords_extract23 d f1 f2 f3 hf, ?_, ?_⟩
  · exact hreal f1 (by rw [hf]; simp)
  · exact hreal f2 (by rw [hf]; simp)

/-- Witness for C4 at the concrete key 1-0.9 and its stored dimer literal. -/
theorem C4_cp_derivation_witness :
    "1-0.9" ∈ HRXN ∧
    GEOS_dimers.lookup (dbse ++ "-" ++ "1-0.9" ++ "-dimer") = some g1_0_9 ∧
    g1_0_9.fragments =
      [{ charge := some 0, mult := some 2, atoms := [
          { el := "C", ghost := false, x := -0.664078525, y := 0.000000000, z := 1.259898914 },
          { el := "N", ghost := false, x := 0.292558536, y := 0.000000000, z := 1.928630081 }] },
       { charge := some 0, mult := some 1, atoms := [
          { el := "He", ghost := false, x := 0.149064407, y := 0.000000000, z := -1.619916319 }] },
       { charge := none, mult := none, atoms := [
          { el := "H", ghost := true, x := 0.000000000, y := 0.000000000, z := 0.000000000 }] }] ∧
    ((dbse ++ "-" ++ "1-0.9" ++ "-monoA-CP",
        g1_0_9.extract_fragments 1 [2, 3]) ∈ GEOS ∧
     (dbse ++ "-" ++ "1-0.9" ++ "-monoB-CP",
        g1_0_9.extract_fragments 2 [1, 3]) ∈ GEOS ∧
     (g1_0_9.extract_fragments 1 [2, 3]).fragments =
       [{ charge := some 0, mult := some 2, atoms := [
           { el := "C", ghost := false, x := -0.664078525, y := 0.000000000, z := 1.259898914 },
           { el := "N", ghost := false, x := 0.292558536, y := 0.000000000, z := 1.928630081 }] },
        Fragment.ghostify { charge := some 0, mult := some 1, atoms := [
           { el := "He", ghost := false, x := 0.149064407, y := 0.000000000, z := -1.619916319 }] },
        Fragment.ghostify { charge := none, mult := none, atoms := [
           { el := "H", ghost := true, x := 0.000000000, y := 0.000000000, z := 0.000000000 }] }] ∧
     (g1_0_9.extract_fragments 2 [1, 3]).fragments =
       [Fragment.ghostify { charge := some 0, mult := some 2, atoms := [
           { el := "C", ghost := false, x := -0.664078525, y := 0.000000000, z := 1.259898914 },
           { el := "N", ghost := false, x := 0.292558536, y := 0.000000000, z := 1.928630081 }] },
        { charge := some 0, mult := some 1, atoms := [
           { el := "He", ghost := false, x := 0.149064407, y := 0.000000000, z := -1.619916319 }] },
        Fragment.ghostify { charge := none, mult := none, atoms := [
           { el := "H", ghost := true, x := 0.000000000, y := 0.000000000, z := 0.000000000 }] }] ∧
     (g1_0_9.extract_fragments 1 [2, 3]).coords = g1_0_9.coords ∧
     (g1_0_9.extract_fragments 2 [1, 3]).coords = g1_0_9.coords ∧
     List.all
        ([{ el := "C", ghost := false, x := -0.664078525, y := 0.000000000, z := 1.259898914 },
          { el := "N", ghost := false, x := 0.292558536, y := 0.000000000, z := 1.928630081 }] :
          List Atom)
        (fun a => !a.ghost) = true ∧
     List.all
        ([{ el := "He", ghost := false, x := 0.149064407, y := 0.000000000, z := -1.619916319 }] :
          List Atom)
        (fun a => !a.ghost) = true) :=
  ⟨by decide, rfl, rfl,
    C4_cp_derivation "1-0.9" (by decide) g1_0_9
      { charge := some 0, mult := some 2, atoms := [
          { el := "C", ghost := false, x := -0.664078525, y := 0.000000000, z := 1.259898914 },
          { el := "N", ghost := false, x := 0.292558536, y := 0.000000000, z := 1.928630081 }] }
      { charge := some 0, mult := some 1, atoms := [
          { el := "He", ghost := false, x := 0.149064407, y := 0.000000000, z := -1.619916319 }] }
      { charge := none, mult := none, atoms := [
          { el := "H", ghost := true, x := 0.000000000, y := 0.000000000, z := 0.000000000 }] }
      rfl rfl⟩

/-- C5: for every one of the 120 reaction keys, fragment extraction is not a
lossy filter: both stored counterpoise monomer geometries have exactly as many
atomic centers (real plus ghost) as the parent dimer. -/
theorem C5_extraction_counts :
    ∀ rxn ∈ HRXN, ∀ d : Molecule,
      GEOS_dimers.lookup (dbse ++ "-" ++ rxn ++ "-dimer") = some d →
      (dbse ++ "-" ++ rxn ++ "-monoA-CP", d.extract_fragments 1 [2, 3]) ∈ GEOS ∧
      (dbse ++ "-" ++ rxn ++ "-monoB-CP", d.extract_fragments 2 [1, 3]) ∈ GEOS ∧
      (d.extract_fragments 1 [2, 3]).natoms = d.natoms ∧
      (d.extract_fragments 2 [1, 3]).natoms = d.natoms := by
  intro rxn hr d hd
  have hm := mem_GEOS_derived hr hd
  obtain ⟨f1, f2, f3, hf⟩ :=
    List.length_eq_three.mp (GEOS_dimers_three_fragments _ (mem_of_lookup_eq_some hd))
  exact ⟨hm.1, hm.2, natoms_extract13 d f1 f2 f3 hf, natoms_extract23 d f1 f2 f3 hf⟩

/-- Witness for C5 at the concrete key 9-1.0 and its stored dimer literal. -/
theorem C5_extraction_counts_witness :
    "9-1.0" ∈ HRXN ∧
    GEOS_dimers.lookup (dbse ++ "-" ++ "9-1.0" ++ "-dimer") = some g9_1_0 ∧
    ((dbse ++ "-" ++ "9-1.0" ++ "-monoA-CP",
        g9_1_0.extract_fragments 1 [2, 3]) ∈ GEOS ∧
     (dbse ++ "-" ++ "9-1.0" ++ "-monoB-CP",
        g9_1_0.extract_fragments 2 [1, 3]) ∈ GEOS ∧
     (g9_1_0.extract_fragments 1 [2, 3]).natoms = g9_1_0.natoms ∧
     (g9_1_0.extract_fragments 2 [1, 3]).natoms = g9_1_0.natoms) :=
  ⟨by decide, rfl, C5_extraction_counts "9-1.0" (by decide) g9_1_0 rfl⟩

/-- C6: the geometry stored under key O24by5mb-9-1.0-dimer consists of two O2
fragments, each with charge 0 and spin multiplicity 3, plus the anchor ghost
atom, and the derived monoA-CP entry of the geometry table keeps monomer A's
two real oxygen atoms and turns monomer B's two atoms into ghost centers at
coordinates unchanged from the dimer. -/
theorem C6_O2_O2_example :
    GEOS_dimers.lookup (dbse ++ "-" ++ "9-1.0" ++ "-dimer") = some g9_1_0 ∧
    g9_1_0.fragments =
      [{ charge := some 0, mult := some 3, atoms := [
          { el := "O", ghost := false, x := 0.601000000, y := -1.650000000, z := 0.000000000 },
          { el := "O", ghost := false, x := -0.601000000, y := -1.650000000, z := 0.000000000 }] },
       { charge := some 0, mult := some 3, atoms := [
          { el := "O", ghost := false, x := 0.000000000, y := 1.650000000, z := 0.601000000 },
          { el := "O", ghost := false, x := 0.000000000, y := 1.650000000, z := -0.601000000 }] },
       { charge := none, mult := none, atoms := [
          { el := "H", ghost := true, x := 0.000000000, y := 0.000000000, z := 0.000000000 }] }] ∧
    (dbse ++ "-" ++ "9-1.0" ++ "-monoA-CP", g9_1_0.extract_fragments 1 [2, 3]) ∈ GEOS ∧
    (g9_1_0.extract_fragments 1 [2, 3]).fragments =
      [{ charge := some 0, mult := some 3, atoms := [
          { el := "O", ghost := false, x := 0.601000000, y := -1.650000000, z := 0.000000000 },
          { el := "O", ghost := false, x := -0.601000000, y := -1.650000000, z := 0.000000000 }] },
       { charge := some 0, mult := some 3, atoms := [
          { el := "O", ghost := true, x := 0.000000000, y := 1.650000000, z := 0.601000000 },
          { el := "O", ghost := true, x := 0.000000000, y := 1.650000000, z := -0.601000000 }] },
       { charge := none, mult := none, atoms := [
          { el := "H", ghost := true, x := 0.000000000, y := 0.000000000, z := 0.000000000 }] }] := by
  refine ⟨rfl, rfl, ?_, rfl⟩
  exact (mem_GEOS_derived (by decide) (rfl :
    GEOS_dimers.lookup (dbse ++ "-" ++ "9-1.0" ++ "-dimer") = some g9_1_0)).1

/-- C7: the 120 dimer geometry literals carry the 120 reaction keys in order,
and every one of them declares angstrom units, no reorientation, no
recentering, and c1 symmetry, with a single ghost hydrogen placeholder at the
origin as its last fragment. -/
theorem C7_anchor_and_directives :
    GEOS_dimers.length = 120 ∧
    GEOS_dimers.map Prod.fst = HRXN.map (fun rxn => dbse ++ "-" ++ rxn ++ "-dimer") ∧
    GEOS_dimers.map (fun p =>
        (p.2.units, p.2.no_reorient, p.2.no_com, p.2.symmetry, p.2.fragments.getLast?)) =
      HRXN.map (fun _ => ("angstrom", true, true, "c1",
        some { charge := none, mult := none, atoms := [
          { el := "H", ghost := true,
            x := 0.000000000, y := 0.000000000, z := 0.000000000 }] })) :=
  ⟨by decide, by decide, rfl⟩
